import Mathlib

/-!
doubango: SIP dialog base class and SDP "c=" header parser.

A shallow embedding of

* `trunk/tinySIP/src/dialogs/tsip_dialog.c`
  (`tsip_dialog_request_new`, `tsip_dialog_get_newdelay`, `tsip_dialog_update`,
  `tsip_dialog_update_challenges`, `tsip_dialog_add_common_headers`), and
* `tinySDP/src/headers/tsdp_header_C.c`
  (`tsdp_header_C_tostring`, `tsdp_header_C_parse` with its Ragel tables),

followed by the properties proved about them.

Conventions.  A C `char` is an `Int`, a C string is a `List Int`, a `char*`
that may be `NULL` is an `Option (List Int)`.  Signed 64-bit quantities
(`int64_t expires`) are `Int`; the 32-bit CSeq counter is a `Nat` reduced
modulo `2^32` where the source increments it.
-/

namespace Doubango

/-! ## C strings (tinySAK helpers) -/

/-- The bytes of a string literal, as C `char` values. -/
def cstr (s : String) : List Int := s.data.map (fun c => (c.toNat : Int))

/-- Modelled from the spec: `tolower` of the C library on ASCII letters, used by the
case-insensitive comparisons of tinySAK (which is not among the sources). -/
def tsk_tolower (c : Int) : Int := if 65 ≤ c ∧ c ≤ 90 then c + 32 else c

/-- Modelled from the spec: tinySAK `tsk_striequals(s1, s2)`, the case-insensitive
equality of two C strings; two `NULL` pointers are equal, `NULL` differs from every
string. -/
def tsk_striequals : Option (List Int) → Option (List Int) → Bool
  | some a, some b => decide (a.map tsk_tolower = b.map tsk_tolower)
  | none, none => true
  | _, _ => false

/-- Modelled from the spec: tinySAK `tsk_strequals(s1, s2)`, the case-sensitive
equality of two C strings; two `NULL` pointers are equal. -/
def tsk_strequals : Option (List Int) → Option (List Int) → Bool
  | some a, some b => decide (a = b)
  | none, none => true
  | _, _ => false

/-- Modelled from the spec: tinySAK `tsk_strempty(s)`: `s` is `NULL` or has no
character. -/
def tsk_strempty : Option (List Int) → Bool
  | none => true
  | some s => s.isEmpty

/-- Modelled from the spec: tinySAK `TSK_TIME_S_2_MS(S)`, seconds to milliseconds. -/
def TSK_TIME_S_2_MS (s : Int) : Int := s * 1000

/-- Modelled from the spec: tinySAK `TSK_TIME_MS_2_S(MS)`, milliseconds to seconds
(C integer division, which truncates towards zero). -/
def TSK_TIME_MS_2_S (ms : Int) : Int := Int.tdiv ms 1000

/-! ## Data model -/

/-- Modelled from the spec: a name/value parameter (`tsk_param_t` of tinySAK, whose
declaration is not among the sources); `tag` marks a parameter already used. -/
structure tsk_param_t where
  name : Option (List Int)
  value : Option (List Int)
  tag : Bool
deriving DecidableEq, Repr

/-- Modelled from the spec: tinySAK `tsk_params_have_param(params, name)`; parameter
names are case-insensitive. -/
def tsk_params_have_param (params : List tsk_param_t) (name : List Int) : Bool :=
  params.any (fun p => tsk_striequals p.name (some name))

/-- Modelled from the spec: tinySAK `tsk_params_get_param_value(params, name)`: the
value of the first parameter of that name, `NULL` when there is none. -/
def tsk_params_get_param_value (params : List tsk_param_t) (name : List Int) :
    Option (List Int) :=
  match params.find? (fun p => tsk_striequals p.name (some name)) with
  | some p => p.value
  | none => none

/-- Modelled from the spec: tinySAK `tsk_params_add_param(&params, name, value)`,
which adds the parameter at the end of the ordered list. -/
def tsk_params_add_param (params : List tsk_param_t) (name value : Option (List Int)) :
    List tsk_param_t :=
  params ++ [{ name := name, value := value, tag := false }]

/-- Modelled from the spec: a SIP URI (`tsip_uri_t`, declared in `tsip_uri.h`, not
among the sources): scheme, optional user, host, port and ordered parameters. -/
structure tsip_uri_t where
  scheme : Option (List Int)
  user_name : Option (List Int)
  host : Option (List Int)
  port : Int
  params : List tsk_param_t
deriving DecidableEq, Repr

/-- Modelled from the spec: the dialog states (`tsip_dialog_state_t`, declared in
`tsip_dialog.h`, not among the sources), in the order of the dialog life cycle
Initial, Early, Established, Terminated. -/
inductive tsip_dialog_state_t where
  | tsip_initial
  | tsip_early
  | tsip_established
  | tsip_terminated
deriving DecidableEq, Repr

open tsip_dialog_state_t

/-- Position of a state in the order Initial < Early < Established < Terminated. -/
def tsip_dialog_state_t.rank : tsip_dialog_state_t → Nat
  | tsip_initial => 0
  | tsip_early => 1
  | tsip_established => 2
  | tsip_terminated => 3

/-- Modelled from the spec: the request kinds (`tsip_request_type_t`, declared in
`tsip_message.h`, not among the sources): the methods named in `tsip_dialog.c`, and
`tsip_NONE` for any other method. -/
inductive tsip_request_type_t where
  | tsip_NONE
  | tsip_ACK
  | tsip_BYE
  | tsip_CANCEL
  | tsip_INVITE
  | tsip_OPTIONS
  | tsip_REGISTER
  | tsip_SUBSCRIBE
  | tsip_NOTIFY
  | tsip_REFER
  | tsip_INFO
  | tsip_UPDATE
  | tsip_MESSAGE
  | tsip_PUBLISH
  | tsip_PRACK
deriving DecidableEq, Repr

open tsip_request_type_t

/-- Modelled from the spec: the message kinds (`tsip_message_type_t`, declared in
`tsip_message.h`, not among the sources). -/
inductive tsip_message_type_t where
  | tsip_unknown
  | tsip_request
  | tsip_response
deriving DecidableEq, Repr

/-- Modelled from the spec: an authentication challenge kept by a dialog
(`tsip_challenge_t`, declared in `tsip_challenge.h`, not among the sources): scheme,
realm, nonce, opaque, algorithm, qop and the proxy flag. -/
structure tsip_challenge_t where
  isproxy : Bool
  scheme : Option (List Int)
  realm : Option (List Int)
  nonce : Option (List Int)
  opaq : Option (List Int)
  algorithm : Option (List Int)
  qop : Option (List Int)
deriving DecidableEq, Repr

/-- Modelled from the spec: value of a `CSeq` header (`CSeq.seq : u32`,
`CSeq.method : string`). -/
structure tsip_header_CSeq_t where
  seq : Nat
  method : Option (List Int)
deriving DecidableEq, Repr

/-- Modelled from the spec: value of a `From` or `To` header: a URI and an optional
tag. -/
structure tsip_header_To_t where
  uri : Option tsip_uri_t
  tag : Option (List Int)
deriving DecidableEq, Repr

/-- Modelled from the spec: value of a `Contact` header; `expires` is `-1` when the
parameter is absent (comment in `tsip_dialog_get_newdelay`). -/
structure tsip_header_Contact_t where
  uri : Option tsip_uri_t
  expires : Int
  params : List tsk_param_t
deriving DecidableEq, Repr

/-- Modelled from the spec: value of a `WWW-Authenticate` or `Proxy-Authenticate`
header, with the fields that `tsip_dialog_update_challenges` reads. -/
structure tsip_header_WWW_Authenticate_t where
  scheme : Option (List Int)
  realm : Option (List Int)
  nonce : Option (List Int)
  opaq : Option (List Int)
  algorithm : Option (List Int)
  qop : Option (List Int)
  stale : Bool
deriving DecidableEq, Repr

/-- Modelled from the spec: value of an `Authorization` or `Proxy-Authorization`
header. -/
structure tsip_header_Authorization_t where
  scheme : Option (List Int)
  username : Option (List Int)
  realm : Option (List Int)
  nonce : Option (List Int)
  uri : Option (List Int)
  response : Option (List Int)
  opaq : Option (List Int)
  algorithm : Option (List Int)
  qop : Option (List Int)
deriving DecidableEq, Repr

/-- Modelled from the spec: the headers of the closed set that the dialog code reads
or writes (`tsip_header_t` with its `tsip_htype_*` kinds, declared in headers that are
not among the sources).  A `Record-Route` header is
represented by the URI it carries.  `tsip_dialog_update` stores the header objects
themselves in the dialog route list; the embedding names each stored entry by that
URI, which fixes the number and the order of the entries.  What
`tsip_dialog_request_new` reads from a stored header object through its `tsip_uri_t`
pointer depends on the layout of the two C structures and is not described here. -/
inductive tsip_header_t where
  | Contact (h : tsip_header_Contact_t)
  | Expires (delta_seconds : Int)
  | Subscription_State (expires : Int)
  | Record_Route (uri : tsip_uri_t)
  | Route (uri : tsip_uri_t)
  | WWW_Authenticate (h : tsip_header_WWW_Authenticate_t)
  | Proxy_Authenticate (h : tsip_header_WWW_Authenticate_t)
  | Authorization (h : tsip_header_Authorization_t)
  | Proxy_Authorization (h : tsip_header_Authorization_t)
  | P_Preferred_Identity (uri : tsip_uri_t)
  | P_Access_Network_Info (value : List Int)
  | Dummy (name value : Option (List Int))
deriving DecidableEq, Repr

/-- Modelled from the spec: the message object (`tsip_message_t`, of which
`tsip_request_t` and `tsip_response_t` are aliases; its declaration is not among the
sources): a tagged request or response with the dedicated `From`, `To`, `Call-ID`,
`CSeq` and `Contact` slots and the ordered collection of the other headers. -/
structure tsip_message_t where
  type : tsip_message_type_t
  method : Option (List Int)
  uri : Option tsip_uri_t
  request_type : tsip_request_type_t
  status_code : Int
  Call_ID : Option (List Int)
  From : Option tsip_header_To_t
  To : Option tsip_header_To_t
  CSeq : Option tsip_header_CSeq_t
  Contact : Option tsip_header_Contact_t
  headers : List tsip_header_t
  update : Bool
deriving DecidableEq, Repr

/-- Modelled from the spec: the stack a dialog belongs to (`tsip_stack_t`, declared in
`tsip.h`, not among the sources): identity, realm and options, with
the answers of its two look-ups `tsip_stack_get_pcscf_uri(stack, 1)` and
`tsip_stack_get_contacturi(stack, transport)`. -/
structure tsip_stack_t where
  enable_earlyIMS : Bool
  realm : Option tsip_uri_t
  private_identity : Option (List Int)
  public_identity : Option tsip_uri_t
  preferred_identity : Option tsip_uri_t
  netinfo : Option (List Int)
  service_routes : List tsip_uri_t
  pcscf_uri : Option tsip_uri_t
  contacturi : Option (List Int) → Option tsip_uri_t

/-- Modelled from the spec: the operation attached to a dialog: what
`tsip_operation_get_caps` and
`tsip_operation_get_headers` return. -/
structure tsip_operation_t where
  caps : List tsk_param_t
  headers : List tsk_param_t

/-- Modelled from the spec: the dialog (`tsip_dialog_t`, declared in `tsip_dialog.h`,
not among the sources), with the fields that `tsip_dialog.c` reads and writes.
`routes` is the route set; a `NULL` list and an empty list are both the empty route
set, and its entries are not `NULL`.  `tsip_dialog_request_new` reads every entry as
a `tsip_uri_t`; the properties of that function are about route sets whose entries
are URIs. -/
structure tsip_dialog_t where
  stack : tsip_stack_t
  operation : tsip_operation_t
  initialized : Bool
  state : tsip_dialog_state_t
  callid : Option (List Int)
  tag_local : Option (List Int)
  tag_remote : Option (List Int)
  uri_local : tsip_uri_t
  uri_remote : Option tsip_uri_t
  uri_remote_target : Option tsip_uri_t
  cseq_value : Nat
  expires : Int
  routes : List tsip_uri_t
  challenges : List tsip_challenge_t

/-- Functions of tinySIP that the dialog calls and whose code is not among the
sources; they are parameters of the embedding. -/
structure tsip_deps where
  /-- The call `tsip_uri_clone(uri, with_params, quote)`. -/
  tsip_uri_clone : tsip_uri_t → Bool → Bool → tsip_uri_t
  /-- The call `tsip_uri_tostring(uri, with_params, quote)`. -/
  tsip_uri_tostring : Option tsip_uri_t → Bool → Bool → Option (List Int)
  /-- The Contact headers that `tsip_header_Contact_parse` reads from the line
  `m: <sip:USER@127.0.0.1:5060>;expires=SECONDS` written by `tsk_sprintf`, as a
  function of `USER` and `SECONDS`. -/
  tsip_header_Contact_parse : Option (List Int) → Int → List tsip_header_Contact_t
  /-- The credentials computed by `tsip_challenge_create_header_authorization(challenge,
  request)`, `none` when it returns `NULL`; the header is an Authorization, or a
  Proxy-Authorization for a proxy challenge. -/
  tsip_challenge_create_header_authorization :
    tsip_challenge_t → tsip_message_t → Option tsip_header_Authorization_t

/-! ## Message construction (tinySIP message layer, not among the sources) -/

/-- Modelled from the spec: the request kind of a method name, as
`tsip_request_new` records it in `request_type`; method names are compared
case-insensitively. -/
def tsip_request_get_type (method : Option (List Int)) : tsip_request_type_t :=
  if tsk_striequals method (some (cstr "ACK")) then tsip_ACK
  else if tsk_striequals method (some (cstr "BYE")) then tsip_BYE
  else if tsk_striequals method (some (cstr "CANCEL")) then tsip_CANCEL
  else if tsk_striequals method (some (cstr "INVITE")) then tsip_INVITE
  else if tsk_striequals method (some (cstr "OPTIONS")) then tsip_OPTIONS
  else if tsk_striequals method (some (cstr "REGISTER")) then tsip_REGISTER
  else if tsk_striequals method (some (cstr "SUBSCRIBE")) then tsip_SUBSCRIBE
  else if tsk_striequals method (some (cstr "NOTIFY")) then tsip_NOTIFY
  else if tsk_striequals method (some (cstr "REFER")) then tsip_REFER
  else if tsk_striequals method (some (cstr "INFO")) then tsip_INFO
  else if tsk_striequals method (some (cstr "UPDATE")) then tsip_UPDATE
  else if tsk_striequals method (some (cstr "MESSAGE")) then tsip_MESSAGE
  else if tsk_striequals method (some (cstr "PUBLISH")) then tsip_PUBLISH
  else if tsk_striequals method (some (cstr "PRACK")) then tsip_PRACK
  else tsip_NONE

/-- Modelled from the spec: `tsip_request_new(method, request_uri, from, to, call_id,
cseq)`, the operation `new_request` of the message model: a request with the given
method, Request-URI, From and To URIs (no tags yet), Call-ID and CSeq. -/
def tsip_request_new (method : Option (List Int)) (request_uri from_uri to_uri : Option tsip_uri_t)
    (call_id : Option (List Int)) (cseq : Nat) : tsip_message_t :=
  { type := tsip_message_type_t.tsip_request
    method := method
    uri := request_uri
    request_type := tsip_request_get_type method
    status_code := 0
    Call_ID := call_id
    From := some { uri := from_uri, tag := none }
    To := some { uri := to_uri, tag := none }
    CSeq := some { seq := cseq, method := method }
    Contact := none
    headers := []
    update := false }

/-- Modelled from the spec: `tsip_message_add_header` / `TSIP_MESSAGE_ADD_HEADER`,
the operation `add_header` of the message model: appends, no deduplication. -/
def tsip_message_add_header (msg : tsip_message_t) (hdr : tsip_header_t) : tsip_message_t :=
  { msg with headers := msg.headers ++ [hdr] }

/-- Modelled from the spec: the macro `TSIP_MESSAGE_IS_RESPONSE(msg)` of
`tsip_message.h`. -/
def TSIP_MESSAGE_IS_RESPONSE (msg : tsip_message_t) : Bool :=
  decide (msg.type = tsip_message_type_t.tsip_response)

/-- Modelled from the spec: the macro `TSIP_REQUEST_IS_ACK(request)` of
`tsip_message.h`. -/
def TSIP_REQUEST_IS_ACK (request : tsip_message_t) : Bool :=
  decide (request.request_type = tsip_ACK)

/-- Modelled from the spec: the macro `TSIP_REQUEST_IS_CANCEL(request)` of
`tsip_message.h`. -/
def TSIP_REQUEST_IS_CANCEL (request : tsip_message_t) : Bool :=
  decide (request.request_type = tsip_CANCEL)

/-- Modelled from the spec: the macro `TSIP_REQUEST_IS_REGISTER(request)` of
`tsip_message.h`. -/
def TSIP_REQUEST_IS_REGISTER (request : tsip_message_t) : Bool :=
  decide (request.request_type = tsip_REGISTER)

/-- The `Route` headers of a message, in the order they were added. -/
def tsip_message_routes (msg : tsip_message_t) : List tsip_uri_t :=
  msg.headers.filterMap (fun h => match h with
    | tsip_header_t.Route u => some u
    | _ => none)

/-- Modelled from the spec: the `Record-Route` headers of a message, in header order
(`get_header(msg, kind, index)` of the message model): what
`tsip_message_get_headerAt(msg, tsip_htype_Record_Route, index)` returns for
`index = 0, 1, ...` until it returns `NULL`, each header named by the URI it
carries. -/
def tsip_message_record_routes (msg : tsip_message_t) : List tsip_uri_t :=
  msg.headers.filterMap (fun h => match h with
    | tsip_header_t.Record_Route u => some u
    | _ => none)

/-- Modelled from the spec: the `WWW-Authenticate` headers of a message, in header
order, as `tsip_message_get_headerAt` enumerates them. -/
def tsip_message_www_authenticates (msg : tsip_message_t) : List tsip_header_WWW_Authenticate_t :=
  msg.headers.filterMap (fun h => match h with
    | tsip_header_t.WWW_Authenticate a => some a
    | _ => none)

/-- Modelled from the spec: the `Proxy-Authenticate` headers of a message, in header
order, as `tsip_message_get_headerAt` enumerates them. -/
def tsip_message_proxy_authenticates (msg : tsip_message_t) : List tsip_header_WWW_Authenticate_t :=
  msg.headers.filterMap (fun h => match h with
    | tsip_header_t.Proxy_Authenticate a => some a
    | _ => none)

/-- Modelled from the spec: the `Contact` headers of a message: the dedicated
`Contact` slot first, then the
Contact headers of the collection; `tsip_message_get_headerAt(msg, tsip_htype_Contact,
index)` walks this list. -/
def tsip_message_contacts (msg : tsip_message_t) : List tsip_header_Contact_t :=
  msg.Contact.toList ++ msg.headers.filterMap (fun h => match h with
    | tsip_header_t.Contact c => some c
    | _ => none)

/-- Modelled from the spec: the first `Expires` header,
`tsip_message_get_header(msg, tsip_htype_Expires)`:
its `delta_seconds`. -/
def tsip_message_get_expires (msg : tsip_message_t) : Option Int :=
  (msg.headers.filterMap (fun h => match h with
    | tsip_header_t.Expires e => some e
    | _ => none)).head?

/-- Modelled from the spec: the first `Subscription-State` header,
`tsip_message_get_header(msg, tsip_htype_Subscription_State)`: its `expires`. -/
def tsip_message_get_subscription_state (msg : tsip_message_t) : Option Int :=
  (msg.headers.filterMap (fun h => match h with
    | tsip_header_t.Subscription_State e => some e
    | _ => none)).head?

/-! ## Challenges (tsip_challenge.c, not among the sources) -/

/-- Modelled from the spec: `tsip_challenge_update`, which refreshes a stored
challenge from an authenticate header (scheme, realm, nonce, opaque, algorithm, qop)
and keeps its identity (the proxy flag); the second component is its return code. -/
def tsip_challenge_update (challenge : tsip_challenge_t) (h : tsip_header_WWW_Authenticate_t) :
    tsip_challenge_t × Int :=
  ({ challenge with
      scheme := h.scheme, realm := h.realm, nonce := h.nonce, opaq := h.opaq,
      algorithm := h.algorithm, qop := h.qop }, 0)

/-- Modelled from the spec: `TSIP_CHALLENGE_CREATE(stack, isproxy, scheme, realm,
nonce, opaque, algorithm, qop)`, a new challenge carrying the fields of the header. -/
def TSIP_CHALLENGE_CREATE (isproxy : Bool) (h : tsip_header_WWW_Authenticate_t) :
    tsip_challenge_t :=
  { isproxy := isproxy, scheme := h.scheme, realm := h.realm, nonce := h.nonce,
    opaq := h.opaq, algorithm := h.algorithm, qop := h.qop }

/-- Modelled from the spec: `tsip_challenge_create_empty_header_authorization(username,
realm, uri)`: an Authorization header with the given user name, realm and uri and
empty nonce and response (3GPP TS 24.229 5.1.1.2.2). -/
def tsip_challenge_create_empty_header_authorization
    (username realm uri : Option (List Int)) : tsip_header_t :=
  tsip_header_t.Authorization
    { scheme := some (cstr "Digest"), username := username, realm := realm,
      nonce := some [], uri := uri, response := some [],
      opaq := none, algorithm := none, qop := none }

/-! ## tsip_dialog.c -/

/-- Modelled from the spec: the range of the CSeq counter, `2^32` (`CSeq.seq : u32`;
the declaration of `cseq_value` is in `tsip_dialog.h`, not among the sources). -/
def CSEQ_MODULUS : Nat := 4294967296

/-- `tsip_dialog_add_common_headers(self, request)`: P-Preferred-Identity and
P-Access-Network-Info.  Returns the request with the headers added. -/
def tsip_dialog_add_common_headers (self : tsip_dialog_t) (request : tsip_message_t) :
    tsip_message_t :=
  let earlyIMS := self.stack.enable_earlyIMS
  let preferred_identity := self.stack.preferred_identity
  let netinfo := self.stack.netinfo
  let request :=
    match preferred_identity with
    | some pid =>
      match request.request_type with
      | tsip_BYE | tsip_INVITE | tsip_OPTIONS | tsip_SUBSCRIBE | tsip_NOTIFY
      | tsip_REFER | tsip_MESSAGE | tsip_PUBLISH | tsip_REGISTER =>
        if !earlyIMS || (earlyIMS && TSIP_REQUEST_IS_REGISTER request) then
          tsip_message_add_header request (tsip_header_t.P_Preferred_Identity pid)
        else request
      | _ => request
    | none => request
  match netinfo with
  | some info =>
    match request.request_type with
    | tsip_BYE | tsip_INVITE | tsip_OPTIONS | tsip_REGISTER | tsip_SUBSCRIBE
    | tsip_NOTIFY | tsip_PRACK | tsip_INFO | tsip_UPDATE | tsip_REFER
    | tsip_MESSAGE | tsip_PUBLISH =>
      tsip_message_add_header request (tsip_header_t.P_Access_Network_Info info)
    | _ => request
  | none => request

/-- The loop of `tsip_dialog_request_new` that copies the dialog routes into Route
headers: `index` starts at `-1`, is incremented for each route, and the routes whose
index is below `copy_routes_start` are skipped. -/
def tsip_dialog_copy_routes (copy_routes_start : Int) :
    List tsip_uri_t → Int → tsip_message_t → tsip_message_t
  | [], _, request => request
  | uri :: rest, index, request =>
    if index + 1 < copy_routes_start then
      tsip_dialog_copy_routes copy_routes_start rest (index + 1) request
    else
      tsip_dialog_copy_routes copy_routes_start rest (index + 1)
        (tsip_message_add_header request (tsip_header_t.Route uri))

/-- First part of `tsip_dialog_request_new`: the Request-URI and `copy_routes_start`,
the index of the first route to copy (`-1`: none), RFC 3261 12.2.1.1. -/
def tsip_dialog_request_new_uri (self : tsip_dialog_t) : Option tsip_uri_t × Int :=
  match self.routes with
  | [] => (self.uri_remote_target, -1)
  | first_route :: _ =>
    if tsk_params_have_param first_route.params (cstr "lr") then
      (self.uri_remote_target, 0)
    else
      (some first_route, 1)

/-- The `switch(request->request_type)` of `tsip_dialog_request_new`: nothing for
MESSAGE, an Expires header for PUBLISH, otherwise the Contact header with the
capabilities of the operation. -/
def tsip_dialog_request_new_contact (deps : tsip_deps) (self : tsip_dialog_t)
    (request : tsip_message_t) : tsip_message_t :=
  match request.request_type with
  | tsip_MESSAGE => request
  | tsip_PUBLISH =>
    tsip_message_add_header request (tsip_header_t.Expires (TSK_TIME_MS_2_S self.expires))
  | _ =>
    let hdr_contacts :=
      deps.tsip_header_Contact_parse self.uri_local.user_name (TSK_TIME_MS_2_S self.expires)
    let request : tsip_message_t :=
      match hdr_contacts with
      | [] => request
      | c :: _ => { request with Contact := some c }
    match request.Contact with
    | some c =>
      { request with
        Contact := some { c with
          params := self.operation.caps.foldl
            (fun ps param => tsk_params_add_param ps param.name param.value) c.params } }
    | none => request

/-- The header built from a stored challenge: an Authorization, or a
Proxy-Authorization for a proxy challenge. -/
def tsip_dialog_authorization_header (challenge : tsip_challenge_t)
    (h : tsip_header_Authorization_t) : tsip_header_t :=
  if challenge.isproxy then tsip_header_t.Proxy_Authorization h
  else tsip_header_t.Authorization h

/-- The block "Update authorizations" of `tsip_dialog_request_new`. -/
def tsip_dialog_request_new_authorizations (deps : tsip_deps) (self : tsip_dialog_t)
    (request : tsip_message_t) : tsip_message_t :=
  if self.state = tsip_initial ∧ self.challenges = [] then
    if TSIP_REQUEST_IS_REGISTER request && !self.stack.enable_earlyIMS then
      let realm := match self.stack.realm with
        | some r => r.host
        | none => some (cstr "(null)")
      let request_uri := deps.tsip_uri_tostring request.uri false false
      tsip_message_add_header request
        (tsip_challenge_create_empty_header_authorization
          self.stack.private_identity realm request_uri)
    else request
  else if self.challenges ≠ [] then
    self.challenges.foldl
      (fun req challenge =>
        match deps.tsip_challenge_create_header_authorization challenge req with
        | some auth_hdr =>
          tsip_message_add_header req (tsip_dialog_authorization_header challenge auth_hdr)
        | none => req)
      request
  else request

/-- The block "Update CSeq" of `tsip_dialog_request_new`:
`request->CSeq->seq = ++(TSIP_DIALOG(self)->cseq_value)` unless the request is an ACK
or a CANCEL. -/
def tsip_dialog_request_new_cseq (self : tsip_dialog_t) (request : tsip_message_t) :
    tsip_message_t × tsip_dialog_t :=
  if !TSIP_REQUEST_IS_ACK request && !TSIP_REQUEST_IS_CANCEL request then
    let cseq := (self.cseq_value + 1) % CSEQ_MODULUS
    ({ request with CSeq := request.CSeq.map (fun h => { h with seq := cseq }) },
     { self with cseq_value := cseq })
  else (request, self)

/-- The block "Route generation" of `tsip_dialog_request_new`. -/
def tsip_dialog_request_new_routes (self : tsip_dialog_t) (copy_routes_start : Int)
    (request : tsip_message_t) : tsip_message_t :=
  if !TSIP_REQUEST_IS_REGISTER request then
    if copy_routes_start ≠ -1 then
      if self.state = tsip_early ∨ self.state = tsip_established then
        tsip_dialog_copy_routes copy_routes_start self.routes (-1) request
      else request
    else
      if self.state = tsip_initial ∨ self.state = tsip_early then
        let request :=
          match self.stack.pcscf_uri with
          | some uri => tsip_message_add_header request (tsip_header_t.Route uri)
          | none => request
        self.stack.service_routes.foldl
          (fun req uri => tsip_message_add_header req (tsip_header_t.Route uri)) request
      else request
  else request

/-- The block "Add headers associated to the dialog's operation" of
`tsip_dialog_request_new`. -/
def tsip_dialog_request_new_headers (self : tsip_dialog_t) (request : tsip_message_t) :
    tsip_message_t :=
  self.operation.headers.foldl
    (fun req param =>
      if !param.tag then
        tsip_message_add_header req (tsip_header_t.Dummy param.name param.value)
      else req)
    request

/-- `tsip_dialog_request_new(self, method)`.  Returns the request and the dialog,
whose `cseq_value` the function increments through the `TSIP_DIALOG(self)` cast. -/
def tsip_dialog_request_new (deps : tsip_deps) (self : tsip_dialog_t)
    (method : Option (List Int)) : tsip_message_t × tsip_dialog_t :=
  let call_id := self.callid
  let to_uri := self.uri_remote
  let from_uri := self.uri_local
  let sel := tsip_dialog_request_new_uri self
  let request_uri := sel.1
  let copy_routes_start := sel.2
  let request := tsip_request_new method request_uri (some from_uri) to_uri call_id self.cseq_value
  let request : tsip_message_t :=
    { request with
      To := request.To.map (fun t => { t with tag := self.tag_remote })
      From := request.From.map (fun f => { f with tag := self.tag_local })
      update := true }
  let request := tsip_dialog_request_new_contact deps self request
  let request := tsip_dialog_request_new_authorizations deps self request
  let upd := tsip_dialog_request_new_cseq self request
  let request := upd.1
  let self := upd.2
  let request := tsip_dialog_request_new_routes self copy_routes_start request
  let request := tsip_dialog_request_new_headers self request
  (tsip_dialog_add_common_headers self request, self)

/-- The code after the label `compute:` of `tsip_dialog_get_newdelay`: the refresh
delay in milliseconds for an expiry in milliseconds (3GPP TS 24.229). -/
def tsip_dialog_newdelay_compute (expires : Int) : Int :=
  let expires := TSK_TIME_MS_2_S expires
  let newdelay := if expires > 1200 then expires - 600 else Int.tdiv expires 2
  TSK_TIME_S_2_MS newdelay

/-- The loop over the Contact headers in `tsip_dialog_get_newdelay`: the expiry in
milliseconds of the first Contact that matches the contact URI of the stack and has
`expires >= 0`. -/
def tsip_dialog_newdelay_contacts (stack : tsip_stack_t) :
    List tsip_header_Contact_t → Option Int
  | [] => none
  | contact :: rest =>
    match contact.uri with
    | some uri =>
      match stack.contacturi (tsk_params_get_param_value uri.params (cstr "transport")) with
      | some contactUri =>
        if tsk_strequals uri.user_name contactUri.user_name
            && tsk_strequals uri.host contactUri.host
            && decide (uri.port = contactUri.port)
            && decide (contact.expires ≥ 0) then
          some (TSK_TIME_S_2_MS contact.expires)
        else tsip_dialog_newdelay_contacts stack rest
      | none => tsip_dialog_newdelay_contacts stack rest
    | none => tsip_dialog_newdelay_contacts stack rest

/-- The expiry selected by the first block of `tsip_dialog_get_newdelay`: the one of
the Subscription-State header of a NOTIFY, when it is positive. -/
def tsip_dialog_newdelay_notify (response : tsip_message_t) : Option Int :=
  match response.CSeq with
  | some cseq =>
    if tsk_striequals cseq.method (some (cstr "NOTIFY")) then
      match tsip_message_get_subscription_state response with
      | some hdr_state_expires =>
        if hdr_state_expires > 0 then some (TSK_TIME_S_2_MS hdr_state_expires) else none
      | none => none
    else none
  | none => none

/-- `tsip_dialog_get_newdelay(self, response)`: milliseconds to wait before the
refresh. -/
def tsip_dialog_get_newdelay (self : tsip_dialog_t) (response : tsip_message_t) : Int :=
  let expires := self.expires
  let expires :=
    match tsip_dialog_newdelay_notify response with
    | some e => e
    | none =>
      match tsip_message_get_expires response with
      | some delta_seconds => TSK_TIME_S_2_MS delta_seconds
      | none =>
        match tsip_dialog_newdelay_contacts self.stack (tsip_message_contacts response) with
        | some e => e
        | none => expires
  tsip_dialog_newdelay_compute expires

/-- The inner `tsk_list_foreach` of `tsip_dialog_update_challenges` for one
authenticate header: walks the stored challenges, skipping those of the other kind
(`isproxy`), refreshing a challenge of the same realm when the header is stale or a
new vector is accepted, and returning `-1` at the first other challenge.  Yields the
store as it stands when the loop ends, the flag `isnew`, and the early return code. -/
def tsip_dialog_update_challenges_foreach (isproxy : Bool)
    (hdr : tsip_header_WWW_Authenticate_t) (acceptNewVector : Bool) :
    List tsip_challenge_t → Bool → List tsip_challenge_t × Bool × Option Int
  | [], isnew => ([], isnew, none)
  | challenge :: rest, isnew =>
    if challenge.isproxy ≠ isproxy then
      let r := tsip_dialog_update_challenges_foreach isproxy hdr acceptNewVector rest isnew
      (challenge :: r.1, r.2.1, r.2.2)
    else if tsk_strequals challenge.realm hdr.realm && (hdr.stale || acceptNewVector) then
      let u := tsip_challenge_update challenge hdr
      if u.2 ≠ 0 then (u.1 :: rest, isnew, some u.2)
      else
        let r := tsip_dialog_update_challenges_foreach isproxy hdr acceptNewVector rest false
        (u.1 :: r.1, r.2.1, r.2.2)
    else (challenge :: rest, isnew, some (-1))

/-- One turn of an outer `for` loop of `tsip_dialog_update_challenges`: the inner
loop, then the new challenge pushed at the back when `isnew` is still set. -/
def tsip_dialog_update_challenges_header (isproxy : Bool) (acceptNewVector : Bool)
    (challenges : List tsip_challenge_t) (hdr : tsip_header_WWW_Authenticate_t) :
    List tsip_challenge_t × Option Int :=
  let r := tsip_dialog_update_challenges_foreach isproxy hdr acceptNewVector challenges true
  match r.2.2 with
  | some ret => (r.1, some ret)
  | none => if r.2.1 then (r.1 ++ [TSIP_CHALLENGE_CREATE isproxy hdr], none) else (r.1, none)

/-- An outer `for` loop of `tsip_dialog_update_challenges` over the authenticate
headers of one kind, stopping at the first early return. -/
def tsip_dialog_update_challenges_loop (isproxy : Bool) (acceptNewVector : Bool) :
    List tsip_header_WWW_Authenticate_t → List tsip_challenge_t →
      List tsip_challenge_t × Option Int
  | [], challenges => (challenges, none)
  | hdr :: hdrs, challenges =>
    let r := tsip_dialog_update_challenges_header isproxy acceptNewVector challenges hdr
    match r.2 with
    | some ret => (r.1, some ret)
    | none => tsip_dialog_update_challenges_loop isproxy acceptNewVector hdrs r.1

/-- `tsip_dialog_update_challenges(self, response, acceptNewVector)`: the return code
and the dialog with its challenge store updated in place. -/
def tsip_dialog_update_challenges (self : tsip_dialog_t) (response : tsip_message_t)
    (acceptNewVector : Bool) : Int × tsip_dialog_t :=
  let w := tsip_dialog_update_challenges_loop false acceptNewVector
    (tsip_message_www_authenticates response) self.challenges
  match w.2 with
  | some ret => (ret, { self with challenges := w.1 })
  | none =>
    let p := tsip_dialog_update_challenges_loop true acceptNewVector
      (tsip_message_proxy_authenticates response) w.1
    match p.2 with
    | some ret => (ret, { self with challenges := p.1 })
    | none => (0, { self with challenges := p.1 })

/-- The block "Remote target" of `tsip_dialog_update`: when the response is not to a
REGISTER and has a Contact, the remote target is released and replaced by a clone of
the Contact URI, if the Contact has one. -/
def tsip_dialog_update_remote_target (deps : tsip_deps) (self : tsip_dialog_t)
    (response : tsip_message_t) (isRegister : Bool) : tsip_dialog_t :=
  if !isRegister then
    match response.Contact with
    | some contact =>
      { self with
        uri_remote_target :=
          contact.uri.map (fun uri => deps.tsip_uri_clone uri false false) }
    | none => self
  else self

/-- `tsip_dialog_update(self, response)`: the return code and the updated dialog. -/
def tsip_dialog_update (deps : tsip_deps) (self : tsip_dialog_t) (response : tsip_message_t) :
    Int × tsip_dialog_t :=
  match response.To with
  | some To =>
    if TSIP_MESSAGE_IS_RESPONSE response then
      let code := response.status_code
      let tag := To.tag
      let isRegister :=
        match response.CSeq with
        | some cseq => tsk_striequals cseq.method (some (cstr "REGISTER"))
        | none => false
      if code = 401 ∨ code = 407 ∨ code = 421 ∨ code = 494 then
        let acceptNewVector := isRegister && decide (self.state = tsip_established)
        tsip_dialog_update_challenges self response acceptNewVector
      else if 100 < code ∧ code < 300 then
        if code ≤ 199 ∧ tsk_strempty tag = true then (-1, self)
        else
          let state := if code ≤ 199 then tsip_early else tsip_established
          -- Remote target
          let self1 := tsip_dialog_update_remote_target deps self response isRegister
          -- Route set: freed, then every Record-Route pushed at the front
          let self2 : tsip_dialog_t :=
            { self1 with
              routes := (tsip_message_record_routes response).foldl
                (fun routes hdr => hdr :: routes) [] }
          -- cseq + tags
          if self2.state = tsip_established ∧ tsk_striequals self2.tag_remote tag = true then
            (0, self2)
          else
            (0, { self2 with
                  tag_remote := tag
                  cseq_value := match response.CSeq with
                    | some cseq => cseq.seq
                    | none => self2.cseq_value
                  state := state })
      else (-1, self)
    else (-1, self)
  | none => (-1, self)

/-! ## tsdp_header_C.c -/

/-- Modelled from the spec: SDP "c=" header (`tsdp_header_C_t`, declared in
`tsdp_header_C.h`, not among the sources): the three strings that
`tsdp_header_C_create` sets, `NULL` until they are set. -/
structure tsdp_header_C_t where
  nettype : Option (List Int)
  addrtype : Option (List Int)
  addr : Option (List Int)
deriving DecidableEq, Repr

/-- Modelled from the spec: `TSDP_HEADER_C_CREATE_NULL()`, the header that
`tsdp_header_C_create` builds from three `NULL` strings. -/
def TSDP_HEADER_C_CREATE_NULL : tsdp_header_C_t :=
  { nettype := none, addrtype := none, addr := none }

/-- Modelled from the spec: how the `%s` of `tsk_buffer_appendEx` prints a string
argument: the bytes of the string up to its first NUL byte, which ends a C string
(`(null)` for a `NULL` pointer). -/
def tsk_format_s : Option (List Int) → List Int
  | some s => s.takeWhile (fun b => b != 0)
  | none => cstr "(null)"

/-- `tsdp_header_C_tostring(header, output)`: what `tsk_buffer_appendEx(output,
"%s %s %s", nettype, addrtype, addr)` appends to the buffer; each field is printed as
a C string, up to its first NUL byte. -/
def tsdp_header_C_tostring (C : tsdp_header_C_t) (output : List Int) : List Int :=
  output ++ tsk_format_s C.nettype ++ [32] ++ tsk_format_s C.addrtype ++ [32]
    ++ tsk_format_s C.addr

/-- Ragel table `_tsdp_machine_parser_header_C_actions`. -/
def _tsdp_machine_parser_header_C_actions : List Int :=
  [0, 1, 0, 1, 1, 1, 2, 1,
   3, 1, 4, 2, 0, 2, 2, 0,
   3]

/-- Ragel table `_tsdp_machine_parser_header_C_key_offsets`. -/
def _tsdp_machine_parser_header_C_key_offsets : List Int :=
  [0, 0, 1, 3, 4, 5, 6, 7,
   8, 9, 10]

/-- Ragel table `_tsdp_machine_parser_header_C_trans_keys`. -/
def _tsdp_machine_parser_header_C_trans_keys : List Int :=
  [99, 32, 61, 32, 32, 32, 32, 13,
   13, 10, 0]

/-- Ragel table `_tsdp_machine_parser_header_C_single_lengths`. -/
def _tsdp_machine_parser_header_C_single_lengths : List Int :=
  [0, 1, 2, 1, 1, 1, 1, 1,
   1, 1, 0]

/-- Ragel table `_tsdp_machine_parser_header_C_range_lengths`. -/
def _tsdp_machine_parser_header_C_range_lengths : List Int :=
  [0, 0, 0, 0, 0, 0, 0, 0,
   0, 0, 0]

/-- Ragel table `_tsdp_machine_parser_header_C_index_offsets`. -/
def _tsdp_machine_parser_header_C_index_offsets : List Int :=
  [0, 0, 2, 5, 7, 9, 11, 13,
   15, 17, 19]

/-- Ragel table `_tsdp_machine_parser_header_C_trans_targs`. -/
def _tsdp_machine_parser_header_C_trans_targs : List Int :=
  [2, 0, 2, 3, 0, 3, 4, 5,
   4, 7, 6, 7, 6, 9, 8, 9,
   8, 10, 0, 0, 0]

/-- Ragel table `_tsdp_machine_parser_header_C_trans_actions`. -/
def _tsdp_machine_parser_header_C_trans_actions : List Int :=
  [0, 0, 0, 0, 0, 0, 1, 3,
   0, 11, 1, 5, 0, 14, 1, 7,
   0, 9, 0, 0, 0]

/-- Start state of the machine. -/
def tsdp_machine_parser_header_C_start : Int := 1

/-- First final state of the machine. -/
def tsdp_machine_parser_header_C_first_final : Int := 10

/-- Error state of the machine. -/
def tsdp_machine_parser_header_C_error : Int := 0

/-- Reading `table[i]` in one of the tables above. -/
def tsdp_table_at (table : List Int) (i : Int) : Int := table.getD i.toNat 0

/-- The first `while (1)` loop of `tsdp_header_C_parse`: binary search of `c` among
the single keys `trans_keys[lower..upper]`; `some mid` at `goto _match`, `none` at
`break`.  Each turn shrinks the interval, so `fuel` turns are enough when `fuel`
exceeds the number of keys. -/
def tsdp_machine_single_search (c : Int) : Nat → Int → Int → Option Int
  | 0, _, _ => none
  | fuel + 1, lower, upper =>
    if upper < lower then none
    else
      let mid := lower + (upper - lower) / 2
      if c < tsdp_table_at _tsdp_machine_parser_header_C_trans_keys mid then
        tsdp_machine_single_search c fuel lower (mid - 1)
      else if c > tsdp_table_at _tsdp_machine_parser_header_C_trans_keys mid then
        tsdp_machine_single_search c fuel (mid + 1) upper
      else some mid

/-- The second `while (1)` loop of `tsdp_header_C_parse`: binary search of `c` among
the key ranges, pairs `trans_keys[mid], trans_keys[mid + 1]`. -/
def tsdp_machine_range_search (c : Int) : Nat → Int → Int → Option Int
  | 0, _, _ => none
  | fuel + 1, lower, upper =>
    if upper < lower then none
    else
      let mid := lower + ((upper - lower) / 2 - ((upper - lower) / 2) % 2)
      if c < tsdp_table_at _tsdp_machine_parser_header_C_trans_keys mid then
        tsdp_machine_range_search c fuel lower (mid - 2)
      else if c > tsdp_table_at _tsdp_machine_parser_header_C_trans_keys (mid + 1) then
        tsdp_machine_range_search c fuel (mid + 2) upper
      else some mid

/-- From `_resume` to `_match`: the index `_trans` of the transition taken in state
`cs` on the character `c`. -/
def tsdp_machine_trans (cs : Int) (c : Int) : Int :=
  let keys := tsdp_table_at _tsdp_machine_parser_header_C_key_offsets cs
  let trans := tsdp_table_at _tsdp_machine_parser_header_C_index_offsets cs
  let klen := tsdp_table_at _tsdp_machine_parser_header_C_single_lengths cs
  let single :=
    if klen > 0 then tsdp_machine_single_search c (klen.toNat + 1) keys (keys + klen - 1)
    else none
  match single with
  | some mid => trans + (mid - keys)
  | none =>
    let keys := if klen > 0 then keys + klen else keys
    let trans := if klen > 0 then trans + klen else trans
    let klen := tsdp_table_at _tsdp_machine_parser_header_C_range_lengths cs
    let range :=
      if klen > 0 then
        tsdp_machine_range_search c (klen.toNat + 1) keys (keys + klen * 2 - 2)
      else none
    match range with
    | some mid => trans + (mid - keys) / 2
    | none => if klen > 0 then trans + klen else trans

/-- Modelled from the spec: `TSK_PARSER_SET_STRING(field)` of tinySAK: the field
receives the bytes from `tag_start` up to `p` (`p` excluded). -/
def TSK_PARSER_SET_STRING (data : List Int) (tag_start : Option Nat) (p : Nat) :
    Option (List Int) :=
  match tag_start with
  | some ts => some ((data.drop ts).take (p - ts))
  | none => none

/-- The variables of `tsdp_header_C_parse` that the machine updates. -/
structure tsdp_machine_state where
  cs : Int
  tag_start : Option Nat
  hdr_C : tsdp_header_C_t
deriving DecidableEq, Repr

/-- The `switch` on an action number, with `p` the position in `data`. -/
def tsdp_machine_action (data : List Int) (p : Nat) (act : Int)
    (st : tsdp_machine_state) : tsdp_machine_state :=
  if act = 0 then { st with tag_start := some p }
  else if act = 1 then
    { st with hdr_C := { st.hdr_C with nettype := TSK_PARSER_SET_STRING data st.tag_start p } }
  else if act = 2 then
    { st with hdr_C := { st.hdr_C with addrtype := TSK_PARSER_SET_STRING data st.tag_start p } }
  else if act = 3 then
    { st with hdr_C := { st.hdr_C with addr := TSK_PARSER_SET_STRING data st.tag_start p } }
  else st

/-- The loop `while ( _nacts-- > 0 ) switch ( *_acts++ )`, with `acts` the index of
`_acts` in the table of actions. -/
def tsdp_machine_exec (data : List Int) (p : Nat) :
    Nat → Int → tsdp_machine_state → tsdp_machine_state
  | 0, _, st => st
  | nacts + 1, acts, st =>
    tsdp_machine_exec data p nacts (acts + 1)
      (tsdp_machine_action data p (tsdp_table_at _tsdp_machine_parser_header_C_actions acts) st)

/-- From `_resume` to `_again`: the machine reads the character `c` at position `p`. -/
def tsdp_machine_step (data : List Int) (p : Nat) (c : Int)
    (st : tsdp_machine_state) : tsdp_machine_state :=
  let trans := tsdp_machine_trans st.cs c
  let st := { st with cs := tsdp_table_at _tsdp_machine_parser_header_C_trans_targs trans }
  let a := tsdp_table_at _tsdp_machine_parser_header_C_trans_actions trans
  if a = 0 then st
  else
    tsdp_machine_exec data p
      (tsdp_table_at _tsdp_machine_parser_header_C_actions a).toNat (a + 1) st

/-- The loop of the machine over the characters from `p` to `pe`: it stops at `pe`
(`_test_eof`) or in the error state (`_out`). -/
def tsdp_machine_run (data : List Int) :
    List Int → Nat → tsdp_machine_state → tsdp_machine_state
  | [], _, st => st
  | c :: rest, p, st =>
    if st.cs = 0 then st
    else tsdp_machine_run data rest (p + 1) (tsdp_machine_step data p c st)

/-- `tsdp_header_C_parse(data, size)`: the header, or `none` for the `NULL` returned
when the machine does not end in a final state. -/
def tsdp_header_C_parse (data : List Int) (size : Nat) : Option tsdp_header_C_t :=
  let st := tsdp_machine_run data (data.take size) 0
    { cs := tsdp_machine_parser_header_C_start, tag_start := none,
      hdr_C := TSDP_HEADER_C_CREATE_NULL }
  if st.cs < tsdp_machine_parser_header_C_first_final then none else some st.hdr_C

/-- Two messages that differ at most in their Contact slot and in their collection of
headers. -/
def tsip_message_frame (a b : tsip_message_t) : Prop :=
  b = { a with headers := b.headers, Contact := b.Contact }

/-- The target state of the transition taken in the state `cs` on the character `c`:
`cs = _tsdp_machine_parser_header_C_trans_targs[_trans]`. -/
def tsdp_machine_next (cs c : Int) : Int :=
  tsdp_table_at _tsdp_machine_parser_header_C_trans_targs (tsdp_machine_trans cs c)

/-- The state in which `tsdp_machine_run` ends, as a function of the characters and of
the state it starts in: the run of the machine with its actions left out. -/
def tsdp_machine_cs_run : List Int → Int → Int
  | [], cs => cs
  | c :: rest, cs => if cs = 0 then cs else tsdp_machine_cs_run rest (tsdp_machine_next cs c)

/-- The lines that the machine accepts, in the words of the grammar: `c`, spaces,
`=`, spaces, a non-empty nettype without space, a space, an addrtype without space, a
space, an addr without carriage return, CR, LF. -/
def tsdp_header_C_line (s : List Int) : Prop :=
  ∃ sp1 sp2 n t a : List Int,
    s = [99] ++ sp1 ++ [61] ++ sp2 ++ n ++ [32] ++ t ++ [32] ++ a ++ [13, 10] ∧
    (∀ b ∈ sp1, b = 32) ∧ (∀ b ∈ sp2, b = 32) ∧
    n ≠ [] ∧ (∀ b ∈ n, b ≠ 32) ∧ (∀ b ∈ t, b ≠ 32) ∧ (∀ b ∈ a, b ≠ 13)

/-! ## Sample values -/

/-- The URI `sip:host`, with the `lr` parameter when `lr` is set. -/
def sample_uri (host : String) (lr : Bool) : tsip_uri_t :=
  { scheme := some (cstr "sip"), user_name := none, host := some (cstr host), port := 0,
    params := if lr then [{ name := some (cstr "lr"), value := none, tag := false }] else [] }

/-- The contact URI `sip:alice@127.0.0.1:5060`. -/
def sample_contact_uri : tsip_uri_t :=
  { scheme := some (cstr "sip"), user_name := some (cstr "alice"),
    host := some (cstr "127.0.0.1"), port := 5060, params := [] }

/-- A stack for `sip:alice@home.net`, without early IMS, P-CSCF or service routes. -/
def sample_stack : tsip_stack_t :=
  { enable_earlyIMS := false
    realm := some (sample_uri "home.net" false)
    private_identity := some (cstr "alice@home.net")
    public_identity := some { sample_contact_uri with host := some (cstr "home.net"), port := 0 }
    preferred_identity := none
    netinfo := none
    service_routes := []
    pcscf_uri := none
    contacturi := fun _ => some sample_contact_uri }

/-- Collaborators that copy a URI unchanged, print no URI, read the Contact line as
one Contact and answer every challenge with empty credentials. -/
def sample_deps : tsip_deps :=
  { tsip_uri_clone := fun uri _ _ => uri
    tsip_uri_tostring := fun _ _ _ => none
    tsip_header_Contact_parse := fun user expires =>
      [{ uri := some { sample_contact_uri with user_name := user }, expires := expires,
         params := [] }]
    tsip_challenge_create_header_authorization := fun challenge _ =>
      some { scheme := challenge.scheme, username := none, realm := challenge.realm,
             nonce := challenge.nonce, uri := none, response := none,
             opaq := challenge.opaq, algorithm := challenge.algorithm, qop := challenge.qop } }

/-- A dialog of `sample_stack` towards `sip:remoteua`, in the given state, with the
given local CSeq and route set. -/
def sample_dialog (state : tsip_dialog_state_t) (cseq : Nat) (routes : List tsip_uri_t) :
    tsip_dialog_t :=
  { stack := sample_stack
    operation := { caps := [], headers := [] }
    initialized := true
    state := state
    callid := some (cstr "call-1")
    tag_local := some (cstr "local")
    tag_remote := some (cstr "remote")
    uri_local := { sample_contact_uri with host := some (cstr "home.net"), port := 0 }
    uri_remote := some (sample_uri "remote.net" false)
    uri_remote_target := some (sample_uri "remoteua" false)
    cseq_value := cseq
    expires := 3600000
    routes := routes
    challenges := [] }

/-- A response with the given status code, To tag, CSeq and headers. -/
def sample_response (code : Int) (tag : Option (List Int)) (cseq : Option tsip_header_CSeq_t)
    (headers : List tsip_header_t) : tsip_message_t :=
  { type := tsip_message_type_t.tsip_response
    method := none
    uri := none
    request_type := tsip_NONE
    status_code := code
    Call_ID := some (cstr "call-1")
    From := some { uri := none, tag := some (cstr "local") }
    To := some { uri := none, tag := tag }
    CSeq := cseq
    Contact := none
    headers := headers
    update := false }

/-- The identity of a challenge in the store: its realm and its proxy flag. -/
def tsip_challenge_key (c : tsip_challenge_t) : Option (List Int) × Bool :=
  (c.realm, c.isproxy)

/-- The store holds at most one challenge per (realm, proxy flag). -/
def tsip_challenges_unique (store : List tsip_challenge_t) : Prop :=
  (store.map tsip_challenge_key).Nodup

/-- A stored Digest challenge for the given realm and nonce. -/
def sample_challenge (isproxy : Bool) (realm nonce : String) : tsip_challenge_t :=
  { isproxy := isproxy, scheme := some (cstr "Digest"), realm := some (cstr realm),
    nonce := some (cstr nonce), opaq := none, algorithm := some (cstr "MD5"),
    qop := some (cstr "auth") }

/-- A Digest authenticate header for the given realm and nonce. -/
def sample_authenticate (realm nonce : String) (stale : Bool) :
    tsip_header_WWW_Authenticate_t :=
  { scheme := some (cstr "Digest"), realm := some (cstr realm), nonce := some (cstr nonce),
    opaq := none, algorithm := some (cstr "MD5"), qop := some (cstr "auth"), stale := stale }

/-- The dialog `sample_dialog` in the given state with the given challenge store. -/
def sample_dialog_with (state : tsip_dialog_state_t) (challenges : List tsip_challenge_t) :
    tsip_dialog_t :=
  { sample_dialog state 1 [] with challenges := challenges }

/-- The `Authorization` headers of a message, in the order they were added. -/
def tsip_message_authorizations (msg : tsip_message_t) : List tsip_header_Authorization_t :=
  msg.headers.filterMap (fun h => match h with
    | tsip_header_t.Authorization a => some a
    | _ => none)

/-- Two messages that differ at most in their collection of headers. -/
def tsip_message_same_slots (a b : tsip_message_t) : Prop :=
  b = { a with headers := b.headers }

/-- The request of `tsip_dialog_request_new` as it enters the `switch` on the request
kind: the new request with the tags of the dialog on its To and From headers. -/
def tsip_dialog_request_new_start (self : tsip_dialog_t) (method : Option (List Int)) :
    tsip_message_t :=
  { tsip_request_new method (tsip_dialog_request_new_uri self).1
      (some self.uri_local) self.uri_remote self.callid self.cseq_value with
    To := (tsip_request_new method (tsip_dialog_request_new_uri self).1
      (some self.uri_local) self.uri_remote self.callid self.cseq_value).To.map
        (fun t => { t with tag := self.tag_remote })
    From := (tsip_request_new method (tsip_dialog_request_new_uri self).1
      (some self.uri_local) self.uri_remote self.callid self.cseq_value).From.map
        (fun f => { f with tag := self.tag_local })
    update := true }

/-- The `P-Preferred-Identity` headers of a message, in the order they were added. -/
def tsip_message_preferred_identities (msg : tsip_message_t) : List tsip_uri_t :=
  msg.headers.filterMap (fun h => match h with
    | tsip_header_t.P_Preferred_Identity u => some u
    | _ => none)

/-- The stack `sample_stack` with the preferred identity `sip:alice@home.net` and the
given early-IMS option. -/
def sample_stack_preferred (earlyIMS : Bool) : tsip_stack_t :=
  { sample_stack with
    enable_earlyIMS := earlyIMS
    preferred_identity := sample_stack.public_identity }

/-- An Established dialog of `sample_stack_preferred`. -/
def sample_dialog_preferred (earlyIMS : Bool) : tsip_dialog_t :=
  { sample_dialog tsip_established 1 [] with stack := sample_stack_preferred earlyIMS }

/-- A request of the given method, as `tsip_request_new` builds it. -/
def sample_request (method : String) : tsip_message_t :=
  tsip_request_new (some (cstr method)) (some (sample_uri "remoteua" false))
    (some (sample_uri "home.net" false)) (some (sample_uri "remote.net" false))
    (some (cstr "call-1")) 1

/-- `tsip_dialog_cmp(d1, d2)`: 0 when both dialogs exist and have the same Call-ID,
local tag and remote tag, each compared by `tsk_strequals`; -1 otherwise. -/
def tsip_dialog_cmp (d1 d2 : Option tsip_dialog_t) : Int :=
  match d1, d2 with
  | some d1, some d2 =>
    if tsk_strequals d1.callid d2.callid
        && tsk_strequals d1.tag_local d2.tag_local
        && tsk_strequals d1.tag_remote d2.tag_remote then 0
    else -1
  | _, _ => -1

/-- A call made on a dialog: `tsip_dialog_request_new` with a method, or
`tsip_dialog_update` with a response. -/
inductive tsip_dialog_call where
  | request_new (method : Option (List Int))
  | update (response : tsip_message_t)

/-- The dialog after one call. -/
def tsip_dialog_call_apply (deps : tsip_deps) (self : tsip_dialog_t) :
    tsip_dialog_call → tsip_dialog_t
  | tsip_dialog_call.request_new method => (tsip_dialog_request_new deps self method).2
  | tsip_dialog_call.update response => (tsip_dialog_update deps self response).2

/-- The dialog after a sequence of calls, made one after the other. -/
def tsip_dialog_calls_apply (deps : tsip_deps) (self : tsip_dialog_t)
    (calls : List tsip_dialog_call) : tsip_dialog_t :=
  calls.foldl (tsip_dialog_call_apply deps) self

/-- The calls that cannot lower the local CSeq of the dialog they are made on: a
request that does not wrap the counter around, and an update with a response whose
CSeq number, if it has one, is not below the local CSeq. -/
def tsip_dialog_call_in_order (self : tsip_dialog_t) : tsip_dialog_call → Prop
  | tsip_dialog_call.request_new method =>
    tsip_request_get_type method ≠ tsip_ACK → tsip_request_get_type method ≠ tsip_CANCEL →
      self.cseq_value + 1 < CSEQ_MODULUS
  | tsip_dialog_call.update response =>
    ∀ cseq, response.CSeq = some cseq → self.cseq_value ≤ cseq.seq

/-- The response `sample_response` with a Contact header. -/
def sample_response_contact (code : Int) (tag : Option (List Int))
    (cseq : Option tsip_header_CSeq_t) (contact : tsip_header_Contact_t)
    (headers : List tsip_header_t) : tsip_message_t :=
  { sample_response code tag cseq headers with Contact := some contact }

/-- The Contact header `<sip:alice@127.0.0.1:5060>` with the given `expires`. -/
def sample_contact (expires : Int) : tsip_header_Contact_t :=
  { uri := some sample_contact_uri, expires := expires, params := [] }

/-- The Contacts that `tsip_dialog_get_newdelay` may take the expiry from, in the
words of the spec: the URI of the Contact has the user name, the host and the port of
the contact URI of the stack (for the transport named in the Contact URI), and its
`expires` is not negative. -/
def tsip_contact_is_local (stack : tsip_stack_t) (contact : tsip_header_Contact_t) : Bool :=
  match contact.uri with
  | some uri =>
    match stack.contacturi (tsk_params_get_param_value uri.params (cstr "transport")) with
    | some contactUri =>
      tsk_strequals uri.user_name contactUri.user_name
        && tsk_strequals uri.host contactUri.host
        && decide (uri.port = contactUri.port)
        && decide (0 ≤ contact.expires)
    | none => false
  | none => false

/-- The refresh delay in milliseconds for an expiry of `e` seconds, in the words of
the spec: 600 seconds before the expiry above 1200 seconds, half of the expiry
otherwise. -/
def tsip_refresh_delay (e : Int) : Int :=
  if e > 1200 then 1000 * (e - 600) else 1000 * (e / 2)

/-- The header with the nettype `IN`, an empty addrtype and the addr `10.0.0.1 127`. -/
def sample_header_C : tsdp_header_C_t :=
  { nettype := some (cstr "IN"), addrtype := some [], addr := some (cstr "10.0.0.1 127") }

/-- Reading `table[i]` with the bounds of the array checked: `none` for an index
outside the table. -/
def tsdp_table_read (table : List Int) (i : Int) : Option Int :=
  if 0 ≤ i then table.get? i.toNat else none

/-- The first `while (1)` loop of `tsdp_header_C_parse` with every read of
`trans_keys` checked: `some (some mid)` at `goto _match`, `some none` at `break`, and
`none` when `*_mid` is outside the table or the loop has not ended after `fuel`
turns. -/
def tsdp_machine_single_search_checked (c : Int) : Nat → Int → Int → Option (Option Int)
  | 0, _, _ => none
  | fuel + 1, lower, upper =>
    if upper < lower then some none
    else
      let mid := lower + (upper - lower) / 2
      match tsdp_table_read _tsdp_machine_parser_header_C_trans_keys mid with
      | none => none
      | some key =>
        if c < key then tsdp_machine_single_search_checked c fuel lower (mid - 1)
        else if c > key then tsdp_machine_single_search_checked c fuel (mid + 1) upper
        else some (some mid)

/-- The second `while (1)` loop of `tsdp_header_C_parse` with the reads of `_mid[0]`
and `_mid[1]` checked, in the same way. -/
def tsdp_machine_range_search_checked (c : Int) : Nat → Int → Int → Option (Option Int)
  | 0, _, _ => none
  | fuel + 1, lower, upper =>
    if upper < lower then some none
    else
      let mid := lower + ((upper - lower) / 2 - ((upper - lower) / 2) % 2)
      match tsdp_table_read _tsdp_machine_parser_header_C_trans_keys mid,
          tsdp_table_read _tsdp_machine_parser_header_C_trans_keys (mid + 1) with
      | some key0, some key1 =>
        if c < key0 then tsdp_machine_range_search_checked c fuel lower (mid - 2)
        else if c > key1 then tsdp_machine_range_search_checked c fuel (mid + 2) upper
        else some (some mid)
      | _, _ => none

/-- From `_resume` to `_match` with every table read checked: the index `_trans`, or
`none` when a read falls outside its table or a search does not end. -/
def tsdp_machine_trans_checked (cs : Int) (c : Int) : Option Int :=
  match tsdp_table_read _tsdp_machine_parser_header_C_key_offsets cs,
      tsdp_table_read _tsdp_machine_parser_header_C_index_offsets cs,
      tsdp_table_read _tsdp_machine_parser_header_C_single_lengths cs with
  | some keys, some _trans, some klen =>
    let single :=
      if klen > 0 then
        tsdp_machine_single_search_checked c (klen.toNat + 1) keys (keys + klen - 1)
      else some none
    match single with
    | none => none
    | some (some mid) => some (_trans + (mid - keys))
    | some none =>
      let keys := if klen > 0 then keys + klen else keys
      let _trans := if klen > 0 then _trans + klen else _trans
      match tsdp_table_read _tsdp_machine_parser_header_C_range_lengths cs with
      | none => none
      | some klen =>
        let range :=
          if klen > 0 then
            tsdp_machine_range_search_checked c (klen.toNat + 1) keys (keys + klen * 2 - 2)
          else some none
        match range with
        | none => none
        | some (some mid) => some (_trans + (mid - keys) / 2)
        | some none => some (if klen > 0 then _trans + klen else _trans)
  | _, _, _ => none

/-- The loop `while ( _nacts-- > 0 ) switch ( *_acts++ )` with the reads of the table
of actions checked. -/
def tsdp_machine_exec_checked (data : List Int) (p : Nat) :
    Nat → Int → tsdp_machine_state → Option tsdp_machine_state
  | 0, _, st => some st
  | nacts + 1, acts, st =>
    match tsdp_table_read _tsdp_machine_parser_header_C_actions acts with
    | none => none
    | some act =>
      tsdp_machine_exec_checked data p nacts (acts + 1) (tsdp_machine_action data p act st)

/-- From `_resume` to `_again` with every table read checked. -/
def tsdp_machine_step_checked (data : List Int) (p : Nat) (c : Int)
    (st : tsdp_machine_state) : Option tsdp_machine_state :=
  match tsdp_machine_trans_checked st.cs c with
  | none => none
  | some _trans =>
    match tsdp_table_read _tsdp_machine_parser_header_C_trans_targs _trans,
        tsdp_table_read _tsdp_machine_parser_header_C_trans_actions _trans with
    | some cs, some a =>
      let st := { st with cs := cs }
      if a = 0 then some st
      else
        match tsdp_table_read _tsdp_machine_parser_header_C_actions a with
        | none => none
        | some nacts => tsdp_machine_exec_checked data p nacts.toNat (a + 1) st
    | _, _ => none

/-- The loop of the machine with every table read checked; the second component
counts the passes through `_resume`, the transitions taken. -/
def tsdp_machine_run_checked (data : List Int) :
    List Int → Nat → tsdp_machine_state → Option (tsdp_machine_state × Nat)
  | [], _, st => some (st, 0)
  | c :: rest, p, st =>
    if st.cs = 0 then some (st, 0)
    else
      match tsdp_machine_step_checked data p c st with
      | none => none
      | some st1 =>
        match tsdp_machine_run_checked data rest (p + 1) st1 with
        | none => none
        | some r => some (r.1, r.2 + 1)

/-- `tsdp_header_C_parse(data, size)` with every table read checked: the result of the
function and the number of transitions taken, or `none` when a read falls outside its
table or a search does not end. -/
def tsdp_header_C_parse_checked (data : List Int) (size : Nat) :
    Option (Option tsdp_header_C_t × Nat) :=
  match tsdp_machine_run_checked data (data.take size) 0
      { cs := tsdp_machine_parser_header_C_start, tag_start := none,
        hdr_C := TSDP_HEADER_C_CREATE_NULL } with
  | none => none
  | some r =>
    some (if r.1.cs < tsdp_machine_parser_header_C_first_final then none
      else some r.1.hdr_C, r.2)

/-- The refresh delay in milliseconds for an expiry of `e` seconds as the C code
computes it: the division by 2 truncates towards zero. -/
def tsip_refresh_delay_truncated (e : Int) : Int :=
  if e > 1200 then 1000 * (e - 600) else 1000 * Int.tdiv e 2

/-- The dialog `sample_dialog`, Established, with the given expires value in
milliseconds. -/
def sample_dialog_expires (expires : Int) : tsip_dialog_t :=
  { sample_dialog tsip_established 1 [] with expires := expires }

/-- The header read from `c=IN IP4 10`, NUL, `.1`, CR, LF: its addr holds the NUL
byte. -/
def sample_header_C_nul : tsdp_header_C_t :=
  { nettype := some (cstr "IN"), addrtype := some (cstr "IP4"),
    addr := some (cstr "10" ++ [0] ++ cstr ".1") }

/-! # Theorems -/

/-! ## Properties of `tsip_dialog_request_new` -/

theorem tsip_message_frame_refl (a : tsip_message_t) : tsip_message_frame a a := rfl

theorem tsip_message_frame_trans {a b c : tsip_message_t}
    (h1 : tsip_message_frame a b) (h2 : tsip_message_frame b c) : tsip_message_frame a c := by
  unfold tsip_message_frame at *
  rw [h2, h1]

theorem tsip_message_frame_add_header (a : tsip_message_t) (h : tsip_header_t) :
    tsip_message_frame a (tsip_message_add_header a h) := rfl

theorem tsip_message_frame_foldl {α : Type} (f : tsip_message_t → α → tsip_message_t)
    (hf : ∀ m x, tsip_message_frame m (f m x)) (l : List α) (m : tsip_message_t) :
    tsip_message_frame m (l.foldl f m) := by
  induction l generalizing m with
  | nil => exact tsip_message_frame_refl m
  | cons x xs ih => exact tsip_message_frame_trans (hf m x) (ih (f m x))

theorem tsip_message_frame_uri {a b : tsip_message_t} (h : tsip_message_frame a b) :
    b.uri = a.uri := by
  unfold tsip_message_frame at h; rw [h]

theorem tsip_message_frame_CSeq {a b : tsip_message_t} (h : tsip_message_frame a b) :
    b.CSeq = a.CSeq := by
  unfold tsip_message_frame at h; rw [h]

theorem tsip_message_frame_request_type {a b : tsip_message_t} (h : tsip_message_frame a b) :
    b.request_type = a.request_type := by
  unfold tsip_message_frame at h; rw [h]

theorem tsip_dialog_request_new_contact_frame (deps : tsip_deps) (self : tsip_dialog_t)
    (request : tsip_message_t) :
    tsip_message_frame request (tsip_dialog_request_new_contact deps self request) := by
  unfold tsip_dialog_request_new_contact
  split
  · exact tsip_message_frame_refl _
  · exact tsip_message_frame_add_header _ _
  · cases deps.tsip_header_Contact_parse self.uri_local.user_name
        (TSK_TIME_MS_2_S self.expires) with
    | nil =>
      dsimp only
      split <;> rfl
    | cons c cs => rfl

theorem tsip_dialog_request_new_authorizations_frame (deps : tsip_deps) (self : tsip_dialog_t)
    (request : tsip_message_t) :
    tsip_message_frame request (tsip_dialog_request_new_authorizations deps self request) := by
  unfold tsip_dialog_request_new_authorizations
  split
  · split
    · exact tsip_message_frame_add_header _ _
    · exact tsip_message_frame_refl _
  · split
    · apply tsip_message_frame_foldl
      intro m x
      split
      · exact tsip_message_frame_add_header _ _
      · exact tsip_message_frame_refl _
    · exact tsip_message_frame_refl _

theorem tsip_dialog_copy_routes_frame (k : Int) (l : List tsip_uri_t) (index : Int)
    (request : tsip_message_t) :
    tsip_message_frame request (tsip_dialog_copy_routes k l index request) := by
  induction l generalizing index request with
  | nil => exact tsip_message_frame_refl _
  | cons uri rest ih =>
    unfold tsip_dialog_copy_routes
    split
    · exact ih _ _
    · exact tsip_message_frame_trans (tsip_message_frame_add_header _ _) (ih _ _)

theorem tsip_dialog_request_new_routes_frame (self : tsip_dialog_t) (k : Int)
    (request : tsip_message_t) :
    tsip_message_frame request (tsip_dialog_request_new_routes self k request) := by
  unfold tsip_dialog_request_new_routes
  split
  · split
    · split
      · exact tsip_dialog_copy_routes_frame _ _ _ _
      · exact tsip_message_frame_refl _
    · split
      · apply tsip_message_frame_trans _ (tsip_message_frame_foldl _ _ _ _)
        · split
          · exact tsip_message_frame_add_header _ _
          · exact tsip_message_frame_refl _
        · intro m x
          exact tsip_message_frame_add_header _ _
      · exact tsip_message_frame_refl _
  · exact tsip_message_frame_refl _

theorem tsip_dialog_request_new_headers_frame (self : tsip_dialog_t)
    (request : tsip_message_t) :
    tsip_message_frame request (tsip_dialog_request_new_headers self request) := by
  unfold tsip_dialog_request_new_headers
  apply tsip_message_frame_foldl
  intro m x
  split
  · exact tsip_message_frame_add_header _ _
  · exact tsip_message_frame_refl _

theorem tsip_dialog_add_common_headers_frame (self : tsip_dialog_t)
    (request : tsip_message_t) :
    tsip_message_frame request (tsip_dialog_add_common_headers self request) := by
  have h1 : ∀ (m : tsip_message_t),
      tsip_message_frame m
        (match self.stack.netinfo with
          | some info =>
            match m.request_type with
            | tsip_BYE | tsip_INVITE | tsip_OPTIONS | tsip_REGISTER | tsip_SUBSCRIBE
            | tsip_NOTIFY | tsip_PRACK | tsip_INFO | tsip_UPDATE | tsip_REFER
            | tsip_MESSAGE | tsip_PUBLISH =>
              tsip_message_add_header m (tsip_header_t.P_Access_Network_Info info)
            | _ => m
          | none => m) := by
    intro m
    split
    · split <;> first | exact tsip_message_frame_add_header _ _ | exact tsip_message_frame_refl _
    · exact tsip_message_frame_refl _
  unfold tsip_dialog_add_common_headers
  refine tsip_message_frame_trans ?_ (h1 _)
  split
  · split
    all_goals first
      | exact tsip_message_frame_refl _
      | (split
         · exact tsip_message_frame_add_header _ _
         · exact tsip_message_frame_refl _)
  · exact tsip_message_frame_refl _

/-! ### Method names -/

theorem tsk_striequals_exclusive {m : Option (List Int)} {a b : List Int}
    (hab : a.map tsk_tolower ≠ b.map tsk_tolower)
    (ha : tsk_striequals m (some a) = true) : tsk_striequals m (some b) = false := by
  cases m with
  | none => rfl
  | some x =>
    simp only [tsk_striequals, decide_eq_true_eq, decide_eq_false_iff_not] at *
    intro hb
    exact hab (ha.symm.trans hb)

theorem ite_ne_of_ne {α : Type} {c : Prop} [Decidable c] {a b x : α}
    (ha : a ≠ x) (hb : b ≠ x) : (if c then a else b) ≠ x := by
  split <;> assumption

theorem tsip_request_get_type_ACK (m : Option (List Int)) :
    tsip_request_get_type m = tsip_ACK ↔ tsk_striequals m (some (cstr "ACK")) = true := by
  constructor
  · intro h
    unfold tsip_request_get_type at h
    by_cases h1 : tsk_striequals m (some (cstr "ACK")) = true
    · exact h1
    rw [if_neg h1] at h
    refine absurd h ?_
    repeat (first | refine ite_ne_of_ne (by decide) ?_ | decide)
  · intro h
    unfold tsip_request_get_type
    rw [if_pos h]

theorem tsip_request_get_type_CANCEL (m : Option (List Int)) :
    tsip_request_get_type m = tsip_CANCEL ↔ tsk_striequals m (some (cstr "CANCEL")) = true := by
  constructor
  · intro h
    unfold tsip_request_get_type at h
    by_cases h1 : tsk_striequals m (some (cstr "ACK")) = true
    · rw [if_pos h1] at h; cases h
    rw [if_neg h1] at h
    by_cases h2 : tsk_striequals m (some (cstr "BYE")) = true
    · rw [if_pos h2] at h; cases h
    rw [if_neg h2] at h
    by_cases h3 : tsk_striequals m (some (cstr "CANCEL")) = true
    · exact h3
    rw [if_neg h3] at h
    refine absurd h ?_
    repeat (first | refine ite_ne_of_ne (by decide) ?_ | decide)
  · intro h
    have h1 : tsk_striequals m (some (cstr "ACK")) = false :=
      tsk_striequals_exclusive (by decide) h
    have h2 : tsk_striequals m (some (cstr "BYE")) = false :=
      tsk_striequals_exclusive (by decide) h
    unfold tsip_request_get_type
    rw [if_neg (ne_true_of_eq_false h1), if_neg (ne_true_of_eq_false h2), if_pos h]

theorem tsip_request_get_type_REGISTER (m : Option (List Int)) :
    tsip_request_get_type m = tsip_REGISTER ↔
      tsk_striequals m (some (cstr "REGISTER")) = true := by
  constructor
  · intro h
    unfold tsip_request_get_type at h
    by_cases h1 : tsk_striequals m (some (cstr "ACK")) = true
    · rw [if_pos h1] at h; cases h
    rw [if_neg h1] at h
    by_cases h2 : tsk_striequals m (some (cstr "BYE")) = true
    · rw [if_pos h2] at h; cases h
    rw [if_neg h2] at h
    by_cases h3 : tsk_striequals m (some (cstr "CANCEL")) = true
    · rw [if_pos h3] at h; cases h
    rw [if_neg h3] at h
    by_cases h4 : tsk_striequals m (some (cstr "INVITE")) = true
    · rw [if_pos h4] at h; cases h
    rw [if_neg h4] at h
    by_cases h5 : tsk_striequals m (some (cstr "OPTIONS")) = true
    · rw [if_pos h5] at h; cases h
    rw [if_neg h5] at h
    by_cases h6 : tsk_striequals m (some (cstr "REGISTER")) = true
    · exact h6
    rw [if_neg h6] at h
    refine absurd h ?_
    repeat (first | refine ite_ne_of_ne (by decide) ?_ | decide)
  · intro h
    have h1 : tsk_striequals m (some (cstr "ACK")) = false :=
      tsk_striequals_exclusive (by decide) h
    have h2 : tsk_striequals m (some (cstr "BYE")) = false :=
      tsk_striequals_exclusive (by decide) h
    have h3 : tsk_striequals m (some (cstr "CANCEL")) = false :=
      tsk_striequals_exclusive (by decide) h
    have h4 : tsk_striequals m (some (cstr "INVITE")) = false :=
      tsk_striequals_exclusive (by decide) h
    have h5 : tsk_striequals m (some (cstr "OPTIONS")) = false :=
      tsk_striequals_exclusive (by decide) h
    unfold tsip_request_get_type
    rw [if_neg (ne_true_of_eq_false h1), if_neg (ne_true_of_eq_false h2),
      if_neg (ne_true_of_eq_false h3), if_neg (ne_true_of_eq_false h4),
      if_neg (ne_true_of_eq_false h5), if_pos h]

/-! ### The request before and after the CSeq block -/

/-- The request of `tsip_dialog_request_new` as it stands before the block
"Update CSeq". -/
theorem tsip_dialog_request_new_before_cseq (deps : tsip_deps) (self : tsip_dialog_t)
    (method : Option (List Int)) :
    let request := tsip_request_new method (tsip_dialog_request_new_uri self).1
      (some self.uri_local) self.uri_remote self.callid self.cseq_value
    let request0 : tsip_message_t :=
      { request with
        To := request.To.map (fun t => { t with tag := self.tag_remote })
        From := request.From.map (fun f => { f with tag := self.tag_local })
        update := true }
    let request2 := tsip_dialog_request_new_authorizations deps self
      (tsip_dialog_request_new_contact deps self request0)
    request2.uri = (tsip_dialog_request_new_uri self).1 ∧
    request2.CSeq = some { seq := self.cseq_value, method := method } ∧
    request2.request_type = tsip_request_get_type method := by
  intro request request0 request2
  have hf : tsip_message_frame request0 request2 :=
    tsip_message_frame_trans (tsip_dialog_request_new_contact_frame deps self request0)
      (tsip_dialog_request_new_authorizations_frame deps self _)
  exact ⟨tsip_message_frame_uri hf, tsip_message_frame_CSeq hf,
    tsip_message_frame_request_type hf⟩

/-- What follows the block "Update CSeq" leaves the Request-URI, the CSeq and the
request kind alone. -/
theorem tsip_dialog_request_new_after_cseq (self : tsip_dialog_t) (k : Int)
    (request : tsip_message_t) :
    tsip_message_frame request
      (tsip_dialog_add_common_headers self
        (tsip_dialog_request_new_headers self
          (tsip_dialog_request_new_routes self k request))) :=
  tsip_message_frame_trans (tsip_dialog_request_new_routes_frame self k request)
    (tsip_message_frame_trans (tsip_dialog_request_new_headers_frame self _)
      (tsip_dialog_add_common_headers_frame self _))

theorem tsip_dialog_request_new_cseq_stage (self : tsip_dialog_t)
    (request : tsip_message_t) (method : Option (List Int))
    (hc : request.CSeq = some { seq := self.cseq_value, method := method }) :
    (tsip_dialog_request_new_cseq self request).1.CSeq =
        some { seq := (tsip_dialog_request_new_cseq self request).2.cseq_value,
               method := method } ∧
    (tsip_dialog_request_new_cseq self request).2 =
      { self with cseq_value :=
          if request.request_type ≠ tsip_ACK ∧ request.request_type ≠ tsip_CANCEL then
            (self.cseq_value + 1) % CSEQ_MODULUS
          else self.cseq_value } := by
  unfold tsip_dialog_request_new_cseq TSIP_REQUEST_IS_ACK TSIP_REQUEST_IS_CANCEL
  by_cases h1 : request.request_type = tsip_ACK
  · simp [h1, hc]
  · by_cases h2 : request.request_type = tsip_CANCEL
    · simp [h2, hc]
    · simp [h1, h2, hc]

theorem tsip_dialog_request_new_cseq_eq (deps : tsip_deps) (self : tsip_dialog_t)
    (method : Option (List Int)) :
    (tsip_dialog_request_new deps self method).1.CSeq =
        some { seq := (tsip_dialog_request_new deps self method).2.cseq_value,
               method := method } ∧
    (tsip_dialog_request_new deps self method).2 =
      { self with cseq_value :=
          if tsip_request_get_type method ≠ tsip_ACK ∧
              tsip_request_get_type method ≠ tsip_CANCEL then
            (self.cseq_value + 1) % CSEQ_MODULUS
          else self.cseq_value } := by
  obtain ⟨_, hc, ht⟩ := tsip_dialog_request_new_before_cseq deps self method
  have hs := tsip_dialog_request_new_cseq_stage self _ method hc
  rw [ht] at hs
  unfold tsip_dialog_request_new
  dsimp only
  rw [tsip_message_frame_CSeq (tsip_dialog_request_new_after_cseq _ _ _)]
  exact hs

/-! ### Route headers of the request -/

theorem tsip_message_routes_add_header (m : tsip_message_t) (h : tsip_header_t) :
    tsip_message_routes (tsip_message_add_header m h) =
      tsip_message_routes m ++
        (match h with
          | tsip_header_t.Route u => [u]
          | _ => []) := by
  unfold tsip_message_routes tsip_message_add_header
  rw [List.filterMap_append]
  cases h <;> rfl

theorem tsip_message_routes_foldl {α : Type} (f : tsip_message_t → α → tsip_message_t)
    (hf : ∀ m x, tsip_message_routes (f m x) = tsip_message_routes m) (l : List α)
    (m : tsip_message_t) : tsip_message_routes (l.foldl f m) = tsip_message_routes m := by
  induction l generalizing m with
  | nil => rfl
  | cons x xs ih => exact (ih (f m x)).trans (hf m x)

theorem tsip_dialog_request_new_contact_routes (deps : tsip_deps) (self : tsip_dialog_t)
    (request : tsip_message_t) :
    tsip_message_routes (tsip_dialog_request_new_contact deps self request) =
      tsip_message_routes request := by
  unfold tsip_dialog_request_new_contact
  split
  · rfl
  · rw [tsip_message_routes_add_header, List.append_nil]
  · cases deps.tsip_header_Contact_parse self.uri_local.user_name
        (TSK_TIME_MS_2_S self.expires) with
    | nil =>
      dsimp only
      split <;> rfl
    | cons c cs => rfl

theorem tsip_dialog_request_new_authorizations_routes (deps : tsip_deps)
    (self : tsip_dialog_t) (request : tsip_message_t) :
    tsip_message_routes (tsip_dialog_request_new_authorizations deps self request) =
      tsip_message_routes request := by
  unfold tsip_dialog_request_new_authorizations
  split
  · split
    · rw [tsip_message_routes_add_header]
      exact List.append_nil _
    · rfl
  · split
    · apply tsip_message_routes_foldl
      intro m x
      split
      · rw [tsip_message_routes_add_header]
        unfold tsip_dialog_authorization_header
        cases x.isproxy <;> exact List.append_nil _
      · rfl
    · rfl

theorem tsip_dialog_request_new_cseq_routes (self : tsip_dialog_t)
    (request : tsip_message_t) :
    tsip_message_routes (tsip_dialog_request_new_cseq self request).1 =
        tsip_message_routes request ∧
      (tsip_dialog_request_new_cseq self request).1.request_type = request.request_type := by
  unfold tsip_dialog_request_new_cseq
  split <;> exact ⟨rfl, rfl⟩

theorem tsip_dialog_request_new_headers_routes (self : tsip_dialog_t)
    (request : tsip_message_t) :
    tsip_message_routes (tsip_dialog_request_new_headers self request) =
      tsip_message_routes request := by
  unfold tsip_dialog_request_new_headers
  apply tsip_message_routes_foldl
  intro m x
  split
  · rw [tsip_message_routes_add_header]
    exact List.append_nil _
  · rfl

theorem tsip_dialog_add_common_headers_routes (self : tsip_dialog_t)
    (request : tsip_message_t) :
    tsip_message_routes (tsip_dialog_add_common_headers self request) =
      tsip_message_routes request := by
  have h1 : ∀ (m : tsip_message_t),
      tsip_message_routes
        (match self.stack.netinfo with
          | some info =>
            match m.request_type with
            | tsip_BYE | tsip_INVITE | tsip_OPTIONS | tsip_REGISTER | tsip_SUBSCRIBE
            | tsip_NOTIFY | tsip_PRACK | tsip_INFO | tsip_UPDATE | tsip_REFER
            | tsip_MESSAGE | tsip_PUBLISH =>
              tsip_message_add_header m (tsip_header_t.P_Access_Network_Info info)
            | _ => m
          | none => m) = tsip_message_routes m := by
    intro m
    split
    · split <;> first | rfl | (rw [tsip_message_routes_add_header]; exact List.append_nil _)
    · rfl
  unfold tsip_dialog_add_common_headers
  refine (h1 _).trans ?_
  split
  · split
    all_goals first
      | rfl
      | (split
         · rw [tsip_message_routes_add_header]
           exact List.append_nil _
         · rfl)
  · rfl

theorem tsip_dialog_copy_routes_routes (k : Int) (l : List tsip_uri_t) (index : Int)
    (request : tsip_message_t) :
    tsip_message_routes (tsip_dialog_copy_routes k l index request) =
      tsip_message_routes request ++ l.drop (k - (index + 1)).toNat := by
  induction l generalizing index request with
  | nil => simp [tsip_dialog_copy_routes]
  | cons uri rest ih =>
    unfold tsip_dialog_copy_routes
    split
    · next hlt =>
      rw [ih]
      have e : (k - (index + 1)).toNat = (k - (index + 1 + 1)).toNat + 1 := by omega
      rw [e, List.drop_succ_cons]
    · next hge =>
      rw [ih, tsip_message_routes_add_header]
      have e1 : (k - (index + 1)).toNat = 0 := by omega
      have e2 : (k - (index + 1 + 1)).toNat = 0 := by omega
      rw [e1, e2]
      simp

theorem tsip_dialog_request_new_routes_routes (self : tsip_dialog_t) (k : Int)
    (request : tsip_message_t) :
    tsip_message_routes (tsip_dialog_request_new_routes self k request) =
      tsip_message_routes request ++
        (if request.request_type = tsip_REGISTER then []
         else if k ≠ -1 then
           if self.state = tsip_early ∨ self.state = tsip_established then
             self.routes.drop k.toNat
           else []
         else if self.state = tsip_initial ∨ self.state = tsip_early then
           self.stack.pcscf_uri.toList ++ self.stack.service_routes
         else []) := by
  have hfold : ∀ (l : List tsip_uri_t) (m : tsip_message_t),
      tsip_message_routes
        (l.foldl (fun req uri => tsip_message_add_header req (tsip_header_t.Route uri)) m) =
        tsip_message_routes m ++ l := by
    intro l
    induction l with
    | nil => intro m; simp
    | cons x xs ih =>
      intro m
      rw [List.foldl_cons, ih, tsip_message_routes_add_header]
      simp
  unfold tsip_dialog_request_new_routes TSIP_REQUEST_IS_REGISTER
  by_cases hr : request.request_type = tsip_REGISTER
  · simp [hr]
  · simp only [hr, decide_False, Bool.not_false, if_true, if_false]
    by_cases hk : k = -1
    · simp only [hk, ne_eq, not_true_eq_false, if_false]
      split
      · rw [hfold]
        cases self.stack.pcscf_uri with
        | none => simp
        | some u => simp [tsip_message_routes_add_header]
      · simp
    · simp only [hk, ne_eq, not_false_eq_true, if_true]
      split
      · rw [tsip_dialog_copy_routes_routes]
        simp
      · simp

/-- The Route headers of the request built by `tsip_dialog_request_new`. -/
theorem tsip_dialog_request_new_routes_eq (deps : tsip_deps) (self : tsip_dialog_t)
    (method : Option (List Int)) :
    tsip_message_routes (tsip_dialog_request_new deps self method).1 =
      (if tsip_request_get_type method = tsip_REGISTER then []
       else if (tsip_dialog_request_new_uri self).2 ≠ -1 then
         if self.state = tsip_early ∨ self.state = tsip_established then
           self.routes.drop (tsip_dialog_request_new_uri self).2.toNat
         else []
       else if self.state = tsip_initial ∨ self.state = tsip_early then
         self.stack.pcscf_uri.toList ++ self.stack.service_routes
       else []) := by
  obtain ⟨_, hc, ht⟩ := tsip_dialog_request_new_before_cseq deps self method
  have hs := (tsip_dialog_request_new_cseq_stage self _ method hc).2
  unfold tsip_dialog_request_new
  dsimp only
  rw [tsip_dialog_add_common_headers_routes, tsip_dialog_request_new_headers_routes,
    tsip_dialog_request_new_routes_routes, (tsip_dialog_request_new_cseq_routes _ _).1,
    (tsip_dialog_request_new_cseq_routes _ _).2, tsip_dialog_request_new_authorizations_routes,
    tsip_dialog_request_new_contact_routes, ht, hs]
  rfl

theorem tsip_dialog_request_new_uri_eq (deps : tsip_deps) (self : tsip_dialog_t)
    (method : Option (List Int)) :
    (tsip_dialog_request_new deps self method).1.uri = (tsip_dialog_request_new_uri self).1 := by
  obtain ⟨hu, _, _⟩ := tsip_dialog_request_new_before_cseq deps self method
  have hs : ∀ (d : tsip_dialog_t) (m : tsip_message_t),
      (tsip_dialog_request_new_cseq d m).1.uri = m.uri := by
    intro d m
    unfold tsip_dialog_request_new_cseq
    split <;> rfl
  unfold tsip_dialog_request_new
  dsimp only
  rw [tsip_message_frame_uri (tsip_dialog_request_new_after_cseq _ _ _), hs]
  exact hu

/-! ### Claims on `tsip_dialog_request_new` -/

/-- C1 (counterexample): a dialog whose local CSeq is 4294967295 builds an INVITE
(neither ACK nor CANCEL) whose CSeq number is 0 and is left with local CSeq 0, not
with 4294967296. -/
theorem tsip_dialog_request_new_cseq_wraps :
    tsk_striequals (some (cstr "INVITE")) (some (cstr "ACK")) = false ∧
    tsk_striequals (some (cstr "INVITE")) (some (cstr "CANCEL")) = false ∧
    (sample_dialog tsip_established 4294967295 []).cseq_value = 4294967295 ∧
    (tsip_dialog_request_new sample_deps (sample_dialog tsip_established 4294967295 [])
        (some (cstr "INVITE"))).1.CSeq.map (fun h => h.seq) = some 0 ∧
    (tsip_dialog_request_new sample_deps (sample_dialog tsip_established 4294967295 [])
        (some (cstr "INVITE"))).1.CSeq.map (fun h => h.seq) ≠ some (4294967295 + 1) ∧
    (tsip_dialog_request_new sample_deps (sample_dialog tsip_established 4294967295 [])
        (some (cstr "INVITE"))).2.cseq_value = 0 := by
  decide

/-- C1 (amended): for every dialog whose local CSeq value is `c` and every method,
`tsip_dialog_request_new` returns a request whose CSeq number is `(c + 1) mod 2^32`
and leaves the local CSeq of the dialog at that value when the method is neither ACK
nor CANCEL (that is `c + 1` whenever `c + 1 < 2^32`), and returns a request whose CSeq
number is `c` and leaves the local CSeq at `c` when the method is ACK or CANCEL. -/
theorem tsip_dialog_request_new_cseq_number (deps : tsip_deps) (self : tsip_dialog_t)
    (method : Option (List Int)) :
    (tsk_striequals method (some (cstr "ACK")) = false →
      tsk_striequals method (some (cstr "CANCEL")) = false →
        ((tsip_dialog_request_new deps self method).1.CSeq.map (fun h => h.seq) =
            some ((self.cseq_value + 1) % 4294967296) ∧
          (tsip_dialog_request_new deps self method).2.cseq_value =
            (self.cseq_value + 1) % 4294967296) ∧
        (self.cseq_value + 1 < 4294967296 →
          (tsip_dialog_request_new deps self method).1.CSeq.map (fun h => h.seq) =
            some (self.cseq_value + 1) ∧
          (tsip_dialog_request_new deps self method).2.cseq_value = self.cseq_value + 1)) ∧
    (tsk_striequals method (some (cstr "ACK")) = true ∨
      tsk_striequals method (some (cstr "CANCEL")) = true →
        (tsip_dialog_request_new deps self method).1.CSeq.map (fun h => h.seq) =
          some self.cseq_value ∧
        (tsip_dialog_request_new deps self method).2.cseq_value = self.cseq_value) := by
  obtain ⟨h1, h2⟩ := tsip_dialog_request_new_cseq_eq deps self method
  rw [h1, h2]
  constructor
  · intro ha hc
    have hA : tsip_request_get_type method ≠ tsip_ACK := fun h =>
      Bool.false_ne_true (ha.symm.trans ((tsip_request_get_type_ACK method).1 h))
    have hC : tsip_request_get_type method ≠ tsip_CANCEL := fun h =>
      Bool.false_ne_true (hc.symm.trans ((tsip_request_get_type_CANCEL method).1 h))
    rw [if_pos ⟨hA, hC⟩]
    refine ⟨⟨rfl, rfl⟩, fun hlt => ?_⟩
    have e : (self.cseq_value + 1) % CSEQ_MODULUS = self.cseq_value + 1 :=
      Nat.mod_eq_of_lt hlt
    simp only [Option.map_some', e, and_self]
  · intro h
    have hn : ¬ (tsip_request_get_type method ≠ tsip_ACK ∧
        tsip_request_get_type method ≠ tsip_CANCEL) := by
      rcases h with h | h
      · exact fun hh => hh.1 ((tsip_request_get_type_ACK method).2 h)
      · exact fun hh => hh.2 ((tsip_request_get_type_CANCEL method).2 h)
    rw [if_neg hn]
    exact ⟨rfl, rfl⟩

/-- C1 (witness): an INVITE of a dialog at local CSeq 1 carries CSeq 2, and the CANCEL
built next carries 2 as well. -/
theorem tsip_dialog_request_new_cseq_number_witness :
    (tsip_dialog_request_new sample_deps (sample_dialog tsip_initial 1 [])
        (some (cstr "INVITE"))).1.CSeq.map (fun h => h.seq) = some (1 + 1) ∧
    (tsip_dialog_request_new sample_deps (sample_dialog tsip_initial 2 [])
        (some (cstr "CANCEL"))).1.CSeq.map (fun h => h.seq) = some 2 :=
  ⟨(((tsip_dialog_request_new_cseq_number sample_deps (sample_dialog tsip_initial 1 [])
      (some (cstr "INVITE"))).1 (by decide) (by decide)).2 (by decide)).1,
   ((tsip_dialog_request_new_cseq_number sample_deps (sample_dialog tsip_initial 2 [])
      (some (cstr "CANCEL"))).2 (Or.inr (by decide))).1⟩

/-- C2: the Request-URI of the request built by `tsip_dialog_request_new` is the
remote target of the dialog when the route set is empty, the remote target when the
first route has the `lr` parameter, and the first route when it has no `lr`
parameter. -/
theorem tsip_dialog_request_new_request_uri (deps : tsip_deps) (self : tsip_dialog_t)
    (method : Option (List Int)) :
    (self.routes = [] →
      (tsip_dialog_request_new deps self method).1.uri = self.uri_remote_target) ∧
    (∀ first rest, self.routes = first :: rest →
      tsk_params_have_param first.params (cstr "lr") = true →
        (tsip_dialog_request_new deps self method).1.uri = self.uri_remote_target) ∧
    (∀ first rest, self.routes = first :: rest →
      tsk_params_have_param first.params (cstr "lr") = false →
        (tsip_dialog_request_new deps self method).1.uri = some first) := by
  rw [tsip_dialog_request_new_uri_eq]
  unfold tsip_dialog_request_new_uri
  refine ⟨fun h => ?_, fun first rest h hlr => ?_, fun first rest h hlr => ?_⟩
  · rw [h]
  · rw [h]
    simp only [hlr, if_true]
  · rw [h]
    simp only [hlr, Bool.false_eq_true, if_false]

/-- C2 (witness): with the route set `sip:proxy1, sip:proxy2;lr` the Request-URI of a
BYE is `sip:proxy1`; with `sip:proxy2;lr` alone it is the remote target. -/
theorem tsip_dialog_request_new_request_uri_witness :
    (tsip_dialog_request_new sample_deps
        (sample_dialog tsip_established 1 [sample_uri "proxy1" false, sample_uri "proxy2" true])
        (some (cstr "BYE"))).1.uri = some (sample_uri "proxy1" false) ∧
    (tsip_dialog_request_new sample_deps
        (sample_dialog tsip_established 1 [sample_uri "proxy2" true])
        (some (cstr "BYE"))).1.uri = some (sample_uri "remoteua" false) :=
  ⟨(tsip_dialog_request_new_request_uri sample_deps
      (sample_dialog tsip_established 1 [sample_uri "proxy1" false, sample_uri "proxy2" true])
      (some (cstr "BYE"))).2.2 _ _ rfl (by decide),
   (tsip_dialog_request_new_request_uri sample_deps
      (sample_dialog tsip_established 1 [sample_uri "proxy2" true])
      (some (cstr "BYE"))).2.1 _ _ rfl (by decide)⟩

/-! ## Properties of `tsip_dialog_update` -/

theorem tsip_dialog_push_front_eq (l acc : List tsip_uri_t) :
    l.foldl (fun routes hdr => hdr :: routes) acc = l.reverse ++ acc := by
  induction l generalizing acc with
  | nil => rfl
  | cons x xs ih => rw [List.foldl_cons, ih, List.reverse_cons, List.append_assoc]; rfl

/-- The block "Remote target" changes the remote target only. -/
theorem tsip_dialog_update_remote_target_frame (deps : tsip_deps) (self : tsip_dialog_t)
    (response : tsip_message_t) (isRegister : Bool) :
    (tsip_dialog_update_remote_target deps self response isRegister).state = self.state ∧
    (tsip_dialog_update_remote_target deps self response isRegister).tag_remote =
      self.tag_remote ∧
    (tsip_dialog_update_remote_target deps self response isRegister).cseq_value =
      self.cseq_value ∧
    (tsip_dialog_update_remote_target deps self response isRegister).stack = self.stack ∧
    (tsip_dialog_update_remote_target deps self response isRegister).challenges =
      self.challenges := by
  unfold tsip_dialog_update_remote_target
  split
  · split <;> exact ⟨rfl, rfl, rfl, rfl, rfl⟩
  · exact ⟨rfl, rfl, rfl, rfl, rfl⟩

/-- The branch of `tsip_dialog_update` for a 1xx response with a To tag or a 2xx
response: return code, route set, and the two outcomes of the test on the state and
the tags. -/
theorem tsip_dialog_update_dialog_path (deps : tsip_deps) (self : tsip_dialog_t)
    (response : tsip_message_t) (To : tsip_header_To_t)
    (hTo : response.To = some To) (hresp : TSIP_MESSAGE_IS_RESPONSE response = true)
    (hcode : (100 < response.status_code ∧ response.status_code ≤ 199 ∧
        tsk_strempty To.tag = false) ∨
      (200 ≤ response.status_code ∧ response.status_code ≤ 299)) :
    (tsip_dialog_update deps self response).1 = 0 ∧
    (tsip_dialog_update deps self response).2.routes =
      (tsip_message_record_routes response).reverse ∧
    (tsip_dialog_update deps self response).2.stack = self.stack ∧
    (tsip_dialog_update deps self response).2.challenges = self.challenges ∧
    (self.state = tsip_established ∧ tsk_striequals self.tag_remote To.tag = true →
      (tsip_dialog_update deps self response).2.state = tsip_established ∧
      (tsip_dialog_update deps self response).2.tag_remote = self.tag_remote ∧
      (tsip_dialog_update deps self response).2.cseq_value = self.cseq_value) ∧
    (¬ (self.state = tsip_established ∧ tsk_striequals self.tag_remote To.tag = true) →
      (tsip_dialog_update deps self response).2.state =
        (if response.status_code ≤ 199 then tsip_early else tsip_established) ∧
      (tsip_dialog_update deps self response).2.tag_remote = To.tag ∧
      (tsip_dialog_update deps self response).2.cseq_value =
        (match response.CSeq with
          | some cseq => cseq.seq
          | none => self.cseq_value)) := by
  have hn : ¬ (response.status_code = 401 ∨ response.status_code = 407 ∨
      response.status_code = 421 ∨ response.status_code = 494) := by omega
  have hr : 100 < response.status_code ∧ response.status_code < 300 := by omega
  have he : ¬ (response.status_code ≤ 199 ∧ tsk_strempty To.tag = true) := by
    rcases hcode with ⟨_, _, h⟩ | ⟨h, _⟩
    · simp [h]
    · omega
  obtain ⟨hs1, hs2, hs3, hs4, hs5⟩ := tsip_dialog_update_remote_target_frame deps self response
    (match response.CSeq with
      | some cseq => tsk_striequals cseq.method (some (cstr "REGISTER"))
      | none => false)
  unfold tsip_dialog_update
  simp only [hTo, hresp, if_true, hn, hr, he, if_false, and_self, hs1, hs2, hs3, hs4, hs5,
    tsip_dialog_push_front_eq, List.append_nil]
  by_cases hg : self.state = tsip_established ∧ tsk_striequals self.tag_remote To.tag = true
  · simp only [hg, and_self, if_true, hs1, hs2, hs3, hs4, hs5, true_and, not_true_eq_false,
      false_implies, and_true, implies_true]
  · simp only [hg, if_false, hs1, hs2, hs3, hs4, hs5, true_and, not_false_eq_true,
      false_implies, and_true, implies_true, and_self]

/-- `tsip_dialog_update_challenges` changes the challenge store only. -/
theorem tsip_dialog_update_challenges_frame (self : tsip_dialog_t)
    (response : tsip_message_t) (acceptNewVector : Bool) :
    (tsip_dialog_update_challenges self response acceptNewVector).2 =
      { self with
        challenges := (tsip_dialog_update_challenges self response acceptNewVector).2.challenges } := by
  unfold tsip_dialog_update_challenges
  dsimp only
  split
  · rfl
  · split <;> rfl

/-- `tsip_dialog_update` on a message without To header, or that is not a response. -/
theorem tsip_dialog_update_rejected (deps : tsip_deps) (self : tsip_dialog_t)
    (response : tsip_message_t)
    (h : response.To = none ∨ TSIP_MESSAGE_IS_RESPONSE response = false) :
    tsip_dialog_update deps self response = (-1, self) := by
  unfold tsip_dialog_update
  cases hTo : response.To with
  | none => rfl
  | some To =>
    rcases h with h | h
    · rw [hTo] at h; cases h
    · simp only [h, Bool.false_eq_true, if_false]

/-- `tsip_dialog_update` on a 401, 407, 421 or 494 response. -/
theorem tsip_dialog_update_challenge_codes (deps : tsip_deps) (self : tsip_dialog_t)
    (response : tsip_message_t) (To : tsip_header_To_t)
    (hTo : response.To = some To) (hresp : TSIP_MESSAGE_IS_RESPONSE response = true)
    (hcode : response.status_code = 401 ∨ response.status_code = 407 ∨
      response.status_code = 421 ∨ response.status_code = 494) :
    tsip_dialog_update deps self response =
      tsip_dialog_update_challenges self response
        ((match response.CSeq with
          | some cseq => tsk_striequals cseq.method (some (cstr "REGISTER"))
          | none => false) && decide (self.state = tsip_established)) := by
  unfold tsip_dialog_update
  simp only [hTo, hresp, if_true, hcode]

/-- `tsip_dialog_update` on the other status codes: 100 and below, and 300 and above
except 401, 407, 421 and 494. -/
theorem tsip_dialog_update_other_codes (deps : tsip_deps) (self : tsip_dialog_t)
    (response : tsip_message_t)
    (hcode : response.status_code ≤ 100 ∨ 300 ≤ response.status_code)
    (hn : ¬ (response.status_code = 401 ∨ response.status_code = 407 ∨
      response.status_code = 421 ∨ response.status_code = 494)) :
    tsip_dialog_update deps self response = (-1, self) := by
  have hr : ¬ (100 < response.status_code ∧ response.status_code < 300) := by omega
  unfold tsip_dialog_update
  cases response.To with
  | none => rfl
  | some To =>
    dsimp only
    split
    · simp only [hn, hr, if_false]
    · rfl

/-- `tsip_dialog_update` on a 1xx response (not 100) whose To tag is empty. -/
theorem tsip_dialog_update_1xx_no_tag (deps : tsip_deps) (self : tsip_dialog_t)
    (response : tsip_message_t) (To : tsip_header_To_t)
    (hTo : response.To = some To)
    (hcode : 100 < response.status_code ∧ response.status_code ≤ 199)
    (htag : tsk_strempty To.tag = true) :
    tsip_dialog_update deps self response = (-1, self) := by
  have hn : ¬ (response.status_code = 401 ∨ response.status_code = 407 ∨
      response.status_code = 421 ∨ response.status_code = 494) := by omega
  have hr : 100 < response.status_code ∧ response.status_code < 300 := by omega
  unfold tsip_dialog_update
  simp only [hTo]
  split
  · simp only [hn, hr, hcode.2, htag, and_self, if_true, if_false]
  · rfl

/-! ### Claims on the Route headers -/

/-- C3 (the part that the code satisfies): for every Early or Established dialog whose
route set is non-empty and whose first route has the `lr` parameter, and every method
other than REGISTER, the request built by `tsip_dialog_request_new` has the remote
target of the dialog as Request-URI and its Route headers are exactly the entries of
the route set, in order, each entry being what the function reads through its
`tsip_uri_t` pointer. -/
theorem tsip_dialog_request_new_loose_route_headers (deps : tsip_deps)
    (self : tsip_dialog_t) (method : Option (List Int)) (first : tsip_uri_t)
    (rest : List tsip_uri_t)
    (hstate : self.state = tsip_early ∨ self.state = tsip_established)
    (hroutes : self.routes = first :: rest)
    (hlr : tsk_params_have_param first.params (cstr "lr") = true)
    (hreg : tsk_striequals method (some (cstr "REGISTER")) = false) :
    (tsip_dialog_request_new deps self method).1.uri = self.uri_remote_target ∧
    tsip_message_routes (tsip_dialog_request_new deps self method).1 = self.routes := by
  have hR : tsip_request_get_type method ≠ tsip_REGISTER := fun h =>
    Bool.false_ne_true (hreg.symm.trans ((tsip_request_get_type_REGISTER method).1 h))
  have hk : tsip_dialog_request_new_uri self = (self.uri_remote_target, 0) := by
    unfold tsip_dialog_request_new_uri
    rw [hroutes]
    simp only [hlr, if_true]
  have hk2 : (tsip_dialog_request_new_uri self).2 = 0 := by rw [hk]
  constructor
  · rw [tsip_dialog_request_new_uri_eq, hk]
  · rw [tsip_dialog_request_new_routes_eq, if_neg hR, hk2, if_pos (by decide), if_pos hstate]
    rfl

/-- C3 (witness): an Established dialog with the route set `sip:p2;lr, sip:p1;lr` puts
both in the Route headers of a BYE, whose Request-URI is the remote target. -/
theorem tsip_dialog_request_new_loose_route_headers_witness :
    (tsip_dialog_request_new sample_deps
        (sample_dialog tsip_established 1 [sample_uri "p2" true, sample_uri "p1" true])
        (some (cstr "BYE"))).1.uri = some (sample_uri "remoteua" false) ∧
    tsip_message_routes
        (tsip_dialog_request_new sample_deps
          (sample_dialog tsip_established 1 [sample_uri "p2" true, sample_uri "p1" true])
          (some (cstr "BYE"))).1 = [sample_uri "p2" true, sample_uri "p1" true] :=
  tsip_dialog_request_new_loose_route_headers sample_deps
    (sample_dialog tsip_established 1 [sample_uri "p2" true, sample_uri "p1" true])
    (some (cstr "BYE")) (sample_uri "p2" true) [sample_uri "p1" true]
    (Or.inr rfl) rfl (by decide) (by decide)

/-- C4 (the code at the failing input): for an Established dialog with route set
`sip:proxy1, sip:proxy2;lr` and remote target `sip:remoteua`, the Route headers of a
BYE are `sip:proxy2;lr` alone; the remote target is not added as last Route value. -/
theorem tsip_dialog_request_new_strict_route_headers :
    (sample_dialog tsip_established 1
        [sample_uri "proxy1" false, sample_uri "proxy2" true]).uri_remote_target =
      some (sample_uri "remoteua" false) ∧
    tsk_params_have_param (sample_uri "proxy1" false).params (cstr "lr") = false ∧
    tsip_message_routes
        (tsip_dialog_request_new sample_deps
          (sample_dialog tsip_established 1
            [sample_uri "proxy1" false, sample_uri "proxy2" true])
          (some (cstr "BYE"))).1 = [sample_uri "proxy2" true] ∧
    tsip_message_routes
        (tsip_dialog_request_new sample_deps
          (sample_dialog tsip_established 1
            [sample_uri "proxy1" false, sample_uri "proxy2" true])
          (some (cstr "BYE"))).1 ≠ [sample_uri "proxy2" true, sample_uri "remoteua" false] := by
  decide

/-! ### Claims on `tsip_dialog_update` -/

/-- C5: for every dialog that is not Established and every response with a To header
whose status is 101-199 with a non-empty To tag, or 200-299, `tsip_dialog_update`
returns 0 and afterwards the state is Early (1xx) or Established (2xx), the remote
tag is the To tag of the response, and the local CSeq is the CSeq number of the
response (unchanged when the response has no CSeq header). -/
theorem tsip_dialog_update_early_or_established (deps : tsip_deps) (self : tsip_dialog_t)
    (response : tsip_message_t) (To : tsip_header_To_t)
    (hTo : response.To = some To) (hresp : TSIP_MESSAGE_IS_RESPONSE response = true)
    (hstate : self.state ≠ tsip_established)
    (hcode : (101 ≤ response.status_code ∧ response.status_code ≤ 199 ∧
        tsk_strempty To.tag = false) ∨
      (200 ≤ response.status_code ∧ response.status_code ≤ 299)) :
    (tsip_dialog_update deps self response).1 = 0 ∧
    (tsip_dialog_update deps self response).2.state =
      (if response.status_code ≤ 199 then tsip_early else tsip_established) ∧
    (tsip_dialog_update deps self response).2.tag_remote = To.tag ∧
    (tsip_dialog_update deps self response).2.cseq_value =
      (match response.CSeq with
        | some cseq => cseq.seq
        | none => self.cseq_value) := by
  have hcode2 : (100 < response.status_code ∧ response.status_code ≤ 199 ∧
        tsk_strempty To.tag = false) ∨
      (200 ≤ response.status_code ∧ response.status_code ≤ 299) := by
    rcases hcode with ⟨h1, h2, h3⟩ | h
    · exact Or.inl ⟨by omega, h2, h3⟩
    · exact Or.inr h
  obtain ⟨h0, _, _, _, _, hdiff⟩ :=
    tsip_dialog_update_dialog_path deps self response To hTo hresp hcode2
  exact ⟨h0, hdiff (fun hg => hstate hg.1)⟩

/-- C5 (witness): an Initial dialog that receives a 180 with To tag `remote2` and CSeq
7 becomes Early with that remote tag and local CSeq 7. -/
theorem tsip_dialog_update_early_or_established_witness :
    (tsip_dialog_update sample_deps (sample_dialog tsip_initial 1 [])
        (sample_response 180 (some (cstr "remote2"))
          (some { seq := 7, method := some (cstr "INVITE") }) [])).1 = 0 ∧
    (tsip_dialog_update sample_deps (sample_dialog tsip_initial 1 [])
        (sample_response 180 (some (cstr "remote2"))
          (some { seq := 7, method := some (cstr "INVITE") }) [])).2.state = tsip_early ∧
    (tsip_dialog_update sample_deps (sample_dialog tsip_initial 1 [])
        (sample_response 180 (some (cstr "remote2"))
          (some { seq := 7, method := some (cstr "INVITE") }) [])).2.tag_remote =
      some (cstr "remote2") ∧
    (tsip_dialog_update sample_deps (sample_dialog tsip_initial 1 [])
        (sample_response 180 (some (cstr "remote2"))
          (some { seq := 7, method := some (cstr "INVITE") }) [])).2.cseq_value = 7 :=
  tsip_dialog_update_early_or_established sample_deps (sample_dialog tsip_initial 1 [])
    (sample_response 180 (some (cstr "remote2"))
      (some { seq := 7, method := some (cstr "INVITE") }) [])
    { uri := none, tag := some (cstr "remote2") } rfl (by decide) (by decide)
    (Or.inl ⟨by decide, by decide, by decide⟩)

/-- C6 (counterexample): an Established dialog with remote tag `remote` that receives
a 180 whose To tag is `fork` is moved back to Early; and a Terminated dialog that
receives a 200 is moved back to Established. -/
theorem tsip_dialog_update_established_to_early :
    (sample_dialog tsip_established 1 []).state = tsip_established ∧
    (tsip_dialog_update sample_deps (sample_dialog tsip_established 1 [])
        (sample_response 180 (some (cstr "fork")) none [])).2.state = tsip_early ∧
    ¬ ((sample_dialog tsip_established 1 []).state.rank ≤
        (tsip_dialog_update sample_deps (sample_dialog tsip_established 1 [])
          (sample_response 180 (some (cstr "fork")) none [])).2.state.rank) ∧
    (tsip_dialog_update sample_deps (sample_dialog tsip_terminated 1 [])
        (sample_response 200 (some (cstr "remote")) none [])).2.state = tsip_established := by
  decide

/-- C6 (amended): for every dialog that is not Terminated and every response,
`tsip_dialog_update` does not move the state backwards in the order Initial < Early <
Established < Terminated, unless the dialog is Established and the response is a
101-199 response whose To tag is non-empty and differs, case ignored, from the remote
tag of the dialog; in particular an Established dialog is still Established after
every 1xx response whose To tag is empty or equals its remote tag, case ignored. -/
theorem tsip_dialog_update_state_order (deps : tsip_deps) (self : tsip_dialog_t)
    (response : tsip_message_t) :
    (self.state ≠ tsip_terminated →
      ¬ (self.state = tsip_established ∧
          100 < response.status_code ∧ response.status_code ≤ 199 ∧
          ∃ To, response.To = some To ∧ tsk_strempty To.tag = false ∧
            tsk_striequals self.tag_remote To.tag = false) →
      self.state.rank ≤ (tsip_dialog_update deps self response).2.state.rank) ∧
    (self.state = tsip_established →
      100 ≤ response.status_code → response.status_code ≤ 199 →
      (∀ To, response.To = some To →
        tsk_strempty To.tag = true ∨ tsk_striequals self.tag_remote To.tag = true) →
      (tsip_dialog_update deps self response).2.state = tsip_established) := by
  have key : ∀ To, response.To = some To → TSIP_MESSAGE_IS_RESPONSE response = true →
      100 < response.status_code → response.status_code < 300 →
      ¬ (response.status_code ≤ 199 ∧ tsk_strempty To.tag = true) →
      (tsip_dialog_update deps self response).2.state =
        if self.state = tsip_established ∧ tsk_striequals self.tag_remote To.tag = true then
          tsip_established
        else if response.status_code ≤ 199 then tsip_early else tsip_established := by
    intro To hTo hresp h1 h2 h3
    have hcode : (100 < response.status_code ∧ response.status_code ≤ 199 ∧
        tsk_strempty To.tag = false) ∨
        (200 ≤ response.status_code ∧ response.status_code ≤ 299) := by
      by_cases h : response.status_code ≤ 199
      · refine Or.inl ⟨h1, h, ?_⟩
        cases ht : tsk_strempty To.tag
        · rfl
        · exact absurd ⟨h, ht⟩ h3
      · exact Or.inr ⟨by omega, by omega⟩
    obtain ⟨_, _, _, _, hsame, hdiff⟩ :=
      tsip_dialog_update_dialog_path deps self response To hTo hresp hcode
    by_cases hg : self.state = tsip_established ∧ tsk_striequals self.tag_remote To.tag = true
    · rw [if_pos hg]; exact (hsame hg).1
    · rw [if_neg hg]; exact (hdiff hg).1
  have other : ∀ To, response.To = some To → TSIP_MESSAGE_IS_RESPONSE response = true →
      (¬ (100 < response.status_code ∧ response.status_code < 300) ∨
        (response.status_code ≤ 199 ∧ tsk_strempty To.tag = true)) →
      (tsip_dialog_update deps self response).2.state = self.state := by
    intro To hTo hresp h
    by_cases hc : response.status_code = 401 ∨ response.status_code = 407 ∨
        response.status_code = 421 ∨ response.status_code = 494
    · rw [tsip_dialog_update_challenge_codes deps self response To hTo hresp hc,
        tsip_dialog_update_challenges_frame]
    · rcases h with h | h
      · rw [tsip_dialog_update_other_codes deps self response (by omega) hc]
      · by_cases hr : 100 < response.status_code
        · rw [tsip_dialog_update_1xx_no_tag deps self response To hTo ⟨hr, h.1⟩ h.2]
        · rw [tsip_dialog_update_other_codes deps self response (by omega) hc]
  have split3 : (response.To = none ∨ TSIP_MESSAGE_IS_RESPONSE response = false) ∨
      ∃ To, response.To = some To ∧ TSIP_MESSAGE_IS_RESPONSE response = true := by
    cases hTo : response.To with
    | none => exact Or.inl (Or.inl rfl)
    | some To =>
      cases hresp : TSIP_MESSAGE_IS_RESPONSE response
      · exact Or.inl (Or.inr rfl)
      · exact Or.inr ⟨To, rfl, rfl⟩
  constructor
  · intro hnt hex
    rcases split3 with h | ⟨To, hTo, hresp⟩
    · rw [tsip_dialog_update_rejected deps self response h]
    · by_cases hpath : (100 < response.status_code ∧ response.status_code < 300) ∧
          ¬ (response.status_code ≤ 199 ∧ tsk_strempty To.tag = true)
      · rw [key To hTo hresp hpath.1.1 hpath.1.2 hpath.2]
        by_cases hg : self.state = tsip_established ∧
            tsk_striequals self.tag_remote To.tag = true
        · rw [if_pos hg, hg.1]
        · rw [if_neg hg]
          by_cases h199 : response.status_code ≤ 199
          · rw [if_pos h199]
            have hne : self.state ≠ tsip_established := by
              intro hest
              refine hex ⟨hest, hpath.1.1, h199, To, hTo, ?_, ?_⟩
              · cases ht : tsk_strempty To.tag
                · rfl
                · exact absurd ⟨h199, ht⟩ hpath.2
              · cases hs : tsk_striequals self.tag_remote To.tag
                · rfl
                · exact absurd ⟨hest, hs⟩ hg
            revert hnt hne
            cases self.state <;> simp [tsip_dialog_state_t.rank]
          · rw [if_neg h199]
            revert hnt
            cases self.state <;> simp [tsip_dialog_state_t.rank]
      · rw [other To hTo hresp (by tauto)]
  · intro hest hlo hhi htags
    rcases split3 with h | ⟨To, hTo, hresp⟩
    · rw [tsip_dialog_update_rejected deps self response h]
      exact hest
    · by_cases hpath : (100 < response.status_code ∧ response.status_code < 300) ∧
          ¬ (response.status_code ≤ 199 ∧ tsk_strempty To.tag = true)
      · rw [key To hTo hresp hpath.1.1 hpath.1.2 hpath.2]
        have hs : tsk_striequals self.tag_remote To.tag = true := by
          rcases htags To hTo with ht | ht
          · exact absurd ⟨hhi, ht⟩ hpath.2
          · exact ht
        rw [if_pos ⟨hest, hs⟩]
      · rw [other To hTo hresp (by tauto)]
        exact hest

/-- C6 (witness): an Early dialog that receives a 200 moves forwards, and an
Established dialog with remote tag `remote` that receives a 180 with To tag `REMOTE`
stays Established. -/
theorem tsip_dialog_update_state_order_witness :
    (sample_dialog tsip_early 1 []).state.rank ≤
        (tsip_dialog_update sample_deps (sample_dialog tsip_early 1 [])
          (sample_response 200 (some (cstr "remote")) none [])).2.state.rank ∧
    (tsip_dialog_update sample_deps (sample_dialog tsip_established 1 [])
        (sample_response 180 (some (cstr "REMOTE")) none [])).2.state = tsip_established :=
  ⟨(tsip_dialog_update_state_order sample_deps (sample_dialog tsip_early 1 [])
      (sample_response 200 (some (cstr "remote")) none [])).1 (by decide) (by decide),
   (tsip_dialog_update_state_order sample_deps (sample_dialog tsip_established 1 [])
      (sample_response 180 (some (cstr "REMOTE")) none [])).2 rfl (by decide) (by decide)
      (fun To hTo => Or.inr (by
        have e : To = { uri := none, tag := some (cstr "REMOTE") } :=
          (Option.some.inj hTo).symm
        rw [e]
        decide))⟩

/-- C7 (counterexample): a dialog with route set `sip:old` that receives a 100
response with the non-empty To tag `remote` and the Record-Route `sip:r1` keeps the
route set `sip:old`: `tsip_dialog_update` returns -1 for the status 100. -/
theorem tsip_dialog_update_route_set_100 :
    tsk_strempty (some (cstr "remote")) = false ∧
    tsip_message_record_routes
        (sample_response 100 (some (cstr "remote")) none
          [tsip_header_t.Record_Route (sample_uri "r1" true)]) = [sample_uri "r1" true] ∧
    (tsip_dialog_update sample_deps (sample_dialog tsip_early 1 [sample_uri "old" true])
        (sample_response 100 (some (cstr "remote")) none
          [tsip_header_t.Record_Route (sample_uri "r1" true)])).1 = -1 ∧
    (tsip_dialog_update sample_deps (sample_dialog tsip_early 1 [sample_uri "old" true])
        (sample_response 100 (some (cstr "remote")) none
          [tsip_header_t.Record_Route (sample_uri "r1" true)])).2.routes =
      [sample_uri "old" true] ∧
    (tsip_dialog_update sample_deps (sample_dialog tsip_early 1 [sample_uri "old" true])
        (sample_response 100 (some (cstr "remote")) none
          [tsip_header_t.Record_Route (sample_uri "r1" true)])).2.routes ≠
      [sample_uri "r1" true] := by
  decide

/-- C7 (amended): for every dialog, whatever its route set, and every response with a
To header that is a 2xx response, or a 101-199 response with a non-empty To tag, and
that carries the Record-Route entries `r1..rn` in header order, after
`tsip_dialog_update` the route set of the dialog is exactly `rn..r1`: the previous
route set is replaced, not extended, and the order is reversed. -/
theorem tsip_dialog_update_route_set (deps : tsip_deps) (self : tsip_dialog_t)
    (response : tsip_message_t) (To : tsip_header_To_t)
    (hTo : response.To = some To) (hresp : TSIP_MESSAGE_IS_RESPONSE response = true)
    (hcode : (101 ≤ response.status_code ∧ response.status_code ≤ 199 ∧
        tsk_strempty To.tag = false) ∨
      (200 ≤ response.status_code ∧ response.status_code ≤ 299)) :
    (tsip_dialog_update deps self response).2.routes =
      (tsip_message_record_routes response).reverse := by
  have hcode2 : (100 < response.status_code ∧ response.status_code ≤ 199 ∧
        tsk_strempty To.tag = false) ∨
      (200 ≤ response.status_code ∧ response.status_code ≤ 299) := by
    rcases hcode with ⟨h1, h2, h3⟩ | h
    · exact Or.inl ⟨by omega, h2, h3⟩
    · exact Or.inr h
  exact (tsip_dialog_update_dialog_path deps self response To hTo hresp hcode2).2.1

/-- C7 (witness): a dialog with route set `sip:old` that receives a 200 with
Record-Route `sip:r1, sip:r2, sip:r3` has the route set `sip:r3, sip:r2, sip:r1`. -/
theorem tsip_dialog_update_route_set_witness :
    (tsip_dialog_update sample_deps (sample_dialog tsip_early 1 [sample_uri "old" true])
        (sample_response 200 (some (cstr "remote")) none
          [tsip_header_t.Record_Route (sample_uri "r1" true),
           tsip_header_t.Record_Route (sample_uri "r2" true),
           tsip_header_t.Record_Route (sample_uri "r3" true)])).2.routes =
      [sample_uri "r3" true, sample_uri "r2" true, sample_uri "r1" true] :=
  tsip_dialog_update_route_set sample_deps (sample_dialog tsip_early 1 [sample_uri "old" true])
    (sample_response 200 (some (cstr "remote")) none
      [tsip_header_t.Record_Route (sample_uri "r1" true),
       tsip_header_t.Record_Route (sample_uri "r2" true),
       tsip_header_t.Record_Route (sample_uri "r3" true)])
    { uri := none, tag := some (cstr "remote") } rfl (by decide)
    (Or.inr ⟨by decide, by decide⟩)

/-! ## Properties of `tsip_dialog_get_newdelay` -/

/-- The refresh delay for an expiry of `e` seconds, `e >= 0`. -/
theorem tsip_dialog_newdelay_compute_seconds (e : Int) (h0 : 0 ≤ e) :
    tsip_dialog_newdelay_compute (TSK_TIME_S_2_MS e) =
      if e > 1200 then 1000 * (e - 600) else 1000 * (e / 2) := by
  unfold tsip_dialog_newdelay_compute TSK_TIME_S_2_MS TSK_TIME_MS_2_S
  dsimp only
  rw [Int.mul_tdiv_cancel e (by decide), Int.tdiv_eq_ediv h0 (by decide)]
  split <;> ring

/-- C8: for every dialog and every response that carries an Expires header with
delta-seconds `E` (`0 <= E < 2^32`) and is not a NOTIFY response carrying a
Subscription-State header with a positive expires, `tsip_dialog_get_newdelay` returns
`1000 * (E - 600)` when `E > 1200` and `1000 * floor(E / 2)` otherwise, whatever the
Contact headers and the expires value of the dialog; for `E = 3600` it returns
3000000. -/
theorem tsip_dialog_get_newdelay_expires (self : tsip_dialog_t) (response : tsip_message_t)
    (E : Int) (hE : tsip_message_get_expires response = some E)
    (h0 : 0 ≤ E) (_h32 : E < 4294967296)
    (hnotify : ¬ ∃ cseq e, response.CSeq = some cseq ∧
      tsk_striequals cseq.method (some (cstr "NOTIFY")) = true ∧
      tsip_message_get_subscription_state response = some e ∧ 0 < e) :
    tsip_dialog_get_newdelay self response =
        (if E > 1200 then 1000 * (E - 600) else 1000 * (E / 2)) ∧
      (E = 3600 → tsip_dialog_get_newdelay self response = 3000000) := by
  have hn : tsip_dialog_newdelay_notify response = none := by
    unfold tsip_dialog_newdelay_notify
    cases hc : response.CSeq with
    | none => rfl
    | some cseq =>
      dsimp only
      cases hm : tsk_striequals cseq.method (some (cstr "NOTIFY")) with
      | false => rfl
      | true =>
        rw [if_pos rfl]
        cases hs : tsip_message_get_subscription_state response with
        | none => rfl
        | some e =>
          dsimp only
          by_cases hpos : e > 0
          · exact absurd ⟨cseq, e, hc, hm, hs, hpos⟩ hnotify
          · rw [if_neg hpos]
  have hval : tsip_dialog_get_newdelay self response =
      (if E > 1200 then 1000 * (E - 600) else 1000 * (E / 2)) := by
    unfold tsip_dialog_get_newdelay
    simp only [hn, hE]
    exact tsip_dialog_newdelay_compute_seconds E h0
  refine ⟨hval, fun h3600 => ?_⟩
  rw [hval, h3600]
  decide

/-- C8 (witness): a 200 response to a REGISTER with `Expires: 3600` gives a delay of
3000000 ms, whatever its Contact. -/
theorem tsip_dialog_get_newdelay_expires_witness :
    tsip_dialog_get_newdelay (sample_dialog tsip_established 1 [])
        (sample_response 200 (some (cstr "remote"))
          (some { seq := 1, method := some (cstr "REGISTER") })
          [tsip_header_t.Contact { uri := some sample_contact_uri, expires := 60, params := [] },
           tsip_header_t.Expires 3600]) = 3000000 :=
  (tsip_dialog_get_newdelay_expires (sample_dialog tsip_established 1 [])
    (sample_response 200 (some (cstr "remote"))
      (some { seq := 1, method := some (cstr "REGISTER") })
      [tsip_header_t.Contact { uri := some sample_contact_uri, expires := 60, params := [] },
       tsip_header_t.Expires 3600])
    3600 rfl (by decide) (by decide)
    (by
      rintro ⟨cseq, e, hc, hm, _, _⟩
      have e1 : cseq = { seq := 1, method := some (cstr "REGISTER") } :=
        (Option.some.inj hc).symm
      rw [e1] at hm
      revert hm
      decide)).2 rfl

/-- C9 (counterexample): a NOTIFY response whose Subscription-State header has
`expires=0` and that also carries `Expires: 3600` gives the delay 3000000, computed
from the Expires header, not the delay 0 computed from `e = 0`. -/
theorem tsip_dialog_get_newdelay_notify_zero :
    tsip_message_get_subscription_state
        (sample_response 200 (some (cstr "remote"))
          (some { seq := 1, method := some (cstr "NOTIFY") })
          [tsip_header_t.Subscription_State 0, tsip_header_t.Expires 3600]) = some 0 ∧
    tsip_dialog_get_newdelay (sample_dialog tsip_established 1 [])
        (sample_response 200 (some (cstr "remote"))
          (some { seq := 1, method := some (cstr "NOTIFY") })
          [tsip_header_t.Subscription_State 0, tsip_header_t.Expires 3600]) = 3000000 ∧
    tsip_dialog_get_newdelay (sample_dialog tsip_established 1 [])
        (sample_response 200 (some (cstr "remote"))
          (some { seq := 1, method := some (cstr "NOTIFY") })
          [tsip_header_t.Subscription_State 0, tsip_header_t.Expires 3600]) ≠
      (if (0 : Int) > 1200 then 1000 * (0 - 600) else 1000 * (0 / 2)) := by
  decide

/-- C9 (amended): for every response whose CSeq method is NOTIFY and that carries a
Subscription-State header with an expires parameter of value `e > 0`,
`tsip_dialog_get_newdelay` computes the delay from `e` (`1000 * (e - 600)` if
`e > 1200`, else `1000 * floor(e / 2)`), even when the response also carries an
Expires header or a matching Contact with a different value. -/
theorem tsip_dialog_get_newdelay_notify (self : tsip_dialog_t) (response : tsip_message_t)
    (cseq : tsip_header_CSeq_t) (e : Int)
    (hc : response.CSeq = some cseq)
    (hm : tsk_striequals cseq.method (some (cstr "NOTIFY")) = true)
    (hs : tsip_message_get_subscription_state response = some e)
    (hpos : 0 < e) :
    tsip_dialog_get_newdelay self response =
      (if e > 1200 then 1000 * (e - 600) else 1000 * (e / 2)) := by
  have hn : tsip_dialog_newdelay_notify response = some (TSK_TIME_S_2_MS e) := by
    unfold tsip_dialog_newdelay_notify
    simp only [hc, hm, if_true, hs]
    rw [if_pos hpos]
  unfold tsip_dialog_get_newdelay
  simp only [hn]
  exact tsip_dialog_newdelay_compute_seconds e (by omega)

/-- C9 (witness): a NOTIFY response with `Subscription-State: active;expires=3600`,
`Expires: 100` and a matching Contact with `expires=60` gives the delay 3000000. -/
theorem tsip_dialog_get_newdelay_notify_witness :
    tsip_dialog_get_newdelay (sample_dialog tsip_established 1 [])
        (sample_response 200 (some (cstr "remote"))
          (some { seq := 1, method := some (cstr "notify") })
          [tsip_header_t.Contact { uri := some sample_contact_uri, expires := 60, params := [] },
           tsip_header_t.Expires 100, tsip_header_t.Subscription_State 3600]) =
      (if (3600 : Int) > 1200 then 1000 * (3600 - 600) else 1000 * (3600 / 2)) :=
  tsip_dialog_get_newdelay_notify (sample_dialog tsip_established 1 [])
    (sample_response 200 (some (cstr "remote"))
      (some { seq := 1, method := some (cstr "notify") })
      [tsip_header_t.Contact { uri := some sample_contact_uri, expires := 60, params := [] },
       tsip_header_t.Expires 100, tsip_header_t.Subscription_State 3600])
    { seq := 1, method := some (cstr "notify") } 3600 rfl (by decide) (by decide) (by decide)

/-! ## Properties of the "c=" machine -/

/-- Fuel: once the fuel exceeds the number of keys of the interval, more fuel does not
change the result of the binary search over the single keys; the fuel `klen + 1`
given by `tsdp_machine_trans` is enough for the loop to reach `goto _match` or
`break`. -/
theorem tsdp_machine_single_search_fuel (c : Int) (f1 f2 : Nat) (lower upper : Int)
    (h1 : (upper - lower + 1).toNat < f1) (h2 : (upper - lower + 1).toNat < f2) :
    tsdp_machine_single_search c f1 lower upper =
      tsdp_machine_single_search c f2 lower upper := by
  induction f1 generalizing f2 lower upper with
  | zero => omega
  | succ k ih =>
    cases f2 with
    | zero => omega
    | succ j =>
      unfold tsdp_machine_single_search
      by_cases hul : upper < lower
      · simp only [hul, if_true]
      · simp only [hul, if_false]
        by_cases hlt :
            c < tsdp_table_at _tsdp_machine_parser_header_C_trans_keys
              (lower + (upper - lower) / 2)
        · simp only [hlt, if_true]
          exact ih j _ _ (by omega) (by omega)
        · simp only [hlt, if_false]
          by_cases hgt :
              c > tsdp_table_at _tsdp_machine_parser_header_C_trans_keys
                (lower + (upper - lower) / 2)
          · simp only [hgt, if_true]
            exact ih j _ _ (by omega) (by omega)
          · simp only [hgt, if_false]

/-- The transition taken in each of the states 1 to 10. -/
theorem tsdp_machine_trans_eq (c : Int) :
    tsdp_machine_trans 1 c = (if c = 99 then 0 else 1) ∧
    tsdp_machine_trans 2 c = (if c = 32 then 2 else if c = 61 then 3 else 4) ∧
    tsdp_machine_trans 3 c = (if c = 32 then 5 else 6) ∧
    tsdp_machine_trans 4 c = (if c = 32 then 7 else 8) ∧
    tsdp_machine_trans 5 c = (if c = 32 then 9 else 10) ∧
    tsdp_machine_trans 6 c = (if c = 32 then 11 else 12) ∧
    tsdp_machine_trans 7 c = (if c = 13 then 13 else 14) ∧
    tsdp_machine_trans 8 c = (if c = 13 then 15 else 16) ∧
    tsdp_machine_trans 9 c = (if c = 10 then 17 else 18) ∧
    tsdp_machine_trans 10 c = 19 := by
  simp only [tsdp_machine_trans, tsdp_table_at, _tsdp_machine_parser_header_C_key_offsets,
    _tsdp_machine_parser_header_C_index_offsets, _tsdp_machine_parser_header_C_single_lengths,
    _tsdp_machine_parser_header_C_range_lengths, _tsdp_machine_parser_header_C_trans_keys,
    tsdp_machine_single_search]
  simp
  refine ⟨?_, ?_, ?_, ?_, ?_, ?_, ?_, ?_, ?_⟩ <;> split_ifs <;> first | rfl | omega

/-- The steps of the machine along a well-formed "c=" line. -/
theorem tsdp_machine_step_eq (data : List Int) (p : Nat) (c : Int) (ts : Option Nat)
    (hdr : tsdp_header_C_t) :
    tsdp_machine_step data p 99 ⟨1, ts, hdr⟩ = ⟨2, ts, hdr⟩ ∧
    tsdp_machine_step data p 32 ⟨2, ts, hdr⟩ = ⟨2, ts, hdr⟩ ∧
    tsdp_machine_step data p 61 ⟨2, ts, hdr⟩ = ⟨3, ts, hdr⟩ ∧
    tsdp_machine_step data p 32 ⟨3, ts, hdr⟩ = ⟨3, ts, hdr⟩ ∧
    (c ≠ 32 → tsdp_machine_step data p c ⟨3, ts, hdr⟩ = ⟨4, some p, hdr⟩) ∧
    (c ≠ 32 → tsdp_machine_step data p c ⟨4, ts, hdr⟩ = ⟨4, ts, hdr⟩) ∧
    tsdp_machine_step data p 32 ⟨4, ts, hdr⟩ =
      ⟨5, ts, { hdr with nettype := TSK_PARSER_SET_STRING data ts p }⟩ ∧
    (c ≠ 32 → tsdp_machine_step data p c ⟨5, ts, hdr⟩ = ⟨6, some p, hdr⟩) ∧
    tsdp_machine_step data p 32 ⟨5, ts, hdr⟩ =
      ⟨7, some p, { hdr with addrtype := TSK_PARSER_SET_STRING data (some p) p }⟩ ∧
    (c ≠ 32 → tsdp_machine_step data p c ⟨6, ts, hdr⟩ = ⟨6, ts, hdr⟩) ∧
    tsdp_machine_step data p 32 ⟨6, ts, hdr⟩ =
      ⟨7, ts, { hdr with addrtype := TSK_PARSER_SET_STRING data ts p }⟩ ∧
    (c ≠ 13 → tsdp_machine_step data p c ⟨7, ts, hdr⟩ = ⟨8, some p, hdr⟩) ∧
    tsdp_machine_step data p 13 ⟨7, ts, hdr⟩ =
      ⟨9, some p, { hdr with addr := TSK_PARSER_SET_STRING data (some p) p }⟩ ∧
    (c ≠ 13 → tsdp_machine_step data p c ⟨8, ts, hdr⟩ = ⟨8, ts, hdr⟩) ∧
    tsdp_machine_step data p 13 ⟨8, ts, hdr⟩ =
      ⟨9, ts, { hdr with addr := TSK_PARSER_SET_STRING data ts p }⟩ ∧
    tsdp_machine_step data p 10 ⟨9, ts, hdr⟩ = ⟨10, ts, hdr⟩ := by
  obtain ⟨h1, h2, h3, h4, h5, h6, h7, h8, h9, h10⟩ := tsdp_machine_trans_eq c
  refine ⟨?_, ?_, ?_, ?_, ?_, ?_, ?_, ?_, ?_, ?_, ?_, ?_, ?_, ?_, ?_, ?_⟩
  all_goals first
    | (intro hc
       simp [tsdp_machine_step, h1, h2, h3, h4, h5, h6, h7, h8, h9, h10, hc, tsdp_table_at,
         _tsdp_machine_parser_header_C_trans_targs, _tsdp_machine_parser_header_C_trans_actions,
         _tsdp_machine_parser_header_C_actions, tsdp_machine_exec, tsdp_machine_action])
    | simp [tsdp_machine_step, (tsdp_machine_trans_eq _).1, (tsdp_machine_trans_eq _).2.1,
         (tsdp_machine_trans_eq _).2.2.1, (tsdp_machine_trans_eq _).2.2.2.1,
         (tsdp_machine_trans_eq _).2.2.2.2.1, (tsdp_machine_trans_eq _).2.2.2.2.2.1,
         (tsdp_machine_trans_eq _).2.2.2.2.2.2.1, (tsdp_machine_trans_eq _).2.2.2.2.2.2.2.1,
         (tsdp_machine_trans_eq _).2.2.2.2.2.2.2.2.1, tsdp_table_at,
         _tsdp_machine_parser_header_C_trans_targs, _tsdp_machine_parser_header_C_trans_actions,
         _tsdp_machine_parser_header_C_actions, tsdp_machine_exec, tsdp_machine_action]


theorem tsdp_machine_step_1_c (data : List Int) (p : Nat) (ts : Option Nat)
    (hdr : tsdp_header_C_t) :
    tsdp_machine_step data p 99 ⟨1, ts, hdr⟩ = ⟨2, ts, hdr⟩ :=
  (tsdp_machine_step_eq data p 0 ts hdr).1

theorem tsdp_machine_step_2_eq (data : List Int) (p : Nat) (ts : Option Nat)
    (hdr : tsdp_header_C_t) :
    tsdp_machine_step data p 61 ⟨2, ts, hdr⟩ = ⟨3, ts, hdr⟩ :=
  (tsdp_machine_step_eq data p 0 ts hdr).2.2.1

theorem tsdp_machine_step_3_other (data : List Int) (p : Nat) (c : Int) (ts : Option Nat)
    (hdr : tsdp_header_C_t) (hc : c ≠ 32) :
    tsdp_machine_step data p c ⟨3, ts, hdr⟩ = ⟨4, some p, hdr⟩ :=
  (tsdp_machine_step_eq data p c ts hdr).2.2.2.2.1 hc

theorem tsdp_machine_step_4_sp (data : List Int) (p : Nat) (ts : Option Nat)
    (hdr : tsdp_header_C_t) :
    tsdp_machine_step data p 32 ⟨4, ts, hdr⟩ =
      ⟨5, ts, { hdr with nettype := TSK_PARSER_SET_STRING data ts p }⟩ :=
  (tsdp_machine_step_eq data p 0 ts hdr).2.2.2.2.2.2.1

theorem tsdp_machine_step_5_other (data : List Int) (p : Nat) (c : Int) (ts : Option Nat)
    (hdr : tsdp_header_C_t) (hc : c ≠ 32) :
    tsdp_machine_step data p c ⟨5, ts, hdr⟩ = ⟨6, some p, hdr⟩ :=
  (tsdp_machine_step_eq data p c ts hdr).2.2.2.2.2.2.2.1 hc

theorem tsdp_machine_step_6_sp (data : List Int) (p : Nat) (ts : Option Nat)
    (hdr : tsdp_header_C_t) :
    tsdp_machine_step data p 32 ⟨6, ts, hdr⟩ =
      ⟨7, ts, { hdr with addrtype := TSK_PARSER_SET_STRING data ts p }⟩ :=
  (tsdp_machine_step_eq data p 0 ts hdr).2.2.2.2.2.2.2.2.2.2.1

theorem tsdp_machine_step_7_other (data : List Int) (p : Nat) (c : Int) (ts : Option Nat)
    (hdr : tsdp_header_C_t) (hc : c ≠ 13) :
    tsdp_machine_step data p c ⟨7, ts, hdr⟩ = ⟨8, some p, hdr⟩ :=
  (tsdp_machine_step_eq data p c ts hdr).2.2.2.2.2.2.2.2.2.2.2.1 hc

theorem tsdp_machine_step_8_cr (data : List Int) (p : Nat) (ts : Option Nat)
    (hdr : tsdp_header_C_t) :
    tsdp_machine_step data p 13 ⟨8, ts, hdr⟩ =
      ⟨9, ts, { hdr with addr := TSK_PARSER_SET_STRING data ts p }⟩ :=
  (tsdp_machine_step_eq data p 0 ts hdr).2.2.2.2.2.2.2.2.2.2.2.2.2.2.1

theorem tsdp_machine_step_9_lf (data : List Int) (p : Nat) (ts : Option Nat)
    (hdr : tsdp_header_C_t) :
    tsdp_machine_step data p 10 ⟨9, ts, hdr⟩ = ⟨10, ts, hdr⟩ :=
  (tsdp_machine_step_eq data p 0 ts hdr).2.2.2.2.2.2.2.2.2.2.2.2.2.2.2

/-- In the states 4, 6 and 8 the machine stays where it is, with the same variables,
as long as it does not read the delimiter of the token (a space in the states 4 and
6, a carriage return in the state 8). -/
theorem tsdp_machine_run_token (data : List Int) (s k : Int)
    (hs : (s = 4 ∧ k = 32) ∨ (s = 6 ∧ k = 32) ∨ (s = 8 ∧ k = 13))
    (seg rest : List Int) (p : Nat) (ts : Option Nat) (hdr : tsdp_header_C_t)
    (hseg : ∀ b ∈ seg, b ≠ k) :
    tsdp_machine_run data (seg ++ rest) p ⟨s, ts, hdr⟩ =
      tsdp_machine_run data rest (p + seg.length) ⟨s, ts, hdr⟩ := by
  induction seg generalizing p with
  | nil => rfl
  | cons b seg ih =>
    have hb : b ≠ k := hseg b (List.mem_cons_self b seg)
    have hstep : tsdp_machine_step data p b ⟨s, ts, hdr⟩ = ⟨s, ts, hdr⟩ := by
      obtain ⟨_, _, _, _, _, h4, _, _, _, h6, _, _, _, h8, _, _⟩ :=
        tsdp_machine_step_eq data p b ts hdr
      rcases hs with ⟨rfl, rfl⟩ | ⟨rfl, rfl⟩ | ⟨rfl, rfl⟩
      · exact h4 hb
      · exact h6 hb
      · exact h8 hb
    have hs0 : s ≠ 0 := by
      rcases hs with ⟨rfl, _⟩ | ⟨rfl, _⟩ | ⟨rfl, _⟩ <;> decide
    rw [List.cons_append, tsdp_machine_run, if_neg hs0, hstep,
      ih (p + 1) (fun x hx => hseg x (List.mem_cons_of_mem b hx)), List.length_cons]
    congr 1
    omega

/-- The run of the machine over a line `c=`, token, space, token, space, token, CR,
LF, from the start state. -/
theorem tsdp_machine_run_line (data : List Int) (n0 t0 a0 : Int) (n t a : List Int)
    (p : Nat) (hdr : tsdp_header_C_t)
    (hn0 : n0 ≠ 32) (hn : ∀ b ∈ n, b ≠ 32) (ht0 : t0 ≠ 32) (ht : ∀ b ∈ t, b ≠ 32)
    (ha0 : a0 ≠ 13) (ha : ∀ b ∈ a, b ≠ 13) :
    tsdp_machine_run data
        (99 :: 61 :: n0 :: (n ++ 32 :: t0 :: (t ++ 32 :: a0 :: (a ++ [13, 10])))) p
        ⟨1, none, hdr⟩ =
      ⟨10, some (p + n.length + t.length + 6),
        { nettype := TSK_PARSER_SET_STRING data (some (p + 2)) (p + n.length + 3)
          addrtype := TSK_PARSER_SET_STRING data (some (p + n.length + 4))
            (p + n.length + t.length + 5)
          addr := TSK_PARSER_SET_STRING data (some (p + n.length + t.length + 6))
            (p + n.length + t.length + a.length + 7) }⟩ := by
  have z1 : ¬ ((1 : Int) = 0) := by decide
  have z2 : ¬ ((2 : Int) = 0) := by decide
  have z3 : ¬ ((3 : Int) = 0) := by decide
  have z4 : ¬ ((4 : Int) = 0) := by decide
  have z5 : ¬ ((5 : Int) = 0) := by decide
  have z6 : ¬ ((6 : Int) = 0) := by decide
  have z7 : ¬ ((7 : Int) = 0) := by decide
  have z8 : ¬ ((8 : Int) = 0) := by decide
  have z9 : ¬ ((9 : Int) = 0) := by decide
  simp only [tsdp_machine_run, tsdp_machine_step_1_c, tsdp_machine_step_2_eq,
    tsdp_machine_step_3_other data _ n0 _ _ hn0, z1, z2, z3, if_false]
  rw [tsdp_machine_run_token data 4 32 (Or.inl ⟨rfl, rfl⟩) n _ _ _ _ hn]
  simp only [tsdp_machine_run, tsdp_machine_step_4_sp,
    tsdp_machine_step_5_other data _ t0 _ _ ht0, z4, z5, if_false]
  rw [tsdp_machine_run_token data 6 32 (Or.inr (Or.inl ⟨rfl, rfl⟩)) t _ _ _ _ ht]
  simp only [tsdp_machine_run, tsdp_machine_step_6_sp,
    tsdp_machine_step_7_other data _ a0 _ _ ha0, z6, z7, if_false]
  rw [tsdp_machine_run_token data 8 13 (Or.inr (Or.inr ⟨rfl, rfl⟩)) a _ _ _ _ ha]
  simp only [tsdp_machine_run, tsdp_machine_step_8_cr, tsdp_machine_step_9_lf, z8, z9,
    if_false]
  have e1 : p + 1 + 1 = p + 2 := by omega
  have e2 : p + 1 + 1 + 1 + n.length = p + n.length + 3 := by omega
  have e3 : p + n.length + 3 + 1 = p + n.length + 4 := by omega
  have e4 : p + n.length + 4 + 1 + t.length = p + n.length + t.length + 5 := by omega
  have e5 : p + n.length + t.length + 5 + 1 = p + n.length + t.length + 6 := by omega
  have e6 : p + n.length + t.length + 6 + 1 + a.length =
      p + n.length + t.length + a.length + 7 := by omega
  rw [e1, e2, e3, e4, e5, e6]

/-- In a line made of a prefix, a token and a suffix, the bytes captured from the end
of the prefix over the length of the token are the token. -/
theorem TSK_PARSER_SET_STRING_eq (pre seg post : List Int) (ts q : Nat)
    (hts : ts = pre.length) (hq : q = pre.length + seg.length) :
    TSK_PARSER_SET_STRING (pre ++ seg ++ post) (some ts) q = some seg := by
  subst hts hq
  unfold TSK_PARSER_SET_STRING
  simp

/-- The header read from the line `c=`, nettype, space, addrtype, space, addr, CR, LF,
for non-empty tokens without their delimiter. -/
theorem tsdp_header_C_parse_tokens (n t a : List Int)
    (hn : n ≠ []) (hns : ∀ b ∈ n, b ≠ 32) (ht : t ≠ []) (hts : ∀ b ∈ t, b ≠ 32)
    (ha : a ≠ []) (has : ∀ b ∈ a, b ≠ 13) :
    tsdp_header_C_parse ([99, 61] ++ n ++ [32] ++ t ++ [32] ++ a ++ [13, 10])
        ([99, 61] ++ n ++ [32] ++ t ++ [32] ++ a ++ [13, 10]).length =
      some { nettype := some n, addrtype := some t, addr := some a } := by
  obtain ⟨n0, n1, rfl⟩ := List.exists_cons_of_ne_nil hn
  obtain ⟨t0, t1, rfl⟩ := List.exists_cons_of_ne_nil ht
  obtain ⟨a0, a1, rfl⟩ := List.exists_cons_of_ne_nil ha
  unfold tsdp_header_C_parse
  rw [List.take_length]
  have hshape : [99, 61] ++ n0 :: n1 ++ [32] ++ t0 :: t1 ++ [32] ++ a0 :: a1 ++ [13, 10] =
      99 :: 61 :: n0 :: (n1 ++ 32 :: t0 :: (t1 ++ 32 :: a0 :: (a1 ++ [13, 10]))) := by
    simp
  have hrun := tsdp_machine_run_line
    ([99, 61] ++ n0 :: n1 ++ [32] ++ t0 :: t1 ++ [32] ++ a0 :: a1 ++ [13, 10])
    n0 t0 a0 n1 t1 a1 0 TSDP_HEADER_C_CREATE_NULL
    (hns n0 (List.mem_cons_self _ _)) (fun b hb => hns b (List.mem_cons_of_mem _ hb))
    (hts t0 (List.mem_cons_self _ _)) (fun b hb => hts b (List.mem_cons_of_mem _ hb))
    (has a0 (List.mem_cons_self _ _)) (fun b hb => has b (List.mem_cons_of_mem _ hb))
  rw [← hshape] at hrun
  have hN : TSK_PARSER_SET_STRING
      ([99, 61] ++ n0 :: n1 ++ [32] ++ t0 :: t1 ++ [32] ++ a0 :: a1 ++ [13, 10])
      (some (0 + 2)) (0 + n1.length + 3) = some (n0 :: n1) := by
    have := TSK_PARSER_SET_STRING_eq [99, 61] (n0 :: n1)
      ([32] ++ t0 :: t1 ++ [32] ++ a0 :: a1 ++ [13, 10]) (0 + 2) (0 + n1.length + 3)
      rfl
      (by simp only [List.length_append, List.length_cons, List.length_nil]; omega)
    simpa using this
  have hT : TSK_PARSER_SET_STRING
      ([99, 61] ++ n0 :: n1 ++ [32] ++ t0 :: t1 ++ [32] ++ a0 :: a1 ++ [13, 10])
      (some (0 + n1.length + 4)) (0 + n1.length + t1.length + 5) = some (t0 :: t1) := by
    have := TSK_PARSER_SET_STRING_eq ([99, 61] ++ n0 :: n1 ++ [32]) (t0 :: t1)
      ([32] ++ a0 :: a1 ++ [13, 10]) (0 + n1.length + 4) (0 + n1.length + t1.length + 5)
      (by simp only [List.length_append, List.length_cons, List.length_nil]; omega)
      (by simp only [List.length_append, List.length_cons, List.length_nil]; omega)
    simpa using this
  have hA : TSK_PARSER_SET_STRING
      ([99, 61] ++ n0 :: n1 ++ [32] ++ t0 :: t1 ++ [32] ++ a0 :: a1 ++ [13, 10])
      (some (0 + n1.length + t1.length + 6)) (0 + n1.length + t1.length + a1.length + 7) =
        some (a0 :: a1) := by
    have := TSK_PARSER_SET_STRING_eq ([99, 61] ++ n0 :: n1 ++ [32] ++ t0 :: t1 ++ [32])
      (a0 :: a1) [13, 10] (0 + n1.length + t1.length + 6)
      (0 + n1.length + t1.length + a1.length + 7)
      (by simp only [List.length_append, List.length_cons, List.length_nil]; omega)
      (by simp only [List.length_append, List.length_cons, List.length_nil]; omega)
    simpa using this
  rw [hN, hT, hA] at hrun
  show (if (tsdp_machine_run _ _ 0 ⟨tsdp_machine_parser_header_C_start, none,
      TSDP_HEADER_C_CREATE_NULL⟩).cs < tsdp_machine_parser_header_C_first_final then none
    else some (tsdp_machine_run _ _ 0 ⟨tsdp_machine_parser_header_C_start, none,
      TSDP_HEADER_C_CREATE_NULL⟩).hdr_C) = _
  have hstart : tsdp_machine_parser_header_C_start = 1 := rfl
  rw [hstart, hrun]
  rfl

/-- C10: for all byte strings `n`, `t`, `a` such that `n` and `t` are non-empty and
contain no space and `a` is non-empty and contains no carriage return,
`tsdp_header_C_parse` applied to the bytes `c=`, `n`, space, `t`, space, `a`, CR, LF,
with `size` the full length, returns a header with `nettype = n`, `addrtype = t` and
`addr = a`; for the input `c=IN IP4 10.0.0.1\r\n` it returns the nettype `IN`, the
addrtype `IP4` and the addr `10.0.0.1`. -/
theorem tsdp_header_C_parse_line (n t a : List Int)
    (hn : n ≠ []) (hns : ∀ b ∈ n, b ≠ 32) (ht : t ≠ []) (hts : ∀ b ∈ t, b ≠ 32)
    (ha : a ≠ []) (has : ∀ b ∈ a, b ≠ 13) :
    tsdp_header_C_parse (cstr "c=" ++ n ++ cstr " " ++ t ++ cstr " " ++ a ++ cstr "\r\n")
        (cstr "c=" ++ n ++ cstr " " ++ t ++ cstr " " ++ a ++ cstr "\r\n").length =
      some { nettype := some n, addrtype := some t, addr := some a } ∧
    tsdp_header_C_parse (cstr "c=IN IP4 10.0.0.1\r\n") (cstr "c=IN IP4 10.0.0.1\r\n").length =
      some { nettype := some (cstr "IN"), addrtype := some (cstr "IP4"),
             addr := some (cstr "10.0.0.1") } := by
  refine ⟨?_, by decide⟩
  have hc : cstr "c=" = [99, 61] := by decide
  have hsp : cstr " " = [32] := by decide
  have hnl : cstr "\r\n" = [13, 10] := by decide
  rw [hc, hsp, hnl]
  exact tsdp_header_C_parse_tokens n t a hn hns ht hts ha has

/-- C10 (witness): the line `c=IN IP6 ::1` followed by CR LF. -/
theorem tsdp_header_C_parse_line_witness :
    tsdp_header_C_parse
        (cstr "c=" ++ cstr "IN" ++ cstr " " ++ cstr "IP6" ++ cstr " " ++ cstr "::1" ++ cstr "\r\n")
        (cstr "c=" ++ cstr "IN" ++ cstr " " ++ cstr "IP6" ++ cstr " " ++ cstr "::1"
          ++ cstr "\r\n").length =
      some { nettype := some (cstr "IN"), addrtype := some (cstr "IP6"),
             addr := some (cstr "::1") } :=
  (tsdp_header_C_parse_line (cstr "IN") (cstr "IP6") (cstr "::1")
    (by decide) (by decide) (by decide) (by decide) (by decide) (by decide)).1

/-- The target state of each transition. -/
theorem tsdp_machine_next_eq (c : Int) :
    tsdp_machine_next 1 c = (if c = 99 then 2 else 0) ∧
    tsdp_machine_next 2 c = (if c = 32 then 2 else if c = 61 then 3 else 0) ∧
    tsdp_machine_next 3 c = (if c = 32 then 3 else 4) ∧
    tsdp_machine_next 4 c = (if c = 32 then 5 else 4) ∧
    tsdp_machine_next 5 c = (if c = 32 then 7 else 6) ∧
    tsdp_machine_next 6 c = (if c = 32 then 7 else 6) ∧
    tsdp_machine_next 7 c = (if c = 13 then 9 else 8) ∧
    tsdp_machine_next 8 c = (if c = 13 then 9 else 8) ∧
    tsdp_machine_next 9 c = (if c = 10 then 10 else 0) ∧
    tsdp_machine_next 10 c = 0 := by
  obtain ⟨h1, h2, h3, h4, h5, h6, h7, h8, h9, h10⟩ := tsdp_machine_trans_eq c
  unfold tsdp_machine_next
  rw [h1, h2, h3, h4, h5, h6, h7, h8, h9, h10]
  refine ⟨?_, ?_, ?_, ?_, ?_, ?_, ?_, ?_, ?_, ?_⟩ <;> (try split_ifs) <;> rfl

theorem tsdp_machine_action_cs (data : List Int) (p : Nat) (act : Int)
    (st : tsdp_machine_state) : (tsdp_machine_action data p act st).cs = st.cs := by
  unfold tsdp_machine_action
  split_ifs <;> rfl

theorem tsdp_machine_exec_cs (data : List Int) (p : Nat) (nacts : Nat) (acts : Int)
    (st : tsdp_machine_state) : (tsdp_machine_exec data p nacts acts st).cs = st.cs := by
  induction nacts generalizing acts st with
  | zero => rfl
  | succ k ih =>
    unfold tsdp_machine_exec
    rw [ih, tsdp_machine_action_cs]

theorem tsdp_machine_step_cs (data : List Int) (p : Nat) (c : Int)
    (st : tsdp_machine_state) :
    (tsdp_machine_step data p c st).cs = tsdp_machine_next st.cs c := by
  unfold tsdp_machine_step tsdp_machine_next
  dsimp only
  split
  · rfl
  · rw [tsdp_machine_exec_cs]

theorem tsdp_machine_cs_run_cons (c : Int) (rest : List Int) (cs : Int) :
    tsdp_machine_cs_run (c :: rest) cs =
      if cs = 0 then cs else tsdp_machine_cs_run rest (tsdp_machine_next cs c) := rfl

theorem tsdp_machine_run_cs (data : List Int) (xs : List Int) (p : Nat)
    (st : tsdp_machine_state) :
    (tsdp_machine_run data xs p st).cs = tsdp_machine_cs_run xs st.cs := by
  induction xs generalizing p st with
  | nil => rfl
  | cons c rest ih =>
    rw [tsdp_machine_cs_run_cons, tsdp_machine_run]
    split
    · rfl
    · rw [ih, tsdp_machine_step_cs]

/-- `tsdp_header_C_parse` returns a header exactly when the machine ends in the state
10 or above. -/
theorem tsdp_header_C_parse_isSome (data : List Int) (size : Nat) :
    ((tsdp_header_C_parse data size).isSome = true ↔
      10 ≤ tsdp_machine_cs_run (data.take size) 1) ∧
    (tsdp_header_C_parse data size = none ↔
      tsdp_machine_cs_run (data.take size) 1 < 10) := by
  unfold tsdp_header_C_parse
  dsimp only
  rw [tsdp_machine_run_cs]
  simp only [tsdp_machine_parser_header_C_start, tsdp_machine_parser_header_C_first_final]
  split
  · simp; omega
  · simp; omega

theorem tsdp_machine_cs_run_zero (xs : List Int) : tsdp_machine_cs_run xs 0 = 0 := by
  cases xs <;> simp [tsdp_machine_cs_run]

theorem tsdp_machine_cs_run_append (xs ys : List Int) (cs : Int) :
    tsdp_machine_cs_run (xs ++ ys) cs = tsdp_machine_cs_run ys (tsdp_machine_cs_run xs cs) := by
  induction xs generalizing cs with
  | nil => rfl
  | cons c rest ih =>
    rw [List.cons_append, tsdp_machine_cs_run_cons, tsdp_machine_cs_run_cons]
    split
    · next h => rw [h, tsdp_machine_cs_run_zero]
    · exact ih _

/-- The machine stays in the states 0 to 10. -/
theorem tsdp_machine_cs_run_range (xs : List Int) (cs : Int) (h : 0 ≤ cs ∧ cs ≤ 10) :
    0 ≤ tsdp_machine_cs_run xs cs ∧ tsdp_machine_cs_run xs cs ≤ 10 := by
  induction xs generalizing cs with
  | nil => exact h
  | cons c rest ih =>
    rw [tsdp_machine_cs_run_cons]
    split
    · exact h
    · next h0 =>
      apply ih
      obtain ⟨h1, h2, h3, h4, h5, h6, h7, h8, h9, h10⟩ := tsdp_machine_next_eq c
      obtain ⟨hlo, hhi⟩ := h
      interval_cases cs
      · exact absurd rfl h0
      · rw [h1]; split_ifs <;> decide
      · rw [h2]; split_ifs <;> decide
      · rw [h3]; split_ifs <;> decide
      · rw [h4]; split_ifs <;> decide
      · rw [h5]; split_ifs <;> decide
      · rw [h6]; split_ifs <;> decide
      · rw [h7]; split_ifs <;> decide
      · rw [h8]; split_ifs <;> decide
      · rw [h9]; split_ifs <;> decide
      · rw [h10]; decide

/-- From the state 10 only the empty input is accepted. -/
theorem tsdp_machine_accept_10 (xs : List Int) (h : 10 ≤ tsdp_machine_cs_run xs 10) :
    xs = [] := by
  cases xs with
  | nil => rfl
  | cons c rest =>
    rw [tsdp_machine_cs_run_cons, if_neg (by decide), (tsdp_machine_next_eq c).2.2.2.2.2.2.2.2.2,
      tsdp_machine_cs_run_zero] at h
    exact absurd h (by decide)

/-- From the state 9 only a line feed is accepted. -/
theorem tsdp_machine_accept_9 (xs : List Int) (h : 10 ≤ tsdp_machine_cs_run xs 9) :
    xs = [10] := by
  cases xs with
  | nil => exact absurd h (by decide)
  | cons c rest =>
    rw [tsdp_machine_cs_run_cons, if_neg (by decide),
      (tsdp_machine_next_eq c).2.2.2.2.2.2.2.2.1] at h
    by_cases hc : c = 10
    · rw [if_pos hc] at h
      rw [hc, tsdp_machine_accept_10 rest h]
    · rw [if_neg hc, tsdp_machine_cs_run_zero] at h
      exact absurd h (by decide)

/-- From the states 7 and 8 the accepted inputs are an addr without carriage return
followed by CR LF. -/
theorem tsdp_machine_accept_8 (xs : List Int) (cs : Int) (hcs : cs = 7 ∨ cs = 8)
    (h : 10 ≤ tsdp_machine_cs_run xs cs) :
    ∃ a, xs = a ++ [13, 10] ∧ ∀ b ∈ a, b ≠ 13 := by
  induction xs generalizing cs with
  | nil => rcases hcs with rfl | rfl <;> exact absurd h (by decide)
  | cons c rest ih =>
    have hn : tsdp_machine_next cs c = if c = 13 then 9 else 8 := by
      rcases hcs with rfl | rfl
      · exact (tsdp_machine_next_eq c).2.2.2.2.2.2.1
      · exact (tsdp_machine_next_eq c).2.2.2.2.2.2.2.1
    have h0 : cs ≠ 0 := by rcases hcs with rfl | rfl <;> decide
    rw [tsdp_machine_cs_run_cons, if_neg h0, hn] at h
    by_cases hc : c = 13
    · rw [if_pos hc] at h
      exact ⟨[], by rw [hc, tsdp_machine_accept_9 rest h]; rfl, by simp⟩
    · rw [if_neg hc] at h
      obtain ⟨a, ha, hna⟩ := ih 8 (Or.inr rfl) h
      refine ⟨c :: a, by rw [ha]; rfl, ?_⟩
      intro b hb
      rcases List.mem_cons.1 hb with rfl | hb
      · exact hc
      · exact hna b hb

/-- From the states 5 and 6 the accepted inputs are an addrtype without space, a
space, and what the state 7 accepts. -/
theorem tsdp_machine_accept_6 (xs : List Int) (cs : Int) (hcs : cs = 5 ∨ cs = 6)
    (h : 10 ≤ tsdp_machine_cs_run xs cs) :
    ∃ t a, xs = t ++ [32] ++ a ++ [13, 10] ∧ (∀ b ∈ t, b ≠ 32) ∧ ∀ b ∈ a, b ≠ 13 := by
  induction xs generalizing cs with
  | nil => rcases hcs with rfl | rfl <;> exact absurd h (by decide)
  | cons c rest ih =>
    have hn : tsdp_machine_next cs c = if c = 32 then 7 else 6 := by
      rcases hcs with rfl | rfl
      · exact (tsdp_machine_next_eq c).2.2.2.2.1
      · exact (tsdp_machine_next_eq c).2.2.2.2.2.1
    have h0 : cs ≠ 0 := by rcases hcs with rfl | rfl <;> decide
    rw [tsdp_machine_cs_run_cons, if_neg h0, hn] at h
    by_cases hc : c = 32
    · rw [if_pos hc] at h
      obtain ⟨a, ha, hna⟩ := tsdp_machine_accept_8 rest 7 (Or.inl rfl) h
      exact ⟨[], a, by rw [hc, ha]; rfl, by simp, hna⟩
    · rw [if_neg hc] at h
      obtain ⟨t, a, ht, hnt, hna⟩ := ih 6 (Or.inr rfl) h
      refine ⟨c :: t, a, by rw [ht]; simp, ?_, hna⟩
      intro b hb
      rcases List.mem_cons.1 hb with rfl | hb
      · exact hc
      · exact hnt b hb

/-- From the state 4 the accepted inputs are the rest of the nettype, a space, and
what the state 5 accepts. -/
theorem tsdp_machine_accept_4 (xs : List Int) (h : 10 ≤ tsdp_machine_cs_run xs 4) :
    ∃ n t a, xs = n ++ [32] ++ t ++ [32] ++ a ++ [13, 10] ∧
      (∀ b ∈ n, b ≠ 32) ∧ (∀ b ∈ t, b ≠ 32) ∧ ∀ b ∈ a, b ≠ 13 := by
  induction xs with
  | nil => exact absurd h (by decide)
  | cons c rest ih =>
    rw [tsdp_machine_cs_run_cons, if_neg (by decide), (tsdp_machine_next_eq c).2.2.2.1] at h
    by_cases hc : c = 32
    · rw [if_pos hc] at h
      obtain ⟨t, a, ht, hnt, hna⟩ := tsdp_machine_accept_6 rest 5 (Or.inl rfl) h
      exact ⟨[], t, a, by rw [hc, ht]; simp, by simp, hnt, hna⟩
    · rw [if_neg hc] at h
      obtain ⟨n, t, a, hx, hnn, hnt, hna⟩ := ih h
      refine ⟨c :: n, t, a, by rw [hx]; simp, ?_, hnt, hna⟩
      intro b hb
      rcases List.mem_cons.1 hb with rfl | hb
      · exact hc
      · exact hnn b hb

/-- From the state 3 the accepted inputs are spaces, a non-empty nettype, a space, and
what the state 5 accepts. -/
theorem tsdp_machine_accept_3 (xs : List Int) (h : 10 ≤ tsdp_machine_cs_run xs 3) :
    ∃ sp n t a, xs = sp ++ n ++ [32] ++ t ++ [32] ++ a ++ [13, 10] ∧
      (∀ b ∈ sp, b = 32) ∧ n ≠ [] ∧
      (∀ b ∈ n, b ≠ 32) ∧ (∀ b ∈ t, b ≠ 32) ∧ ∀ b ∈ a, b ≠ 13 := by
  induction xs with
  | nil => exact absurd h (by decide)
  | cons c rest ih =>
    rw [tsdp_machine_cs_run_cons, if_neg (by decide), (tsdp_machine_next_eq c).2.2.1] at h
    by_cases hc : c = 32
    · rw [if_pos hc] at h
      obtain ⟨sp, n, t, a, hx, hsp, hn0, hnn, hnt, hna⟩ := ih h
      refine ⟨c :: sp, n, t, a, by rw [hx]; simp, ?_, hn0, hnn, hnt, hna⟩
      intro b hb
      rcases List.mem_cons.1 hb with rfl | hb
      · exact hc
      · exact hsp b hb
    · rw [if_neg hc] at h
      obtain ⟨n, t, a, hx, hnn, hnt, hna⟩ := tsdp_machine_accept_4 rest h
      refine ⟨[], c :: n, t, a, by rw [hx]; simp, by simp, by simp, ?_, hnt, hna⟩
      intro b hb
      rcases List.mem_cons.1 hb with rfl | hb
      · exact hc
      · exact hnn b hb

/-- From the state 2 the accepted inputs are spaces, `=`, and what the state 3
accepts. -/
theorem tsdp_machine_accept_2 (xs : List Int) (h : 10 ≤ tsdp_machine_cs_run xs 2) :
    ∃ sp1 sp2 n t a, xs = sp1 ++ [61] ++ sp2 ++ n ++ [32] ++ t ++ [32] ++ a ++ [13, 10] ∧
      (∀ b ∈ sp1, b = 32) ∧ (∀ b ∈ sp2, b = 32) ∧ n ≠ [] ∧
      (∀ b ∈ n, b ≠ 32) ∧ (∀ b ∈ t, b ≠ 32) ∧ ∀ b ∈ a, b ≠ 13 := by
  induction xs with
  | nil => exact absurd h (by decide)
  | cons c rest ih =>
    rw [tsdp_machine_cs_run_cons, if_neg (by decide), (tsdp_machine_next_eq c).2.1] at h
    by_cases hc : c = 32
    · rw [if_pos hc] at h
      obtain ⟨sp1, sp2, n, t, a, hx, hsp1, hsp2, hn0, hnn, hnt, hna⟩ := ih h
      refine ⟨c :: sp1, sp2, n, t, a, by rw [hx]; simp, ?_, hsp2, hn0, hnn, hnt, hna⟩
      intro b hb
      rcases List.mem_cons.1 hb with rfl | hb
      · exact hc
      · exact hsp1 b hb
    · rw [if_neg hc] at h
      by_cases he : c = 61
      · rw [if_pos he] at h
        obtain ⟨sp2, n, t, a, hx, hsp2, hn0, hnn, hnt, hna⟩ := tsdp_machine_accept_3 rest h
        exact ⟨[], sp2, n, t, a, by rw [he, hx]; simp, by simp, hsp2, hn0, hnn, hnt, hna⟩
      · rw [if_neg he, tsdp_machine_cs_run_zero] at h
        exact absurd h (by decide)

/-- The inputs that the machine accepts from its start state are lines of the
grammar. -/
theorem tsdp_machine_accept_1 (xs : List Int) (h : 10 ≤ tsdp_machine_cs_run xs 1) :
    tsdp_header_C_line xs := by
  cases xs with
  | nil => exact absurd h (by decide)
  | cons c rest =>
    rw [tsdp_machine_cs_run_cons, if_neg (by decide), (tsdp_machine_next_eq c).1] at h
    by_cases hc : c = 99
    · rw [if_pos hc] at h
      obtain ⟨sp1, sp2, n, t, a, hx, hsp1, hsp2, hn0, hnn, hnt, hna⟩ :=
        tsdp_machine_accept_2 rest h
      exact ⟨sp1, sp2, n, t, a, by rw [hc, hx]; simp, hsp1, hsp2, hn0, hnn, hnt, hna⟩
    · rw [if_neg hc, tsdp_machine_cs_run_zero] at h
      exact absurd h (by decide)

/-! ### Claims on the "c=" header -/

/-- C12 (counterexample): `c=IN IP4 10.0.0.1` followed by CR LF is accepted, and the
same bytes without the trailing CR LF are rejected. -/
theorem tsdp_header_C_parse_needs_crlf :
    tsdp_header_C_parse (cstr "c=IN IP4 10.0.0.1" ++ [13, 10])
        (cstr "c=IN IP4 10.0.0.1" ++ [13, 10]).length =
      some { nettype := some (cstr "IN"), addrtype := some (cstr "IP4"),
             addr := some (cstr "10.0.0.1") } ∧
    tsdp_header_C_parse (cstr "c=IN IP4 10.0.0.1") (cstr "c=IN IP4 10.0.0.1").length =
      none := by
  decide

/-- C12 (amended): the trailing CR LF is required by `tsdp_header_C_parse`: for every
input `s` followed by CR LF that is accepted, the input obtained by removing that
trailing CR LF is rejected, whether the buffer or only the size is shortened. -/
theorem tsdp_header_C_parse_crlf_required (s : List Int) (h : tsdp_header_C_t)
    (hacc : tsdp_header_C_parse (s ++ [13, 10]) (s ++ [13, 10]).length = some h) :
    tsdp_header_C_parse s s.length = none ∧
    tsdp_header_C_parse (s ++ [13, 10]) s.length = none := by
  have h1 : 10 ≤ tsdp_machine_cs_run (s ++ [13, 10]) 1 := by
    have := (tsdp_header_C_parse_isSome (s ++ [13, 10]) (s ++ [13, 10]).length).1.1
      (by rw [hacc]; rfl)
    rwa [List.take_length] at this
  rw [tsdp_machine_cs_run_append] at h1
  obtain ⟨hlo, hhi⟩ := tsdp_machine_cs_run_range s 1 (by decide)
  have hq : tsdp_machine_cs_run s 1 < 10 := by
    by_contra hge
    have e : tsdp_machine_cs_run s 1 = 10 := by omega
    rw [e] at h1
    exact absurd h1 (by decide)
  constructor
  · apply (tsdp_header_C_parse_isSome s s.length).2.2
    rwa [List.take_length]
  · apply (tsdp_header_C_parse_isSome (s ++ [13, 10]) s.length).2.2
    rwa [List.take_left]

/-- C12 (witness): the line `c=IN IP4 10.0.0.1`. -/
theorem tsdp_header_C_parse_crlf_required_witness :
    tsdp_header_C_parse (cstr "c=IN IP4 10.0.0.1") (cstr "c=IN IP4 10.0.0.1").length =
      none ∧
    tsdp_header_C_parse (cstr "c=IN IP4 10.0.0.1" ++ [13, 10])
      (cstr "c=IN IP4 10.0.0.1").length = none :=
  tsdp_header_C_parse_crlf_required (cstr "c=IN IP4 10.0.0.1")
    { nettype := some (cstr "IN"), addrtype := some (cstr "IP4"),
      addr := some (cstr "10.0.0.1") } (by decide)

/-- C13 (counterexample): `tsdp_header_C_parse` returns a header for a value with an
empty address type (`IN`, two spaces, `10.0.0.1`), for a value with an empty address
(`IN IP4` and a space), and for a value with a fourth token, which it takes into the
address. -/
theorem tsdp_header_C_parse_not_three_tokens :
    tsdp_header_C_parse (cstr "c=IN  10.0.0.1\r\n") (cstr "c=IN  10.0.0.1\r\n").length =
      some { nettype := some (cstr "IN"), addrtype := some [],
             addr := some (cstr "10.0.0.1") } ∧
    tsdp_header_C_parse (cstr "c=IN IP4 \r\n") (cstr "c=IN IP4 \r\n").length =
      some { nettype := some (cstr "IN"), addrtype := some (cstr "IP4"), addr := some [] } ∧
    tsdp_header_C_parse (cstr "c=IN IP4 10.0.0.1 127\r\n")
        (cstr "c=IN IP4 10.0.0.1 127\r\n").length =
      some { nettype := some (cstr "IN"), addrtype := some (cstr "IP4"),
             addr := some (cstr "10.0.0.1 127") } := by
  decide

/-- C13 (amended): `tsdp_header_C_parse` returns a header only when the input is `c`,
spaces, `=`, spaces, a non-empty nettype without space, one space, an addrtype without
space (it may be empty), one space, an addr without carriage return (it may be empty
and may hold further spaces), CR, LF: every input whose value has no nettype, or fewer
than two spaces after the nettype, is rejected. -/
theorem tsdp_header_C_parse_only_lines (data : List Int) (size : Nat)
    (hacc : (tsdp_header_C_parse data size).isSome = true) :
    tsdp_header_C_line (data.take size) :=
  tsdp_machine_accept_1 _ ((tsdp_header_C_parse_isSome data size).1.1 hacc)

/-- C13 (witness): the line `c=IN IP4 10.0.0.1` followed by CR LF. -/
theorem tsdp_header_C_parse_only_lines_witness :
    tsdp_header_C_line ((cstr "c=IN IP4 10.0.0.1\r\n").take 19) :=
  tsdp_header_C_parse_only_lines (cstr "c=IN IP4 10.0.0.1\r\n") 19 (by decide)



/-! ## Properties of `tsip_dialog_update_challenges` -/

theorem tsk_strequals_eq {a b : Option (List Int)} (h : tsk_strequals a b = true) :
    a = b := by
  cases a <;> cases b <;> simp_all [tsk_strequals]

theorem tsk_strequals_refl (a : Option (List Int)) : tsk_strequals a a = true := by
  cases a <;> simp [tsk_strequals]

/-- One turn of the inner loop of `tsip_dialog_update_challenges`. -/
theorem tsip_dialog_update_challenges_foreach_cons (isproxy : Bool)
    (hdr : tsip_header_WWW_Authenticate_t) (acceptNewVector : Bool)
    (c : tsip_challenge_t) (rest : List tsip_challenge_t) (isnew : Bool) :
    tsip_dialog_update_challenges_foreach isproxy hdr acceptNewVector (c :: rest) isnew =
      if c.isproxy ≠ isproxy then
        (c :: (tsip_dialog_update_challenges_foreach isproxy hdr acceptNewVector rest isnew).1,
         (tsip_dialog_update_challenges_foreach isproxy hdr acceptNewVector rest isnew).2.1,
         (tsip_dialog_update_challenges_foreach isproxy hdr acceptNewVector rest isnew).2.2)
      else if (tsk_strequals c.realm hdr.realm && (hdr.stale || acceptNewVector)) = true then
        ((tsip_challenge_update c hdr).1 ::
           (tsip_dialog_update_challenges_foreach isproxy hdr acceptNewVector rest false).1,
         (tsip_dialog_update_challenges_foreach isproxy hdr acceptNewVector rest false).2.1,
         (tsip_dialog_update_challenges_foreach isproxy hdr acceptNewVector rest false).2.2)
      else (c :: rest, isnew, some (-1)) := by
  rw [tsip_dialog_update_challenges_foreach]
  have h0 : ¬ ((tsip_challenge_update c hdr).2 ≠ 0) := fun h => h rfl
  simp only [h0, if_false]

/-- The inner loop keeps the realm and the proxy flag of every stored challenge, in
order: it refreshes challenges in place and neither removes nor adds one. -/
theorem tsip_dialog_update_challenges_foreach_keys (isproxy : Bool)
    (hdr : tsip_header_WWW_Authenticate_t) (acceptNewVector : Bool)
    (store : List tsip_challenge_t) (isnew : Bool) :
    (tsip_dialog_update_challenges_foreach isproxy hdr acceptNewVector store isnew).1.map
        tsip_challenge_key = store.map tsip_challenge_key ∧
    List.Forall₂ (fun c c' => c' = c ∨ c' = (tsip_challenge_update c hdr).1) store
      (tsip_dialog_update_challenges_foreach isproxy hdr acceptNewVector store isnew).1 := by
  induction store generalizing isnew with
  | nil => exact ⟨rfl, List.Forall₂.nil⟩
  | cons c rest ih =>
    rw [tsip_dialog_update_challenges_foreach_cons]
    have hrefl : List.Forall₂
        (fun c c' => c' = c ∨ c' = (tsip_challenge_update c hdr).1) rest rest :=
      List.forall₂_same.2 (fun _ _ => Or.inl rfl)
    split_ifs with h1 h2
    · exact ⟨by rw [List.map_cons, (ih isnew).1, List.map_cons],
        List.Forall₂.cons (Or.inl rfl) (ih isnew).2⟩
    · have hr : tsk_strequals c.realm hdr.realm = true := by
        cases hs : tsk_strequals c.realm hdr.realm
        · rw [hs] at h2; simp at h2
        · rfl
      have hk : tsip_challenge_key (tsip_challenge_update c hdr).1 = tsip_challenge_key c := by
        unfold tsip_challenge_key tsip_challenge_update
        rw [← tsk_strequals_eq hr]
      exact ⟨by rw [List.map_cons, (ih false).1, List.map_cons, hk],
        List.Forall₂.cons (Or.inr rfl) (ih false).2⟩
    · exact ⟨rfl, List.Forall₂.cons (Or.inl rfl) hrefl⟩

/-- The inner loop ends with `isnew` set and without early return only when the store
holds no challenge of the kind of the header, and then it leaves the store alone. -/
theorem tsip_dialog_update_challenges_foreach_isnew (isproxy : Bool)
    (hdr : tsip_header_WWW_Authenticate_t) (acceptNewVector : Bool)
    (store : List tsip_challenge_t) (isnew : Bool)
    (h : (tsip_dialog_update_challenges_foreach isproxy hdr acceptNewVector store isnew).2.1
        = true)
    (hret : (tsip_dialog_update_challenges_foreach isproxy hdr acceptNewVector store isnew).2.2
        = none) :
    isnew = true ∧ (∀ c ∈ store, c.isproxy ≠ isproxy) ∧
    (tsip_dialog_update_challenges_foreach isproxy hdr acceptNewVector store isnew).1 = store := by
  induction store generalizing isnew with
  | nil => exact ⟨h, by simp, rfl⟩
  | cons c rest ih =>
    rw [tsip_dialog_update_challenges_foreach_cons] at h hret ⊢
    split_ifs at h hret ⊢ with h1 h2
    · obtain ⟨hi, hall, hst⟩ := ih isnew h hret
      refine ⟨hi, ?_, by rw [hst]⟩
      intro x hx
      rcases List.mem_cons.1 hx with rfl | hx
      · exact h1
      · exact hall x hx
    · exact absurd (ih false h hret).1 (by decide)

/-- When the store holds no challenge of the kind of the header, the inner loop walks
through it without touching it. -/
theorem tsip_dialog_update_challenges_foreach_none (isproxy : Bool)
    (hdr : tsip_header_WWW_Authenticate_t) (acceptNewVector : Bool)
    (store : List tsip_challenge_t) (isnew : Bool)
    (hall : ∀ c ∈ store, c.isproxy ≠ isproxy) :
    tsip_dialog_update_challenges_foreach isproxy hdr acceptNewVector store isnew =
      (store, isnew, none) := by
  induction store with
  | nil => rfl
  | cons c rest ih =>
    rw [tsip_dialog_update_challenges_foreach_cons,
      if_pos (hall c (List.mem_cons_self c rest)),
      ih (fun x hx => hall x (List.mem_cons_of_mem c hx))]

/-- Without stale header and without new vector, the inner loop returns -1 at the
first challenge of the kind of the header and leaves the store alone. -/
theorem tsip_dialog_update_challenges_foreach_not_stale (isproxy : Bool)
    (hdr : tsip_header_WWW_Authenticate_t) (store : List tsip_challenge_t) (isnew : Bool)
    (hstale : hdr.stale = false) :
    (tsip_dialog_update_challenges_foreach isproxy hdr false store isnew).1 = store ∧
    ((∃ c ∈ store, c.isproxy = isproxy) →
      (tsip_dialog_update_challenges_foreach isproxy hdr false store isnew).2.2 = some (-1)) := by
  induction store with
  | nil => exact ⟨rfl, by simp⟩
  | cons c rest ih =>
    rw [tsip_dialog_update_challenges_foreach_cons]
    have hno : ¬ ((tsk_strequals c.realm hdr.realm && (hdr.stale || false)) = true) := by
      rw [hstale]; simp
    rw [if_neg hno]
    split_ifs with h1
    · refine ⟨by rw [ih.1], ?_⟩
      rintro ⟨x, hx, hxp⟩
      rcases List.mem_cons.1 hx with rfl | hx
      · exact absurd hxp h1
      · exact ih.2 ⟨x, hx, hxp⟩
    · exact ⟨rfl, fun _ => rfl⟩

/-- One authenticate header leaves the realm and the proxy flag of every stored
challenge in place, and appends a challenge only when the store holds no challenge of
its kind. -/
theorem tsip_dialog_update_challenges_header_keys (isproxy : Bool) (acceptNewVector : Bool)
    (store : List tsip_challenge_t) (hdr : tsip_header_WWW_Authenticate_t) :
    ((tsip_dialog_update_challenges_header isproxy acceptNewVector store hdr).1.map
        tsip_challenge_key = store.map tsip_challenge_key ∧
      List.Forall₂ (fun c c' => c' = c ∨ c' = (tsip_challenge_update c hdr).1) store
        (tsip_dialog_update_challenges_header isproxy acceptNewVector store hdr).1) ∨
    ((∀ c ∈ store, c.isproxy ≠ isproxy) ∧
      tsip_dialog_update_challenges_header isproxy acceptNewVector store hdr =
        (store ++ [TSIP_CHALLENGE_CREATE isproxy hdr], none)) := by
  unfold tsip_dialog_update_challenges_header
  dsimp only
  cases hret : (tsip_dialog_update_challenges_foreach isproxy hdr acceptNewVector store
      true).2.2 with
  | some ret =>
    exact Or.inl (tsip_dialog_update_challenges_foreach_keys isproxy hdr acceptNewVector store true)
  | none =>
    cases hnew : (tsip_dialog_update_challenges_foreach isproxy hdr acceptNewVector store
        true).2.1 with
    | false =>
      simp only [Bool.false_eq_true, if_false]
      exact Or.inl
        (tsip_dialog_update_challenges_foreach_keys isproxy hdr acceptNewVector store true)
    | true =>
      obtain ⟨_, hall, hst⟩ :=
        tsip_dialog_update_challenges_foreach_isnew isproxy hdr acceptNewVector store true
          hnew hret
      simp only [if_true, hst]
      exact Or.inr ⟨hall, trivial⟩

/-- An outer loop, header by header: a relation between stores that is reflexive and
transitive and holds across every header holds across the loop. -/
theorem tsip_dialog_update_challenges_loop_induct
    (R : List tsip_challenge_t → List tsip_challenge_t → Prop)
    (hrefl : ∀ s, R s s) (htrans : ∀ a b c, R a b → R b c → R a c)
    (isproxy : Bool) (acceptNewVector : Bool) (hdrs : List tsip_header_WWW_Authenticate_t)
    (hstep : ∀ hdr ∈ hdrs, ∀ s,
      R s (tsip_dialog_update_challenges_header isproxy acceptNewVector s hdr).1)
    (store : List tsip_challenge_t) :
    R store (tsip_dialog_update_challenges_loop isproxy acceptNewVector hdrs store).1 := by
  induction hdrs generalizing store with
  | nil => exact hrefl store
  | cons hdr hdrs ih =>
    rw [tsip_dialog_update_challenges_loop]
    have h1 := hstep hdr (List.mem_cons_self hdr hdrs) store
    split
    · exact h1
    · exact htrans _ _ _ h1 (ih (fun x hx => hstep x (List.mem_cons_of_mem hdr hx)) _)

/-- The whole call: a relation between stores that is reflexive and transitive and
holds across every WWW-Authenticate and every Proxy-Authenticate header of the response
holds between the store before and the store after the call. -/
theorem tsip_dialog_update_challenges_induct
    (R : List tsip_challenge_t → List tsip_challenge_t → Prop)
    (hrefl : ∀ s, R s s) (htrans : ∀ a b c, R a b → R b c → R a c)
    (self : tsip_dialog_t) (response : tsip_message_t) (acceptNewVector : Bool)
    (hW : ∀ hdr ∈ tsip_message_www_authenticates response, ∀ s,
      R s (tsip_dialog_update_challenges_header false acceptNewVector s hdr).1)
    (hP : ∀ hdr ∈ tsip_message_proxy_authenticates response, ∀ s,
      R s (tsip_dialog_update_challenges_header true acceptNewVector s hdr).1) :
    R self.challenges
      (tsip_dialog_update_challenges self response acceptNewVector).2.challenges := by
  have h1 := tsip_dialog_update_challenges_loop_induct R hrefl htrans false acceptNewVector
    (tsip_message_www_authenticates response) hW self.challenges
  have h2 := tsip_dialog_update_challenges_loop_induct R hrefl htrans true acceptNewVector
    (tsip_message_proxy_authenticates response) hP
    (tsip_dialog_update_challenges_loop false acceptNewVector
      (tsip_message_www_authenticates response) self.challenges).1
  unfold tsip_dialog_update_challenges
  dsimp only
  split
  · exact h1
  · split
    · exact htrans _ _ _ h1 h2
    · exact htrans _ _ _ h1 h2

/-- Without stale header and without new vector, a header met by a store that holds a
challenge of its kind makes the turn return -1 and leave the store alone. -/
theorem tsip_dialog_update_challenges_header_not_stale (isproxy : Bool)
    (store : List tsip_challenge_t) (hdr : tsip_header_WWW_Authenticate_t)
    (hstale : hdr.stale = false) (hkind : ∃ c ∈ store, c.isproxy = isproxy) :
    tsip_dialog_update_challenges_header isproxy false store hdr = (store, some (-1)) := by
  obtain ⟨h1, h2⟩ := tsip_dialog_update_challenges_foreach_not_stale isproxy hdr store true hstale
  unfold tsip_dialog_update_challenges_header
  dsimp only
  rw [h2 hkind, h1]

/-- Without stale header and without new vector, a header leaves the store alone or
appends one challenge to it. -/
theorem tsip_dialog_update_challenges_header_prefix (isproxy : Bool)
    (store : List tsip_challenge_t) (hdr : tsip_header_WWW_Authenticate_t)
    (hstale : hdr.stale = false) :
    store <+: (tsip_dialog_update_challenges_header isproxy false store hdr).1 := by
  obtain ⟨h1, _⟩ := tsip_dialog_update_challenges_foreach_not_stale isproxy hdr store true hstale
  unfold tsip_dialog_update_challenges_header
  dsimp only
  rw [h1]
  split
  · exact List.prefix_refl store
  · split
    · exact List.prefix_append store _
    · exact List.prefix_refl store

/-! ### Claims on the challenges -/

/-- C14: for every dialog and every response with a To header whose status is 401,
407, 421 or 494, `tsip_dialog_update` returns the result of
`tsip_dialog_update_challenges` called with `acceptNewVector` true if and only if the
CSeq method of the response is REGISTER and the dialog is Established, and changes no
field of the dialog other than the challenge store; for a dialog in the Initial state
`acceptNewVector` is false. -/
theorem tsip_dialog_update_challenge_response (deps : tsip_deps) (self : tsip_dialog_t)
    (response : tsip_message_t) (To : tsip_header_To_t)
    (hTo : response.To = some To) (hresp : TSIP_MESSAGE_IS_RESPONSE response = true)
    (hcode : response.status_code = 401 ∨ response.status_code = 407 ∨
      response.status_code = 421 ∨ response.status_code = 494) :
    ∃ acceptNewVector : Bool,
      (acceptNewVector = true ↔
        (∃ cseq, response.CSeq = some cseq ∧
          tsk_striequals cseq.method (some (cstr "REGISTER")) = true) ∧
        self.state = tsip_established) ∧
      (self.state = tsip_initial → acceptNewVector = false) ∧
      tsip_dialog_update deps self response =
        tsip_dialog_update_challenges self response acceptNewVector ∧
      (tsip_dialog_update deps self response).2 =
        { self with challenges := (tsip_dialog_update deps self response).2.challenges } := by
  refine ⟨(match response.CSeq with
      | some cseq => tsk_striequals cseq.method (some (cstr "REGISTER"))
      | none => false) && decide (self.state = tsip_established), ?_, ?_,
    tsip_dialog_update_challenge_codes deps self response To hTo hresp hcode, ?_⟩
  · cases hc : response.CSeq with
    | none => simp
    | some cseq => simp
  · intro hinit
    rw [hinit]
    simp
  · rw [tsip_dialog_update_challenge_codes deps self response To hTo hresp hcode]
    exact tsip_dialog_update_challenges_frame _ _ _

/-- C14 (witness): an Established dialog that receives a 401 to a REGISTER. -/
theorem tsip_dialog_update_challenge_response_witness :
    ∃ acceptNewVector : Bool,
      (acceptNewVector = true ↔
        (∃ cseq, (sample_response 401 (some (cstr "remote"))
            (some { seq := 1, method := some (cstr "REGISTER") })
            [tsip_header_t.WWW_Authenticate (sample_authenticate "home.net" "abc" false)]).CSeq
              = some cseq ∧
          tsk_striequals cseq.method (some (cstr "REGISTER")) = true) ∧
        (sample_dialog tsip_established 1 []).state = tsip_established) ∧
      ((sample_dialog tsip_established 1 []).state = tsip_initial → acceptNewVector = false) ∧
      tsip_dialog_update sample_deps (sample_dialog tsip_established 1 [])
          (sample_response 401 (some (cstr "remote"))
            (some { seq := 1, method := some (cstr "REGISTER") })
            [tsip_header_t.WWW_Authenticate (sample_authenticate "home.net" "abc" false)]) =
        tsip_dialog_update_challenges (sample_dialog tsip_established 1 [])
          (sample_response 401 (some (cstr "remote"))
            (some { seq := 1, method := some (cstr "REGISTER") })
            [tsip_header_t.WWW_Authenticate (sample_authenticate "home.net" "abc" false)])
          acceptNewVector ∧
      (tsip_dialog_update sample_deps (sample_dialog tsip_established 1 [])
          (sample_response 401 (some (cstr "remote"))
            (some { seq := 1, method := some (cstr "REGISTER") })
            [tsip_header_t.WWW_Authenticate (sample_authenticate "home.net" "abc" false)])).2 =
        { sample_dialog tsip_established 1 [] with
          challenges :=
            (tsip_dialog_update sample_deps (sample_dialog tsip_established 1 [])
              (sample_response 401 (some (cstr "remote"))
                (some { seq := 1, method := some (cstr "REGISTER") })
                [tsip_header_t.WWW_Authenticate
                  (sample_authenticate "home.net" "abc" false)])).2.challenges } :=
  tsip_dialog_update_challenge_response sample_deps (sample_dialog tsip_established 1 [])
    (sample_response 401 (some (cstr "remote"))
      (some { seq := 1, method := some (cstr "REGISTER") })
      [tsip_header_t.WWW_Authenticate (sample_authenticate "home.net" "abc" false)])
    { uri := none, tag := some (cstr "remote") } rfl (by decide) (Or.inl (by decide))

/-- C15 (the code at the failing input): on an empty store the WWW-Authenticate header
for the realm `b.net` appends a new challenge and the call returns 0; on a store that
holds a non-proxy challenge for the realm `a.net` the same header makes the call return
-1 and leaves the store as it is, whether the header is stale or not and whether a new
vector is accepted or not. -/
theorem tsip_dialog_update_challenges_other_realm :
    tsip_dialog_update_challenges_loop false false [sample_authenticate "b.net" "n2" false] []
      = ([TSIP_CHALLENGE_CREATE false (sample_authenticate "b.net" "n2" false)], none) ∧
    (tsip_dialog_update_challenges (sample_dialog_with tsip_initial [])
      (sample_response 401 (some (cstr "remote")) none
        [tsip_header_t.WWW_Authenticate (sample_authenticate "b.net" "n2" false)]) false).1 = 0 ∧
    (tsip_dialog_update_challenges
      (sample_dialog_with tsip_initial [sample_challenge false "a.net" "n1"])
      (sample_response 401 (some (cstr "remote")) none
        [tsip_header_t.WWW_Authenticate (sample_authenticate "b.net" "n2" false)]) false).1 = -1 ∧
    (tsip_dialog_update_challenges
      (sample_dialog_with tsip_initial [sample_challenge false "a.net" "n1"])
      (sample_response 401 (some (cstr "remote")) none
        [tsip_header_t.WWW_Authenticate (sample_authenticate "b.net" "n2" false)])
      false).2.challenges = [sample_challenge false "a.net" "n1"] ∧
    (tsip_dialog_update_challenges
      (sample_dialog_with tsip_initial [sample_challenge false "a.net" "n1"])
      (sample_response 401 (some (cstr "remote")) none
        [tsip_header_t.WWW_Authenticate (sample_authenticate "b.net" "n2" true)]) true).1 = -1 ∧
    (tsip_dialog_update_challenges
      (sample_dialog_with tsip_initial [sample_challenge false "a.net" "n1"])
      (sample_response 401 (some (cstr "remote")) none
        [tsip_header_t.WWW_Authenticate (sample_authenticate "b.net" "n2" true)])
      true).2.challenges = [sample_challenge false "a.net" "n1"] := by
  decide

/-- C16 (counterexample): with `acceptNewVector` false, an empty store and a response
whose only authenticate header is not stale, the store holds a new challenge after the
call. -/
theorem tsip_dialog_update_challenges_first_challenge :
    (sample_authenticate "home.net" "abc" false).stale = false ∧
    (sample_dialog_with tsip_initial []).challenges = [] ∧
    (tsip_dialog_update_challenges (sample_dialog_with tsip_initial [])
      (sample_response 401 (some (cstr "remote")) none
        [tsip_header_t.WWW_Authenticate (sample_authenticate "home.net" "abc" false)])
      false).2.challenges =
        [TSIP_CHALLENGE_CREATE false (sample_authenticate "home.net" "abc" false)] ∧
    (tsip_dialog_update_challenges (sample_dialog_with tsip_initial [])
      (sample_response 401 (some (cstr "remote")) none
        [tsip_header_t.WWW_Authenticate (sample_authenticate "home.net" "abc" false)])
      false).2.challenges ≠ (sample_dialog_with tsip_initial []).challenges := by
  decide

/-- C16 (amended): for every dialog and every call of `tsip_dialog_update_challenges`
with `acceptNewVector` false on a response all of whose WWW-Authenticate and
Proxy-Authenticate headers have `stale` false, the challenges stored before the call
are unchanged and are, in order, the first entries of the store after the call (new
challenges may follow them); and the store after the call equals the store before the
call whenever the realm of every header of the response is the realm of a stored
challenge of its kind. -/
theorem tsip_dialog_update_challenges_not_stale (self : tsip_dialog_t)
    (response : tsip_message_t)
    (hW : ∀ hdr ∈ tsip_message_www_authenticates response, hdr.stale = false)
    (hP : ∀ hdr ∈ tsip_message_proxy_authenticates response, hdr.stale = false) :
    self.challenges <+: (tsip_dialog_update_challenges self response false).2.challenges ∧
    ((∀ hdr ∈ tsip_message_www_authenticates response,
        ∃ c ∈ self.challenges, c.isproxy = false ∧ tsk_strequals c.realm hdr.realm = true) →
      (∀ hdr ∈ tsip_message_proxy_authenticates response,
        ∃ c ∈ self.challenges, c.isproxy = true ∧ tsk_strequals c.realm hdr.realm = true) →
      (tsip_dialog_update_challenges self response false).2.challenges = self.challenges) := by
  constructor
  · exact tsip_dialog_update_challenges_induct (fun a b => a <+: b)
      (fun s => List.prefix_refl s) (fun a b c h1 h2 => List.IsPrefix.trans h1 h2)
      self response false
      (fun hdr hh s => tsip_dialog_update_challenges_header_prefix false s hdr (hW hdr hh))
      (fun hdr hh s => tsip_dialog_update_challenges_header_prefix true s hdr (hP hdr hh))
  · intro hWr hPr
    unfold tsip_dialog_update_challenges
    dsimp only
    cases hw : tsip_message_www_authenticates response with
    | cons hdr hdrs =>
      rw [hw] at hW hWr
      obtain ⟨c, hc, hcp, _⟩ := hWr hdr (List.mem_cons_self hdr hdrs)
      rw [tsip_dialog_update_challenges_loop,
        tsip_dialog_update_challenges_header_not_stale false self.challenges hdr
          (hW hdr (List.mem_cons_self hdr hdrs)) ⟨c, hc, hcp⟩]
    | nil =>
      rw [tsip_dialog_update_challenges_loop]
      dsimp only
      cases hp : tsip_message_proxy_authenticates response with
      | cons hdr hdrs =>
        rw [hp] at hP hPr
        obtain ⟨c, hc, hcp, _⟩ := hPr hdr (List.mem_cons_self hdr hdrs)
        rw [tsip_dialog_update_challenges_loop,
          tsip_dialog_update_challenges_header_not_stale true self.challenges hdr
            (hP hdr (List.mem_cons_self hdr hdrs)) ⟨c, hc, hcp⟩]
      | nil =>
        rw [tsip_dialog_update_challenges_loop]

/-- C16 (witness): a store that holds the non-proxy challenge for `home.net` is left
as it is by a header for `home.net` that is not stale. -/
theorem tsip_dialog_update_challenges_not_stale_witness :
    (tsip_dialog_update_challenges
      (sample_dialog_with tsip_initial [sample_challenge false "home.net" "abc"])
      (sample_response 401 (some (cstr "remote")) none
        [tsip_header_t.WWW_Authenticate (sample_authenticate "home.net" "xyz" false)])
      false).2.challenges = [sample_challenge false "home.net" "abc"] :=
  (tsip_dialog_update_challenges_not_stale
    (sample_dialog_with tsip_initial [sample_challenge false "home.net" "abc"])
    (sample_response 401 (some (cstr "remote")) none
      [tsip_header_t.WWW_Authenticate (sample_authenticate "home.net" "xyz" false)])
    (by decide) (by decide)).2 (by decide) (by decide)

/-- C17: for every dialog whose store holds a non-proxy challenge with the realm `R`
and every response that carries exactly one WWW-Authenticate header, with the realm
`R` and `stale` false, and no Proxy-Authenticate header,
`tsip_dialog_update_challenges` called with `acceptNewVector` false returns a non-zero
code (-1) and leaves the challenge store unchanged. -/
theorem tsip_dialog_update_challenges_bad_nonce (self : tsip_dialog_t)
    (response : tsip_message_t) (hdr : tsip_header_WWW_Authenticate_t)
    (c : tsip_challenge_t) (hc : c ∈ self.challenges) (hcp : c.isproxy = false)
    (_hR : tsk_strequals c.realm hdr.realm = true)
    (hW : tsip_message_www_authenticates response = [hdr]) (hstale : hdr.stale = false)
    (_hP : tsip_message_proxy_authenticates response = []) :
    (tsip_dialog_update_challenges self response false).1 ≠ 0 ∧
    (tsip_dialog_update_challenges self response false).1 = -1 ∧
    (tsip_dialog_update_challenges self response false).2.challenges = self.challenges ∧
    (tsip_dialog_update_challenges self response false).2 = self := by
  have e : tsip_dialog_update_challenges self response false = (-1, self) := by
    unfold tsip_dialog_update_challenges
    dsimp only
    rw [hW, tsip_dialog_update_challenges_loop,
      tsip_dialog_update_challenges_header_not_stale false self.challenges hdr hstale
        ⟨c, hc, hcp⟩]
  rw [e]
  exact ⟨by simp, rfl, rfl, rfl⟩

/-- C17 (witness): the store holds the challenge for `home.net` with the nonce `abc`;
a 401 with a header for `home.net` that is not stale is refused. -/
theorem tsip_dialog_update_challenges_bad_nonce_witness :
    (tsip_dialog_update_challenges
      (sample_dialog_with tsip_initial [sample_challenge false "home.net" "abc"])
      (sample_response 401 (some (cstr "remote")) none
        [tsip_header_t.WWW_Authenticate (sample_authenticate "home.net" "xyz" false)])
      false).1 ≠ 0 :=
  (tsip_dialog_update_challenges_bad_nonce
    (sample_dialog_with tsip_initial [sample_challenge false "home.net" "abc"])
    (sample_response 401 (some (cstr "remote")) none
      [tsip_header_t.WWW_Authenticate (sample_authenticate "home.net" "xyz" false)])
    (sample_authenticate "home.net" "xyz" false) (sample_challenge false "home.net" "abc")
    (by decide) rfl (by decide) (by decide) rfl (by decide)).1

/-- C18: `tsip_dialog_update_challenges` preserves the invariant that the store holds
at most one challenge per (realm, proxy flag), for every response and every
`acceptNewVector`, and keeps the realms and proxy flags of the stored challenges, in
order, at the head of the store; and a header met by a store that holds a challenge of
its kind and realm appends nothing: the store keeps its length and order, each
challenge staying as it is or being refreshed in place from the header. -/
theorem tsip_dialog_update_challenges_unique (self : tsip_dialog_t)
    (response : tsip_message_t) (acceptNewVector : Bool) :
    (tsip_challenges_unique self.challenges →
      tsip_challenges_unique
        (tsip_dialog_update_challenges self response acceptNewVector).2.challenges) ∧
    (self.challenges.map tsip_challenge_key <+:
      (tsip_dialog_update_challenges self response acceptNewVector).2.challenges.map
        tsip_challenge_key) ∧
    (∀ (isproxy : Bool) (store : List tsip_challenge_t) (hdr : tsip_header_WWW_Authenticate_t),
      (∃ c ∈ store, c.isproxy = isproxy ∧ tsk_strequals c.realm hdr.realm = true) →
      (tsip_dialog_update_challenges_header isproxy acceptNewVector store hdr).1.length =
          store.length ∧
        (tsip_dialog_update_challenges_header isproxy acceptNewVector store hdr).1.map
          tsip_challenge_key = store.map tsip_challenge_key ∧
        List.Forall₂ (fun c c' => c' = c ∨ c' = (tsip_challenge_update c hdr).1) store
          (tsip_dialog_update_challenges_header isproxy acceptNewVector store hdr).1) := by
  have hstep : ∀ (isproxy : Bool) (hdr : tsip_header_WWW_Authenticate_t)
      (s : List tsip_challenge_t),
      (tsip_challenges_unique s →
        tsip_challenges_unique
          (tsip_dialog_update_challenges_header isproxy acceptNewVector s hdr).1) ∧
      (s.map tsip_challenge_key <+:
        (tsip_dialog_update_challenges_header isproxy acceptNewVector s hdr).1.map
          tsip_challenge_key) := by
    intro isproxy hdr s
    rcases tsip_dialog_update_challenges_header_keys isproxy acceptNewVector s hdr with
      ⟨hk, _⟩ | ⟨hall, he⟩
    · unfold tsip_challenges_unique
      rw [hk]
      exact ⟨id, List.prefix_refl _⟩
    · rw [he]
      refine ⟨fun hu => ?_, by rw [List.map_append]; exact List.prefix_append _ _⟩
      unfold tsip_challenges_unique at hu ⊢
      rw [List.map_append, List.nodup_append]
      refine ⟨hu, List.nodup_singleton _, ?_⟩
      intro k hk1 hk2
      obtain ⟨c, hc, rfl⟩ := List.mem_map.1 hk1
      rw [List.map_singleton, List.mem_singleton] at hk2
      have : c.isproxy = isproxy := congrArg Prod.snd hk2
      exact hall c hc this
  refine ⟨?_, ?_, ?_⟩
  · exact (tsip_dialog_update_challenges_induct
      (fun a b => (tsip_challenges_unique a → tsip_challenges_unique b) ∧
        (a.map tsip_challenge_key <+: b.map tsip_challenge_key))
      (fun s => ⟨id, List.prefix_refl _⟩)
      (fun a b c h1 h2 => ⟨fun h => h2.1 (h1.1 h), List.IsPrefix.trans h1.2 h2.2⟩)
      self response acceptNewVector
      (fun hdr _ s => hstep false hdr s) (fun hdr _ s => hstep true hdr s)).1
  · exact (tsip_dialog_update_challenges_induct
      (fun a b => (tsip_challenges_unique a → tsip_challenges_unique b) ∧
        (a.map tsip_challenge_key <+: b.map tsip_challenge_key))
      (fun s => ⟨id, List.prefix_refl _⟩)
      (fun a b c h1 h2 => ⟨fun h => h2.1 (h1.1 h), List.IsPrefix.trans h1.2 h2.2⟩)
      self response acceptNewVector
      (fun hdr _ s => hstep false hdr s) (fun hdr _ s => hstep true hdr s)).2
  · intro isproxy store hdr ⟨c, hc, hcp, _⟩
    rcases tsip_dialog_update_challenges_header_keys isproxy acceptNewVector store hdr with
      ⟨hk, hf⟩ | ⟨hall, _⟩
    · exact ⟨by simpa using congrArg List.length hk, hk, hf⟩
    · exact absurd hcp (hall c hc)

/-- C18 (witness): the store holds the non-proxy challenge for `home.net` with the
nonce `abc`; a stale header for `home.net` with the nonce `xyz` leaves one challenge in
the store, refreshed in place. -/
theorem tsip_dialog_update_challenges_unique_witness :
    tsip_challenges_unique
        (tsip_dialog_update_challenges
          (sample_dialog_with tsip_established [sample_challenge false "home.net" "abc"])
          (sample_response 401 (some (cstr "remote")) none
            [tsip_header_t.WWW_Authenticate (sample_authenticate "home.net" "xyz" true)])
          false).2.challenges ∧
    (tsip_dialog_update_challenges_header false false
        [sample_challenge false "home.net" "abc"]
        (sample_authenticate "home.net" "xyz" true)).1.length = 1 ∧
    (tsip_dialog_update_challenges_header false false
        [sample_challenge false "home.net" "abc"]
        (sample_authenticate "home.net" "xyz" true)).1 =
      [sample_challenge false "home.net" "xyz"] :=
  ⟨(tsip_dialog_update_challenges_unique
      (sample_dialog_with tsip_established [sample_challenge false "home.net" "abc"])
      (sample_response 401 (some (cstr "remote")) none
        [tsip_header_t.WWW_Authenticate (sample_authenticate "home.net" "xyz" true)])
      false).1 (by unfold tsip_challenges_unique; decide),
   ((tsip_dialog_update_challenges_unique
      (sample_dialog_with tsip_established [sample_challenge false "home.net" "abc"])
      (sample_response 401 (some (cstr "remote")) none
        [tsip_header_t.WWW_Authenticate (sample_authenticate "home.net" "xyz" true)])
      false).2.2 false [sample_challenge false "home.net" "abc"]
      (sample_authenticate "home.net" "xyz" true)
      ⟨sample_challenge false "home.net" "abc", by decide, rfl, by decide⟩).1,
   by decide⟩



/-! ## Contact, Expires and Authorization headers of the request -/

theorem tsip_message_same_slots_refl (a : tsip_message_t) : tsip_message_same_slots a a := rfl

theorem tsip_message_same_slots_trans {a b c : tsip_message_t}
    (h1 : tsip_message_same_slots a b) (h2 : tsip_message_same_slots b c) :
    tsip_message_same_slots a c := by
  unfold tsip_message_same_slots at *
  rw [h2, h1]

theorem tsip_message_same_slots_add_header (a : tsip_message_t) (h : tsip_header_t) :
    tsip_message_same_slots a (tsip_message_add_header a h) := rfl

theorem tsip_message_same_slots_foldl {α : Type} (f : tsip_message_t → α → tsip_message_t)
    (hf : ∀ m x, tsip_message_same_slots m (f m x)) (l : List α) (m : tsip_message_t) :
    tsip_message_same_slots m (l.foldl f m) := by
  induction l generalizing m with
  | nil => exact tsip_message_same_slots_refl m
  | cons x xs ih => exact tsip_message_same_slots_trans (hf m x) (ih (f m x))

theorem tsip_message_same_slots_Contact {a b : tsip_message_t}
    (h : tsip_message_same_slots a b) : b.Contact = a.Contact := by
  unfold tsip_message_same_slots at h; rw [h]

theorem tsip_dialog_request_new_authorizations_slots (deps : tsip_deps) (self : tsip_dialog_t)
    (request : tsip_message_t) :
    tsip_message_same_slots request
      (tsip_dialog_request_new_authorizations deps self request) := by
  unfold tsip_dialog_request_new_authorizations
  split
  · split
    · exact tsip_message_same_slots_add_header _ _
    · exact tsip_message_same_slots_refl _
  · split
    · apply tsip_message_same_slots_foldl
      intro m x
      split
      · exact tsip_message_same_slots_add_header _ _
      · exact tsip_message_same_slots_refl _
    · exact tsip_message_same_slots_refl _

theorem tsip_dialog_copy_routes_slots (k : Int) (l : List tsip_uri_t) (index : Int)
    (request : tsip_message_t) :
    tsip_message_same_slots request (tsip_dialog_copy_routes k l index request) := by
  induction l generalizing index request with
  | nil => exact tsip_message_same_slots_refl _
  | cons uri rest ih =>
    unfold tsip_dialog_copy_routes
    split
    · exact ih _ _
    · exact tsip_message_same_slots_trans (tsip_message_same_slots_add_header _ _) (ih _ _)

theorem tsip_dialog_request_new_routes_slots (self : tsip_dialog_t) (k : Int)
    (request : tsip_message_t) :
    tsip_message_same_slots request (tsip_dialog_request_new_routes self k request) := by
  unfold tsip_dialog_request_new_routes
  split
  · split
    · split
      · exact tsip_dialog_copy_routes_slots _ _ _ _
      · exact tsip_message_same_slots_refl _
    · split
      · apply tsip_message_same_slots_trans _ (tsip_message_same_slots_foldl _ _ _ _)
        · split
          · exact tsip_message_same_slots_add_header _ _
          · exact tsip_message_same_slots_refl _
        · intro m x
          exact tsip_message_same_slots_add_header _ _
      · exact tsip_message_same_slots_refl _
  · exact tsip_message_same_slots_refl _

theorem tsip_dialog_request_new_headers_slots (self : tsip_dialog_t)
    (request : tsip_message_t) :
    tsip_message_same_slots request (tsip_dialog_request_new_headers self request) := by
  unfold tsip_dialog_request_new_headers
  apply tsip_message_same_slots_foldl
  intro m x
  split
  · exact tsip_message_same_slots_add_header _ _
  · exact tsip_message_same_slots_refl _

theorem tsip_dialog_add_common_headers_slots (self : tsip_dialog_t)
    (request : tsip_message_t) :
    tsip_message_same_slots request (tsip_dialog_add_common_headers self request) := by
  have h1 : ∀ (m : tsip_message_t),
      tsip_message_same_slots m
        (match self.stack.netinfo with
          | some info =>
            match m.request_type with
            | tsip_BYE | tsip_INVITE | tsip_OPTIONS | tsip_REGISTER | tsip_SUBSCRIBE
            | tsip_NOTIFY | tsip_PRACK | tsip_INFO | tsip_UPDATE | tsip_REFER
            | tsip_MESSAGE | tsip_PUBLISH =>
              tsip_message_add_header m (tsip_header_t.P_Access_Network_Info info)
            | _ => m
          | none => m) := by
    intro m
    split
    · split <;> first
        | exact tsip_message_same_slots_add_header _ _
        | exact tsip_message_same_slots_refl _
    · exact tsip_message_same_slots_refl _
  unfold tsip_dialog_add_common_headers
  refine tsip_message_same_slots_trans ?_ (h1 _)
  split
  · split
    all_goals first
      | exact tsip_message_same_slots_refl _
      | (split
         · exact tsip_message_same_slots_add_header _ _
         · exact tsip_message_same_slots_refl _)
  · exact tsip_message_same_slots_refl _

/-- The Contact slot of the request built by `tsip_dialog_request_new` is the one set
by the `switch` on the request kind. -/
theorem tsip_dialog_request_new_Contact_eq (deps : tsip_deps) (self : tsip_dialog_t)
    (method : Option (List Int)) :
    (tsip_dialog_request_new deps self method).1.Contact =
      (tsip_dialog_request_new_contact deps self
        (tsip_dialog_request_new_start self method)).Contact := by
  have hs : ∀ (d : tsip_dialog_t) (m : tsip_message_t),
      (tsip_dialog_request_new_cseq d m).1.Contact = m.Contact := by
    intro d m
    unfold tsip_dialog_request_new_cseq
    split <;> rfl
  unfold tsip_dialog_request_new tsip_dialog_request_new_start
  dsimp only
  rw [tsip_message_same_slots_Contact (tsip_dialog_add_common_headers_slots _ _),
    tsip_message_same_slots_Contact (tsip_dialog_request_new_headers_slots _ _),
    tsip_message_same_slots_Contact (tsip_dialog_request_new_routes_slots _ _ _), hs,
    tsip_message_same_slots_Contact (tsip_dialog_request_new_authorizations_slots _ _ _)]

/-! ### Selecting headers of one kind -/

theorem tsip_message_select_add_header {β : Type} (f : tsip_header_t → Option β)
    (m : tsip_message_t) (h : tsip_header_t) :
    (tsip_message_add_header m h).headers.filterMap f =
      m.headers.filterMap f ++ (f h).toList := by
  unfold tsip_message_add_header
  rw [List.filterMap_append]
  cases hf : f h <;> simp [List.filterMap_cons, hf]

theorem tsip_message_select_add_header_none {β : Type} (f : tsip_header_t → Option β)
    (m : tsip_message_t) (h : tsip_header_t) (hf : f h = none) :
    (tsip_message_add_header m h).headers.filterMap f = m.headers.filterMap f := by
  rw [tsip_message_select_add_header, hf]
  exact List.append_nil _

theorem tsip_message_select_foldl {α β : Type} (f : tsip_header_t → Option β)
    (g : tsip_message_t → α → tsip_message_t)
    (hg : ∀ m x, (g m x).headers.filterMap f = m.headers.filterMap f) (l : List α)
    (m : tsip_message_t) : (l.foldl g m).headers.filterMap f = m.headers.filterMap f := by
  induction l generalizing m with
  | nil => rfl
  | cons x xs ih => exact (ih (g m x)).trans (hg m x)

theorem tsip_dialog_request_new_authorizations_select {β : Type}
    (f : tsip_header_t → Option β)
    (hA : ∀ a, f (tsip_header_t.Authorization a) = none)
    (hPA : ∀ a, f (tsip_header_t.Proxy_Authorization a) = none)
    (deps : tsip_deps) (self : tsip_dialog_t) (request : tsip_message_t) :
    (tsip_dialog_request_new_authorizations deps self request).headers.filterMap f =
      request.headers.filterMap f := by
  unfold tsip_dialog_request_new_authorizations
  split
  · split
    · exact tsip_message_select_add_header_none f _ _ (hA _)
    · rfl
  · split
    · apply tsip_message_select_foldl
      intro m x
      split
      · apply tsip_message_select_add_header_none
        unfold tsip_dialog_authorization_header
        cases x.isproxy
        · exact hA _
        · exact hPA _
      · rfl
    · rfl

theorem tsip_dialog_copy_routes_select {β : Type} (f : tsip_header_t → Option β)
    (hR : ∀ u, f (tsip_header_t.Route u) = none)
    (k : Int) (l : List tsip_uri_t) (index : Int) (request : tsip_message_t) :
    (tsip_dialog_copy_routes k l index request).headers.filterMap f =
      request.headers.filterMap f := by
  induction l generalizing index request with
  | nil => rfl
  | cons uri rest ih =>
    unfold tsip_dialog_copy_routes
    split
    · exact ih _ _
    · rw [ih]
      exact tsip_message_select_add_header_none f _ _ (hR _)

theorem tsip_dialog_request_new_routes_select {β : Type} (f : tsip_header_t → Option β)
    (hR : ∀ u, f (tsip_header_t.Route u) = none)
    (self : tsip_dialog_t) (k : Int) (request : tsip_message_t) :
    (tsip_dialog_request_new_routes self k request).headers.filterMap f =
      request.headers.filterMap f := by
  unfold tsip_dialog_request_new_routes
  split
  · split
    · split
      · exact tsip_dialog_copy_routes_select f hR _ _ _ _
      · rfl
    · split
      · rw [tsip_message_select_foldl f _
          (fun m x => tsip_message_select_add_header_none f m _ (hR x))]
        split
        · exact tsip_message_select_add_header_none f _ _ (hR _)
        · rfl
      · rfl
  · rfl

theorem tsip_dialog_request_new_headers_select {β : Type} (f : tsip_header_t → Option β)
    (hD : ∀ n v, f (tsip_header_t.Dummy n v) = none)
    (self : tsip_dialog_t) (request : tsip_message_t) :
    (tsip_dialog_request_new_headers self request).headers.filterMap f =
      request.headers.filterMap f := by
  unfold tsip_dialog_request_new_headers
  apply tsip_message_select_foldl
  intro m x
  split
  · exact tsip_message_select_add_header_none f _ _ (hD _ _)
  · rfl

theorem tsip_dialog_add_common_headers_select {β : Type} (f : tsip_header_t → Option β)
    (hI : ∀ u, f (tsip_header_t.P_Preferred_Identity u) = none)
    (hN : ∀ v, f (tsip_header_t.P_Access_Network_Info v) = none)
    (self : tsip_dialog_t) (request : tsip_message_t) :
    (tsip_dialog_add_common_headers self request).headers.filterMap f =
      request.headers.filterMap f := by
  have h1 : ∀ (m : tsip_message_t),
      (match self.stack.netinfo with
          | some info =>
            match m.request_type with
            | tsip_BYE | tsip_INVITE | tsip_OPTIONS | tsip_REGISTER | tsip_SUBSCRIBE
            | tsip_NOTIFY | tsip_PRACK | tsip_INFO | tsip_UPDATE | tsip_REFER
            | tsip_MESSAGE | tsip_PUBLISH =>
              tsip_message_add_header m (tsip_header_t.P_Access_Network_Info info)
            | _ => m
          | none => m).headers.filterMap f = m.headers.filterMap f := by
    intro m
    split
    · split <;> first
        | rfl
        | exact tsip_message_select_add_header_none f _ _ (hN _)
    · rfl
  unfold tsip_dialog_add_common_headers
  refine (h1 _).trans ?_
  split
  · split
    all_goals first
      | rfl
      | (split
         · exact tsip_message_select_add_header_none f _ _ (hI _)
         · rfl)
  · rfl

/-- The headers of one kind in the request built by `tsip_dialog_request_new`, when
the kind is none of Route, Dummy, P-Preferred-Identity and P-Access-Network-Info: they
are those present after the block "Update authorizations". -/
theorem tsip_dialog_request_new_select {β : Type} (f : tsip_header_t → Option β)
    (hR : ∀ u, f (tsip_header_t.Route u) = none)
    (hD : ∀ n v, f (tsip_header_t.Dummy n v) = none)
    (hI : ∀ u, f (tsip_header_t.P_Preferred_Identity u) = none)
    (hN : ∀ v, f (tsip_header_t.P_Access_Network_Info v) = none)
    (deps : tsip_deps) (self : tsip_dialog_t) (method : Option (List Int)) :
    (tsip_dialog_request_new deps self method).1.headers.filterMap f =
      (tsip_dialog_request_new_authorizations deps self
        (tsip_dialog_request_new_contact deps self
          (tsip_dialog_request_new_start self method))).headers.filterMap f := by
  have hs : ∀ (d : tsip_dialog_t) (m : tsip_message_t),
      (tsip_dialog_request_new_cseq d m).1.headers = m.headers := by
    intro d m
    unfold tsip_dialog_request_new_cseq
    split <;> rfl
  unfold tsip_dialog_request_new tsip_dialog_request_new_start
  dsimp only
  rw [tsip_dialog_add_common_headers_select f hI hN,
    tsip_dialog_request_new_headers_select f hD,
    tsip_dialog_request_new_routes_select f hR, hs]

/-! ### The `switch` on the request kind -/

theorem tsip_dialog_request_new_contact_headers (deps : tsip_deps) (self : tsip_dialog_t)
    (request : tsip_message_t) :
    (tsip_dialog_request_new_contact deps self request).headers =
      request.headers ++
        (if request.request_type = tsip_PUBLISH then
          [tsip_header_t.Expires (TSK_TIME_MS_2_S self.expires)] else []) := by
  unfold tsip_dialog_request_new_contact
  split
  · rename_i h
    rw [h, if_neg (by decide)]
    exact (List.append_nil _).symm
  · rename_i h
    rw [h, if_pos rfl]
    rfl
  · rename_i h1 h2
    rw [if_neg h2, List.append_nil]
    cases deps.tsip_header_Contact_parse self.uri_local.user_name
        (TSK_TIME_MS_2_S self.expires) with
    | nil =>
      dsimp only
      split <;> rfl
    | cons c cs => rfl

theorem tsip_dialog_request_new_contact_none (deps : tsip_deps) (self : tsip_dialog_t)
    (request : tsip_message_t)
    (h : request.request_type = tsip_MESSAGE ∨ request.request_type = tsip_PUBLISH) :
    (tsip_dialog_request_new_contact deps self request).Contact = request.Contact := by
  unfold tsip_dialog_request_new_contact
  split
  · rfl
  · rfl
  · rename_i h1 h2
    rcases h with h | h
    · exact absurd h h1
    · exact absurd h h2

theorem tsip_dialog_request_new_contact_some (deps : tsip_deps) (self : tsip_dialog_t)
    (request : tsip_message_t) (c : tsip_header_Contact_t) (cs : List tsip_header_Contact_t)
    (h1 : request.request_type ≠ tsip_MESSAGE) (h2 : request.request_type ≠ tsip_PUBLISH)
    (hc : deps.tsip_header_Contact_parse self.uri_local.user_name
      (TSK_TIME_MS_2_S self.expires) = c :: cs) :
    (tsip_dialog_request_new_contact deps self request).Contact =
      some { c with
        params := self.operation.caps.foldl
          (fun ps param => tsk_params_add_param ps param.name param.value) c.params } := by
  unfold tsip_dialog_request_new_contact
  split
  · rename_i h; exact absurd h h1
  · rename_i h; exact absurd h h2
  · rw [hc]

/-! ### The block "Update authorizations" -/

theorem tsip_message_authorizations_add_header (m : tsip_message_t) (h : tsip_header_t) :
    tsip_message_authorizations (tsip_message_add_header m h) =
      tsip_message_authorizations m ++
        (match h with
          | tsip_header_t.Authorization a => [a]
          | _ => []) := by
  unfold tsip_message_authorizations
  rw [tsip_message_select_add_header]
  cases h <;> rfl

theorem tsip_dialog_request_new_authorizations_computed (deps : tsip_deps)
    (hdigest : ∀ c req a,
      deps.tsip_challenge_create_header_authorization c req = some a → a.response ≠ some [])
    (l : List tsip_challenge_t) (m : tsip_message_t) (a : tsip_header_Authorization_t)
    (ha : a ∈ tsip_message_authorizations
      (l.foldl
        (fun req challenge =>
          match deps.tsip_challenge_create_header_authorization challenge req with
          | some auth_hdr =>
            tsip_message_add_header req (tsip_dialog_authorization_header challenge auth_hdr)
          | none => req)
        m)) :
    a ∈ tsip_message_authorizations m ∨ a.response ≠ some [] := by
  induction l generalizing m with
  | nil => exact Or.inl ha
  | cons c cs ih =>
    rw [List.foldl_cons] at ha
    rcases ih _ ha with h | h
    · cases hc : deps.tsip_challenge_create_header_authorization c m with
      | none =>
        rw [hc] at h
        exact Or.inl h
      | some x =>
        rw [hc] at h
        dsimp only at h
        rw [tsip_message_authorizations_add_header, List.mem_append] at h
        rcases h with h | h
        · exact Or.inl h
        · unfold tsip_dialog_authorization_header at h
          cases hp : c.isproxy
          · rw [hp] at h
            simp at h
            rw [h]
            exact Or.inr (hdigest c m x hc)
          · rw [hp] at h
            simp at h
    · exact Or.inr h

theorem tsip_dialog_request_new_authorizations_empty (deps : tsip_deps) (self : tsip_dialog_t)
    (request : tsip_message_t) (realm_uri : tsip_uri_t)
    (hrealm : self.stack.realm = some realm_uri)
    (hdigest : ∀ c req a,
      deps.tsip_challenge_create_header_authorization c req = some a → a.response ≠ some [])
    (h0 : tsip_message_authorizations request = []) :
    (∃ a ∈ tsip_message_authorizations
        (tsip_dialog_request_new_authorizations deps self request),
      a.username = self.stack.private_identity ∧ a.realm = realm_uri.host ∧
        a.nonce = some [] ∧ a.response = some []) ↔
      (self.state = tsip_initial ∧ self.challenges = [] ∧
        request.request_type = tsip_REGISTER ∧ self.stack.enable_earlyIMS = false) := by
  unfold tsip_dialog_request_new_authorizations
  by_cases hA : self.state = tsip_initial ∧ self.challenges = []
  · rw [if_pos hA]
    by_cases hB : (TSIP_REQUEST_IS_REGISTER request && !self.stack.enable_earlyIMS) = true
    · rw [if_pos hB]
      have hB2 : request.request_type = tsip_REGISTER ∧ self.stack.enable_earlyIMS = false := by
        unfold TSIP_REQUEST_IS_REGISTER at hB
        simpa using hB
      constructor
      · intro _
        exact ⟨hA.1, hA.2, hB2.1, hB2.2⟩
      · intro _
        dsimp only
        unfold tsip_challenge_create_empty_header_authorization
        rw [tsip_message_authorizations_add_header, h0, hrealm]
        exact ⟨_, List.mem_singleton.mpr rfl, rfl, rfl, rfl, rfl⟩
    · rw [if_neg hB]
      constructor
      · rintro ⟨a, ha, _⟩
        rw [h0] at ha
        cases ha
      · rintro ⟨_, _, h3, h4⟩
        exfalso
        apply hB
        unfold TSIP_REQUEST_IS_REGISTER
        simp [h3, h4]
  · rw [if_neg hA]
    constructor
    · rintro ⟨a, ha, _, _, _, hr⟩
      exfalso
      by_cases hC : self.challenges ≠ []
      · rw [if_pos hC] at ha
        rcases tsip_dialog_request_new_authorizations_computed deps hdigest _ _ _ ha with h | h
        · rw [h0] at h
          cases h
        · exact h hr
      · rw [if_neg hC, h0] at ha
        cases ha
    · rintro ⟨h1, h2, _, _⟩
      exact absurd ⟨h1, h2⟩ hA

theorem tsip_dialog_request_new_contact_authorizations (deps : tsip_deps)
    (self : tsip_dialog_t) (request : tsip_message_t) :
    tsip_message_authorizations (tsip_dialog_request_new_contact deps self request) =
      tsip_message_authorizations request := by
  unfold tsip_message_authorizations
  rw [tsip_dialog_request_new_contact_headers, List.filterMap_append]
  split <;> simp

/-! ### Claims on the Authorization, Contact and Expires headers -/

/-- C19: when the stack has a realm URI and the credentials computed for a stored
challenge never have an empty response, the request built by
`tsip_dialog_request_new` carries an Authorization header with the private identity of
the stack as user name, the host of the realm URI as realm and an empty nonce and
response exactly when the dialog is in the Initial state, its challenge store is empty,
the request is a REGISTER and early IMS is disabled. -/
theorem tsip_dialog_request_new_empty_authorization (deps : tsip_deps)
    (self : tsip_dialog_t) (method : Option (List Int)) (realm_uri : tsip_uri_t)
    (hrealm : self.stack.realm = some realm_uri)
    (hdigest : ∀ c req a,
      deps.tsip_challenge_create_header_authorization c req = some a → a.response ≠ some []) :
    (∃ a ∈ tsip_message_authorizations (tsip_dialog_request_new deps self method).1,
      a.username = self.stack.private_identity ∧ a.realm = realm_uri.host ∧
        a.nonce = some [] ∧ a.response = some []) ↔
      (self.state = tsip_initial ∧ self.challenges = [] ∧
        tsip_request_get_type method = tsip_REGISTER ∧
        self.stack.enable_earlyIMS = false) := by
  have hsel : tsip_message_authorizations (tsip_dialog_request_new deps self method).1 =
      tsip_message_authorizations
        (tsip_dialog_request_new_authorizations deps self
          (tsip_dialog_request_new_contact deps self
            (tsip_dialog_request_new_start self method))) :=
    tsip_dialog_request_new_select _ (fun _ => rfl) (fun _ _ => rfl) (fun _ => rfl)
      (fun _ => rfl) deps self method
  have htype : (tsip_dialog_request_new_contact deps self
      (tsip_dialog_request_new_start self method)).request_type =
        tsip_request_get_type method :=
    tsip_message_frame_request_type (tsip_dialog_request_new_contact_frame deps self _)
  rw [hsel, ← htype]
  exact tsip_dialog_request_new_authorizations_empty deps self _ realm_uri hrealm hdigest
    (by rw [tsip_dialog_request_new_contact_authorizations]; rfl)

theorem tsip_dialog_request_new_empty_authorization_witness :
    sample_stack.realm = some (sample_uri "home.net" false) ∧
      ∃ a ∈ tsip_message_authorizations
          (tsip_dialog_request_new sample_deps (sample_dialog tsip_initial 1 [])
            (some (cstr "REGISTER"))).1,
        a.username = some (cstr "alice@home.net") ∧ a.realm = some (cstr "home.net") ∧
          a.nonce = some [] ∧ a.response = some [] :=
  ⟨rfl,
    (tsip_dialog_request_new_empty_authorization sample_deps (sample_dialog tsip_initial 1 [])
      (some (cstr "REGISTER")) (sample_uri "home.net" false) rfl
      (fun c req a h => by cases h; intro h2; cases h2)).mpr
      ⟨rfl, rfl, by decide, rfl⟩⟩

/-- C20 (counterexample): with a Contact line that parses, the PUBLISH request built
by `tsip_dialog_request_new` has no Contact header, neither in its Contact slot nor
among its other headers; it has the Expires header only. -/
theorem tsip_dialog_request_new_publish_no_contact :
    sample_deps.tsip_header_Contact_parse
        (sample_dialog tsip_initial 1 []).uri_local.user_name
        (TSK_TIME_MS_2_S (sample_dialog tsip_initial 1 []).expires) ≠ [] ∧
      tsip_request_get_type (some (cstr "PUBLISH")) ≠ tsip_MESSAGE ∧
      (tsip_dialog_request_new sample_deps (sample_dialog tsip_initial 1 [])
        (some (cstr "PUBLISH"))).1.Contact = none ∧
      tsip_message_contacts (tsip_dialog_request_new sample_deps
        (sample_dialog tsip_initial 1 []) (some (cstr "PUBLISH"))).1 = [] ∧
      tsip_message_get_expires (tsip_dialog_request_new sample_deps
        (sample_dialog tsip_initial 1 []) (some (cstr "PUBLISH"))).1 = some 3600 := by
  decide

/-- C20 (amended): when the generated Contact line parses, the request built by
`tsip_dialog_request_new` for a method other than MESSAGE and PUBLISH has exactly one
Contact header, the first parsed one with the capabilities of the operation added; a
MESSAGE request and a PUBLISH request have no Contact header; and the first Expires
header of a PUBLISH request is the expires of the dialog converted from milliseconds
to seconds. -/
theorem tsip_dialog_request_new_contact_header (deps : tsip_deps) (self : tsip_dialog_t)
    (method : Option (List Int))
    (hparse : deps.tsip_header_Contact_parse self.uri_local.user_name
      (TSK_TIME_MS_2_S self.expires) ≠ []) :
    (tsip_request_get_type method ≠ tsip_MESSAGE →
      tsip_request_get_type method ≠ tsip_PUBLISH →
      ∃ c cs, deps.tsip_header_Contact_parse self.uri_local.user_name
          (TSK_TIME_MS_2_S self.expires) = c :: cs ∧
        tsip_message_contacts (tsip_dialog_request_new deps self method).1 =
          [{ c with
            params := self.operation.caps.foldl
              (fun ps param => tsk_params_add_param ps param.name param.value) c.params }]) ∧
    (tsip_request_get_type method = tsip_MESSAGE ∨
        tsip_request_get_type method = tsip_PUBLISH →
      tsip_message_contacts (tsip_dialog_request_new deps self method).1 = []) ∧
    (tsip_request_get_type method = tsip_PUBLISH →
      tsip_message_get_expires (tsip_dialog_request_new deps self method).1 =
        some (TSK_TIME_MS_2_S self.expires)) := by
  have hC := tsip_dialog_request_new_Contact_eq deps self method
  have hcol : tsip_message_contacts (tsip_dialog_request_new deps self method).1 =
      (tsip_dialog_request_new deps self method).1.Contact.toList := by
    unfold tsip_message_contacts
    rw [tsip_dialog_request_new_select _ (fun _ => rfl) (fun _ _ => rfl) (fun _ => rfl)
      (fun _ => rfl),
      tsip_dialog_request_new_authorizations_select _ (fun _ => rfl) (fun _ => rfl),
      tsip_dialog_request_new_contact_headers, List.filterMap_append]
    split <;> exact List.append_nil _
  have htype : (tsip_dialog_request_new_start self method).request_type =
      tsip_request_get_type method := rfl
  refine ⟨?_, ?_, ?_⟩
  · intro h1 h2
    cases hp : deps.tsip_header_Contact_parse self.uri_local.user_name
        (TSK_TIME_MS_2_S self.expires) with
    | nil => exact absurd hp hparse
    | cons c cs =>
      refine ⟨c, cs, rfl, ?_⟩
      rw [hcol, hC, tsip_dialog_request_new_contact_some deps self _ c cs h1 h2 hp]
      rfl
  · intro h
    rw [hcol, hC, tsip_dialog_request_new_contact_none deps self _ h]
    rfl
  · intro h
    unfold tsip_message_get_expires
    rw [tsip_dialog_request_new_select _ (fun _ => rfl) (fun _ _ => rfl) (fun _ => rfl)
      (fun _ => rfl),
      tsip_dialog_request_new_authorizations_select _ (fun _ => rfl) (fun _ => rfl),
      tsip_dialog_request_new_contact_headers, htype, if_pos h]
    rfl

theorem tsip_dialog_request_new_contact_header_witness :
    sample_deps.tsip_header_Contact_parse
        (sample_dialog tsip_initial 1 []).uri_local.user_name
        (TSK_TIME_MS_2_S (sample_dialog tsip_initial 1 []).expires) ≠ [] ∧
      (∃ c cs, sample_deps.tsip_header_Contact_parse
          (sample_dialog tsip_initial 1 []).uri_local.user_name
          (TSK_TIME_MS_2_S (sample_dialog tsip_initial 1 []).expires) = c :: cs ∧
        tsip_message_contacts (tsip_dialog_request_new sample_deps
          (sample_dialog tsip_initial 1 []) (some (cstr "INVITE"))).1 =
          [{ c with
            params := (sample_dialog tsip_initial 1 []).operation.caps.foldl
              (fun ps param => tsk_params_add_param ps param.name param.value) c.params }]) :=
  ⟨by decide,
    (tsip_dialog_request_new_contact_header sample_deps (sample_dialog tsip_initial 1 [])
      (some (cstr "INVITE")) (by decide)).1 (by decide) (by decide)⟩



/-! ## P-Preferred-Identity -/

theorem tsip_message_preferred_identities_add_header (m : tsip_message_t)
    (h : tsip_header_t) :
    tsip_message_preferred_identities (tsip_message_add_header m h) =
      tsip_message_preferred_identities m ++
        (match h with
          | tsip_header_t.P_Preferred_Identity u => [u]
          | _ => []) := by
  unfold tsip_message_preferred_identities
  rw [tsip_message_select_add_header]
  cases h <;> rfl

/-- C21 (counterexample): with a preferred identity configured and early IMS disabled,
`tsip_dialog_add_common_headers` adds no P-Preferred-Identity header to a PRACK, an
INFO or an UPDATE request, while it adds one to an INVITE request. -/
theorem tsip_dialog_add_common_headers_prack_info_update :
    (sample_dialog_preferred false).stack.preferred_identity ≠ none ∧
    (sample_dialog_preferred false).stack.enable_earlyIMS = false ∧
    (sample_request "PRACK").request_type = tsip_PRACK ∧
    tsip_message_preferred_identities
      (tsip_dialog_add_common_headers (sample_dialog_preferred false)
        (sample_request "PRACK")) = [] ∧
    tsip_message_preferred_identities
      (tsip_dialog_add_common_headers (sample_dialog_preferred false)
        (sample_request "INFO")) = [] ∧
    tsip_message_preferred_identities
      (tsip_dialog_add_common_headers (sample_dialog_preferred false)
        (sample_request "UPDATE")) = [] ∧
    (tsip_message_preferred_identities
      (tsip_dialog_add_common_headers (sample_dialog_preferred false)
        (sample_request "INVITE"))).length = 1 := by
  decide

/-- C21 (amended): for every request to which `tsip_dialog_add_common_headers` is
applied with a preferred identity configured, one P-Preferred-Identity header carrying
that identity is added at the end when the request is a BYE, INVITE, OPTIONS,
SUBSCRIBE, NOTIFY, REFER, MESSAGE, PUBLISH or REGISTER and early IMS is disabled or the
request is a REGISTER; in every other case (early IMS enabled and a request other than
REGISTER; a PRACK, INFO, UPDATE, ACK, CANCEL or unknown method) none is added. -/
theorem tsip_dialog_add_common_headers_preferred_identity (self : tsip_dialog_t)
    (request : tsip_message_t) (pid : tsip_uri_t)
    (hpid : self.stack.preferred_identity = some pid) :
    tsip_message_preferred_identities (tsip_dialog_add_common_headers self request) =
      tsip_message_preferred_identities request ++
        (if request.request_type ∈ [tsip_BYE, tsip_INVITE, tsip_OPTIONS, tsip_SUBSCRIBE,
              tsip_NOTIFY, tsip_REFER, tsip_MESSAGE, tsip_PUBLISH, tsip_REGISTER] ∧
            (self.stack.enable_earlyIMS = false ∨ request.request_type = tsip_REGISTER)
          then [pid] else []) := by
  have h1 : ∀ (m : tsip_message_t),
      tsip_message_preferred_identities
        (match self.stack.netinfo with
          | some info =>
            match m.request_type with
            | tsip_BYE | tsip_INVITE | tsip_OPTIONS | tsip_REGISTER | tsip_SUBSCRIBE
            | tsip_NOTIFY | tsip_PRACK | tsip_INFO | tsip_UPDATE | tsip_REFER
            | tsip_MESSAGE | tsip_PUBLISH =>
              tsip_message_add_header m (tsip_header_t.P_Access_Network_Info info)
            | _ => m
          | none => m) = tsip_message_preferred_identities m := by
    intro m
    split
    · split <;> first
        | rfl
        | exact (tsip_message_preferred_identities_add_header _ _).trans (List.append_nil _)
    · rfl
  unfold tsip_dialog_add_common_headers
  refine (h1 _).trans ?_
  rw [hpid]
  unfold TSIP_REQUEST_IS_REGISTER
  dsimp only
  cases request.request_type <;> cases self.stack.enable_earlyIMS <;>
    simp [tsip_message_preferred_identities_add_header]

theorem tsip_dialog_add_common_headers_preferred_identity_witness :
    (sample_dialog_preferred true).stack.preferred_identity =
        sample_stack.public_identity ∧
      tsip_message_preferred_identities
        (tsip_dialog_add_common_headers (sample_dialog_preferred true)
          (sample_request "REGISTER")) =
        [{ sample_contact_uri with host := some (cstr "home.net"), port := 0 }] ∧
      tsip_message_preferred_identities
        (tsip_dialog_add_common_headers (sample_dialog_preferred true)
          (sample_request "INVITE")) = [] :=
  ⟨rfl,
    (tsip_dialog_add_common_headers_preferred_identity (sample_dialog_preferred true)
      (sample_request "REGISTER")
      { sample_contact_uri with host := some (cstr "home.net"), port := 0 } rfl).trans
      (by decide),
    by decide⟩

/-! ## Further properties of `tsip_dialog_update` -/

/-- The remote target after `tsip_dialog_update` on a 1xx (not 100) response with a To
tag or on a 2xx response is the one set by the block "Remote target". -/
theorem tsip_dialog_update_dialog_path_target (deps : tsip_deps) (self : tsip_dialog_t)
    (response : tsip_message_t) (To : tsip_header_To_t)
    (hTo : response.To = some To) (hresp : TSIP_MESSAGE_IS_RESPONSE response = true)
    (hcode : (100 < response.status_code ∧ response.status_code ≤ 199 ∧
        tsk_strempty To.tag = false) ∨
      (200 ≤ response.status_code ∧ response.status_code ≤ 299)) :
    (tsip_dialog_update deps self response).2.uri_remote_target =
      (tsip_dialog_update_remote_target deps self response
        (match response.CSeq with
          | some cseq => tsk_striequals cseq.method (some (cstr "REGISTER"))
          | none => false)).uri_remote_target := by
  have hn : ¬ (response.status_code = 401 ∨ response.status_code = 407 ∨
      response.status_code = 421 ∨ response.status_code = 494) := by omega
  have hr : 100 < response.status_code ∧ response.status_code < 300 := by omega
  have he : ¬ (response.status_code ≤ 199 ∧ tsk_strempty To.tag = true) := by
    rcases hcode with ⟨_, _, h⟩ | ⟨h, _⟩
    · simp [h]
    · omega
  unfold tsip_dialog_update
  simp only [hTo, hresp, if_true, hn, hr, he, if_false, and_self]
  split <;> rfl

/-- The local CSeq after `tsip_dialog_update` is the one before the call or the CSeq
number of the response. -/
theorem tsip_dialog_update_cseq_value (deps : tsip_deps) (self : tsip_dialog_t)
    (response : tsip_message_t) :
    (tsip_dialog_update deps self response).2.cseq_value = self.cseq_value ∨
      ∃ cseq, response.CSeq = some cseq ∧
        (tsip_dialog_update deps self response).2.cseq_value = cseq.seq := by
  cases hTo : response.To with
  | none => rw [tsip_dialog_update_rejected deps self response (Or.inl hTo)]; exact Or.inl rfl
  | some To =>
    cases hresp : TSIP_MESSAGE_IS_RESPONSE response with
    | false =>
      rw [tsip_dialog_update_rejected deps self response (Or.inr hresp)]; exact Or.inl rfl
    | true =>
      by_cases hch : response.status_code = 401 ∨ response.status_code = 407 ∨
          response.status_code = 421 ∨ response.status_code = 494
      · rw [tsip_dialog_update_challenge_codes deps self response To hTo hresp hch,
          tsip_dialog_update_challenges_frame]
        exact Or.inl rfl
      · by_cases hother : response.status_code ≤ 100 ∨ 300 ≤ response.status_code
        · rw [tsip_dialog_update_other_codes deps self response hother hch]
          exact Or.inl rfl
        · by_cases htag : response.status_code ≤ 199 ∧ tsk_strempty To.tag = true
          · rw [tsip_dialog_update_1xx_no_tag deps self response To hTo (by omega) htag.2]
            exact Or.inl rfl
          · have hcode : (100 < response.status_code ∧ response.status_code ≤ 199 ∧
                tsk_strempty To.tag = false) ∨
                (200 ≤ response.status_code ∧ response.status_code ≤ 299) := by
              by_cases h199 : response.status_code ≤ 199
              · left
                refine ⟨by omega, h199, ?_⟩
                cases hs : tsk_strempty To.tag
                · rfl
                · exact absurd ⟨h199, hs⟩ htag
              · right; omega
            obtain ⟨_, _, _, _, h5, h6⟩ :=
              tsip_dialog_update_dialog_path deps self response To hTo hresp hcode
            by_cases hg : self.state = tsip_established ∧
                tsk_striequals self.tag_remote To.tag = true
            · exact Or.inl (h5 hg).2.2
            · cases hc : response.CSeq with
              | none =>
                left
                have := (h6 hg).2.2
                rw [hc] at this
                exact this
              | some cseq =>
                right
                refine ⟨cseq, rfl, ?_⟩
                have := (h6 hg).2.2
                rw [hc] at this
                exact this

/-- C22: for every dialog and every response whose status code is 100, or is 300 or
greater and is not 401, 407, 421 or 494, `tsip_dialog_update` returns a non-zero code
(-1) and the dialog unchanged. -/
theorem tsip_dialog_update_other_status (deps : tsip_deps) (self : tsip_dialog_t)
    (response : tsip_message_t)
    (hcode : response.status_code = 100 ∨ 300 ≤ response.status_code)
    (hn : response.status_code ≠ 401 ∧ response.status_code ≠ 407 ∧
      response.status_code ≠ 421 ∧ response.status_code ≠ 494) :
    (tsip_dialog_update deps self response).1 ≠ 0 ∧
    (tsip_dialog_update deps self response).1 = -1 ∧
    (tsip_dialog_update deps self response).2 = self := by
  rw [tsip_dialog_update_other_codes deps self response (by omega) (by omega)]
  exact ⟨by simp, rfl, rfl⟩

theorem tsip_dialog_update_other_status_witness :
    (tsip_dialog_update sample_deps (sample_dialog tsip_early 5 [sample_uri "old" true])
        (sample_response_contact 486 (some (cstr "other"))
          (some { seq := 9, method := some (cstr "INVITE") }) (sample_contact 60)
          [tsip_header_t.Record_Route (sample_uri "r1" true)])).1 ≠ 0 ∧
    (tsip_dialog_update sample_deps (sample_dialog tsip_early 5 [sample_uri "old" true])
        (sample_response_contact 486 (some (cstr "other"))
          (some { seq := 9, method := some (cstr "INVITE") }) (sample_contact 60)
          [tsip_header_t.Record_Route (sample_uri "r1" true)])).1 = -1 ∧
    (tsip_dialog_update sample_deps (sample_dialog tsip_early 5 [sample_uri "old" true])
        (sample_response_contact 486 (some (cstr "other"))
          (some { seq := 9, method := some (cstr "INVITE") }) (sample_contact 60)
          [tsip_header_t.Record_Route (sample_uri "r1" true)])).2 =
      sample_dialog tsip_early 5 [sample_uri "old" true] :=
  tsip_dialog_update_other_status sample_deps _ _ (Or.inr (by decide))
    ⟨by decide, by decide, by decide, by decide⟩

/-- C23: for every dialog and every response with status 101 to 199 whose To tag is
empty (or that has no To header), `tsip_dialog_update` returns a non-zero code (-1)
and the dialog unchanged, whatever Contact and Record-Route headers the response
carries. -/
theorem tsip_dialog_update_provisional_no_tag (deps : tsip_deps) (self : tsip_dialog_t)
    (response : tsip_message_t)
    (hcode : 101 ≤ response.status_code ∧ response.status_code ≤ 199)
    (htag : ∀ To, response.To = some To → tsk_strempty To.tag = true) :
    (tsip_dialog_update deps self response).1 ≠ 0 ∧
    (tsip_dialog_update deps self response).1 = -1 ∧
    (tsip_dialog_update deps self response).2 = self := by
  have h : tsip_dialog_update deps self response = (-1, self) := by
    cases hTo : response.To with
    | none => exact tsip_dialog_update_rejected deps self response (Or.inl hTo)
    | some To =>
      exact tsip_dialog_update_1xx_no_tag deps self response To hTo (by omega) (htag To hTo)
  rw [h]
  exact ⟨by simp, rfl, rfl⟩

theorem tsip_dialog_update_provisional_no_tag_witness :
    (sample_response_contact 180 (some []) (some { seq := 9, method := some (cstr "INVITE") })
        (sample_contact 60) [tsip_header_t.Record_Route (sample_uri "r1" true)]).Contact ≠
      none ∧
    tsip_message_record_routes
      (sample_response_contact 180 (some []) (some { seq := 9, method := some (cstr "INVITE") })
        (sample_contact 60) [tsip_header_t.Record_Route (sample_uri "r1" true)]) ≠ [] ∧
    (tsip_dialog_update sample_deps (sample_dialog tsip_initial 5 [sample_uri "old" true])
        (sample_response_contact 180 (some [])
          (some { seq := 9, method := some (cstr "INVITE") }) (sample_contact 60)
          [tsip_header_t.Record_Route (sample_uri "r1" true)])).1 = -1 ∧
    (tsip_dialog_update sample_deps (sample_dialog tsip_initial 5 [sample_uri "old" true])
        (sample_response_contact 180 (some [])
          (some { seq := 9, method := some (cstr "INVITE") }) (sample_contact 60)
          [tsip_header_t.Record_Route (sample_uri "r1" true)])).2 =
      sample_dialog tsip_initial 5 [sample_uri "old" true] :=
  ⟨by decide, by decide,
    (tsip_dialog_update_provisional_no_tag sample_deps _ _ ⟨by decide, by decide⟩
      (fun To h => by cases h; rfl)).2⟩

/-- C24 (counterexample): a 100 response is a 1xx response; with a non-empty To tag,
the CSeq method INVITE and a Contact header, `tsip_dialog_update` returns -1 and
leaves the remote target of the dialog as it was, which is not the Contact URI. -/
theorem tsip_dialog_update_remote_target_100 :
    tsk_strempty (some (cstr "remote")) = false ∧
    tsk_striequals (some (cstr "INVITE")) (some (cstr "REGISTER")) = false ∧
    (sample_response_contact 100 (some (cstr "remote"))
      (some { seq := 9, method := some (cstr "INVITE") }) (sample_contact 60) []).Contact =
      some (sample_contact 60) ∧
    (tsip_dialog_update sample_deps (sample_dialog tsip_initial 5 [])
      (sample_response_contact 100 (some (cstr "remote"))
        (some { seq := 9, method := some (cstr "INVITE") }) (sample_contact 60) [])).1 = -1 ∧
    (tsip_dialog_update sample_deps (sample_dialog tsip_initial 5 [])
      (sample_response_contact 100 (some (cstr "remote"))
        (some { seq := 9, method := some (cstr "INVITE") }) (sample_contact 60)
        [])).2.uri_remote_target = some (sample_uri "remoteua" false) ∧
    (tsip_dialog_update sample_deps (sample_dialog tsip_initial 5 [])
      (sample_response_contact 100 (some (cstr "remote"))
        (some { seq := 9, method := some (cstr "INVITE") }) (sample_contact 60)
        [])).2.uri_remote_target ≠ (sample_contact 60).uri := by
  decide

/-- C24 (amended): for every dialog and every response with a To header that is a 2xx
response, or a 101-199 response with a non-empty To tag: if the CSeq method of the
response is REGISTER or the response has no Contact header, the remote target of the
dialog is unchanged after `tsip_dialog_update`; otherwise it is the copy of the
Contact URI made by `tsip_uri_clone(uri, 0, 0)` (no remote target when the Contact
header has no URI), which is the Contact URI when that copy is exact. -/
theorem tsip_dialog_update_remote_target_contact (deps : tsip_deps) (self : tsip_dialog_t)
    (response : tsip_message_t) (To : tsip_header_To_t)
    (hTo : response.To = some To) (hresp : TSIP_MESSAGE_IS_RESPONSE response = true)
    (hcode : (101 ≤ response.status_code ∧ response.status_code ≤ 199 ∧
        tsk_strempty To.tag = false) ∨
      (200 ≤ response.status_code ∧ response.status_code ≤ 299)) :
    ((∃ cseq, response.CSeq = some cseq ∧
          tsk_striequals cseq.method (some (cstr "REGISTER")) = true) ∨
        response.Contact = none →
      (tsip_dialog_update deps self response).2.uri_remote_target =
        self.uri_remote_target) ∧
    (∀ contact, response.Contact = some contact →
      (¬ ∃ cseq, response.CSeq = some cseq ∧
        tsk_striequals cseq.method (some (cstr "REGISTER")) = true) →
      (tsip_dialog_update deps self response).2.uri_remote_target =
          contact.uri.map (fun uri => deps.tsip_uri_clone uri false false) ∧
        ((∀ uri, deps.tsip_uri_clone uri false false = uri) →
          (tsip_dialog_update deps self response).2.uri_remote_target = contact.uri)) := by
  rw [tsip_dialog_update_dialog_path_target deps self response To hTo hresp
    (by rcases hcode with ⟨h1, h2, h3⟩ | h
        · exact Or.inl ⟨by omega, h2, h3⟩
        · exact Or.inr h)]
  unfold tsip_dialog_update_remote_target
  refine ⟨?_, ?_⟩
  · rintro (⟨cseq, hc, hreg⟩ | hcontact)
    · rw [hc]
      dsimp only
      rw [hreg]
      rfl
    · rw [hcontact]
      split <;> rfl
  · intro contact hcontact hnreg
    have hfalse : (match response.CSeq with
        | some cseq => tsk_striequals cseq.method (some (cstr "REGISTER"))
        | none => false) = false := by
      cases hc : response.CSeq with
      | none => rfl
      | some cseq =>
        dsimp only
        cases hs : tsk_striequals cseq.method (some (cstr "REGISTER"))
        · rfl
        · exact absurd ⟨cseq, hc, hs⟩ hnreg
    rw [hfalse, hcontact]
    refine ⟨rfl, ?_⟩
    intro hclone
    dsimp only
    cases contact.uri with
    | none => rfl
    | some uri => simp [hclone]

theorem tsip_dialog_update_remote_target_contact_witness :
    (tsip_dialog_update sample_deps (sample_dialog tsip_initial 5 [])
      (sample_response_contact 200 (some (cstr "remote"))
        (some { seq := 9, method := some (cstr "INVITE") }) (sample_contact 60)
        [])).2.uri_remote_target = some sample_contact_uri :=
  ((tsip_dialog_update_remote_target_contact sample_deps (sample_dialog tsip_initial 5 [])
      (sample_response_contact 200 (some (cstr "remote"))
        (some { seq := 9, method := some (cstr "INVITE") }) (sample_contact 60) [])
      { uri := none, tag := some (cstr "remote") } rfl rfl
      (Or.inr ⟨by decide, by decide⟩)).2
    (sample_contact 60) rfl (by decide)).2 (fun _ => rfl)

/-- C25 (the code at the failing input): an Established dialog with the remote tag
`remote` and the local CSeq 7 receives a 200 response with the To tag `REMOTE` and the
CSeq number 9.  The two tags differ for `tsk_strequals`, and `tsip_dialog_cmp` reports
two dialogs that differ in this way as different (-1); but `tsip_dialog_update`
compares them with `tsk_striequals`, finds them equal and returns 0 with the remote
tag `remote` and the local CSeq 7 unchanged. -/
theorem tsip_dialog_update_tag_case :
    tsk_strequals (some (cstr "remote")) (some (cstr "REMOTE")) = false ∧
    tsk_striequals (some (cstr "remote")) (some (cstr "REMOTE")) = true ∧
    (sample_dialog tsip_established 7 []).tag_remote = some (cstr "remote") ∧
    tsip_dialog_update sample_deps (sample_dialog tsip_established 7 [])
      (sample_response 200 (some (cstr "REMOTE"))
        (some { seq := 9, method := some (cstr "INVITE") }) []) =
      (0, sample_dialog tsip_established 7 []) ∧
    (tsip_dialog_update sample_deps (sample_dialog tsip_established 7 [])
      (sample_response 200 (some (cstr "REMOTE"))
        (some { seq := 9, method := some (cstr "INVITE") }) [])).2.tag_remote ≠
      some (cstr "REMOTE") ∧
    (tsip_dialog_update sample_deps (sample_dialog tsip_established 7 [])
      (sample_response 200 (some (cstr "REMOTE"))
        (some { seq := 9, method := some (cstr "INVITE") }) [])).2.cseq_value ≠ 9 ∧
    (tsip_dialog_update sample_deps (sample_dialog tsip_established 7 [])
      (sample_response 200 (some (cstr "other"))
        (some { seq := 9, method := some (cstr "INVITE") }) [])).2.tag_remote =
      some (cstr "other") ∧
    (tsip_dialog_update sample_deps (sample_dialog tsip_established 7 [])
      (sample_response 200 (some (cstr "other"))
        (some { seq := 9, method := some (cstr "INVITE") }) [])).2.cseq_value = 9 ∧
    tsip_dialog_cmp (some (sample_dialog tsip_established 7 []))
      (some { sample_dialog tsip_established 7 [] with tag_remote := some (cstr "REMOTE") }) =
      -1 ∧
    tsip_dialog_cmp (some (sample_dialog tsip_established 7 []))
      (some (sample_dialog tsip_established 7 [])) = 0 := by
  refine ⟨by decide, by decide, rfl, ?_, by decide, by decide, by decide, by decide,
    by decide, by decide⟩
  rfl

/-! ## The local CSeq over a sequence of calls -/

/-- C26 (counterexample): a dialog whose local CSeq is 10 receives a 200 response
whose CSeq number is 3; after `tsip_dialog_update` its local CSeq is 3. -/
theorem tsip_dialog_update_cseq_decreases :
    (sample_dialog tsip_initial 10 []).cseq_value = 10 ∧
    (sample_dialog tsip_initial 10 []).initialized = true ∧
    (tsip_dialog_update sample_deps (sample_dialog tsip_initial 10 [])
      (sample_response 200 (some (cstr "remote"))
        (some { seq := 3, method := some (cstr "INVITE") }) [])).1 = 0 ∧
    (tsip_dialog_update sample_deps (sample_dialog tsip_initial 10 [])
      (sample_response 200 (some (cstr "remote"))
        (some { seq := 3, method := some (cstr "INVITE") }) [])).2.cseq_value = 3 ∧
    (tsip_dialog_update sample_deps (sample_dialog tsip_initial 10 [])
      (sample_response 200 (some (cstr "remote"))
        (some { seq := 3, method := some (cstr "INVITE") }) [])).2.cseq_value <
      (sample_dialog tsip_initial 10 []).cseq_value := by
  decide

theorem tsip_dialog_call_apply_in_order (deps : tsip_deps) (self : tsip_dialog_t)
    (call : tsip_dialog_call) (h : tsip_dialog_call_in_order self call) :
    self.cseq_value ≤ (tsip_dialog_call_apply deps self call).cseq_value := by
  cases call with
  | request_new method =>
    simp only [tsip_dialog_call_apply]
    simp only [tsip_dialog_call_in_order] at h
    rw [(tsip_dialog_request_new_cseq_eq deps self method).2]
    dsimp only
    split
    · next hm =>
      rw [Nat.mod_eq_of_lt (h hm.1 hm.2)]
      exact Nat.le_succ _
    · exact Nat.le_refl _
  | update response =>
    simp only [tsip_dialog_call_apply]
    simp only [tsip_dialog_call_in_order] at h
    rcases tsip_dialog_update_cseq_value deps self response with he | ⟨cseq, hc, he⟩
    · rw [he]
    · rw [he]
      exact h cseq hc

/-- C26 (amended): ignoring wrap-around, no call of `tsip_dialog_request_new` leaves
the local CSeq of the dialog smaller than it was; a call of `tsip_dialog_update`
leaves it as it was or sets it to the CSeq number of the response, so it does not
lower it when that number is not below the local CSeq; and over every sequence of
such calls, each made on the dialog left by the calls before it, the local CSeq is
non-decreasing. -/
theorem tsip_dialog_calls_cseq_monotone (deps : tsip_deps) (self : tsip_dialog_t)
    (calls : List tsip_dialog_call)
    (horder : ∀ pre call post, calls = pre ++ call :: post →
      tsip_dialog_call_in_order (tsip_dialog_calls_apply deps self pre) call) :
    self.cseq_value ≤ (tsip_dialog_calls_apply deps self calls).cseq_value ∧
    (∀ pre call post, calls = pre ++ call :: post →
      (tsip_dialog_calls_apply deps self pre).cseq_value ≤
        (tsip_dialog_calls_apply deps self (pre ++ [call])).cseq_value) ∧
    (∀ response,
      (tsip_dialog_update deps self response).2.cseq_value = self.cseq_value ∨
        ∃ cseq, response.CSeq = some cseq ∧
          (tsip_dialog_update deps self response).2.cseq_value = cseq.seq) := by
  refine ⟨?_, ?_, fun response => tsip_dialog_update_cseq_value deps self response⟩
  · induction calls generalizing self with
    | nil => exact Nat.le_refl _
    | cons c cs ih =>
      have h1 := tsip_dialog_call_apply_in_order deps self c (horder [] c cs rfl)
      have h2 := ih (tsip_dialog_call_apply deps self c)
        (fun pre call post hp => horder (c :: pre) call post (by rw [hp]; rfl))
      exact Nat.le_trans h1 h2
  · intro pre call post hp
    unfold tsip_dialog_calls_apply
    rw [List.foldl_append]
    exact tsip_dialog_call_apply_in_order deps _ call (horder pre call post hp)

theorem tsip_dialog_calls_cseq_monotone_witness :
    (sample_dialog tsip_initial 10 []).cseq_value ≤
      (tsip_dialog_calls_apply sample_deps (sample_dialog tsip_initial 10 [])
        [tsip_dialog_call.request_new (some (cstr "INVITE")),
         tsip_dialog_call.update
          (sample_response 200 (some (cstr "remote"))
            (some { seq := 11, method := some (cstr "INVITE") }) []),
         tsip_dialog_call.request_new (some (cstr "ACK")),
         tsip_dialog_call.request_new (some (cstr "BYE"))]).cseq_value ∧
    (tsip_dialog_calls_apply sample_deps (sample_dialog tsip_initial 10 [])
        [tsip_dialog_call.request_new (some (cstr "INVITE")),
         tsip_dialog_call.update
          (sample_response 200 (some (cstr "remote"))
            (some { seq := 11, method := some (cstr "INVITE") }) []),
         tsip_dialog_call.request_new (some (cstr "ACK")),
         tsip_dialog_call.request_new (some (cstr "BYE"))]).cseq_value = 12 :=
  ⟨(tsip_dialog_calls_cseq_monotone sample_deps (sample_dialog tsip_initial 10 [])
      [tsip_dialog_call.request_new (some (cstr "INVITE")),
       tsip_dialog_call.update
        (sample_response 200 (some (cstr "remote"))
          (some { seq := 11, method := some (cstr "INVITE") }) []),
       tsip_dialog_call.request_new (some (cstr "ACK")),
       tsip_dialog_call.request_new (some (cstr "BYE"))]
      (by
        intro pre call post hp
        rcases pre with _ | ⟨a, _ | ⟨b, _ | ⟨c, _ | ⟨d, pre⟩⟩⟩⟩
        all_goals simp only [List.nil_append, List.cons_append, List.cons.injEq] at hp
        · obtain ⟨rfl, _⟩ := hp
          intro _ _; decide
        · obtain ⟨rfl, rfl, _⟩ := hp
          intro cseq hc
          cases hc
          decide
        · obtain ⟨rfl, rfl, rfl, _⟩ := hp
          intro h; exact absurd (by decide) h
        · obtain ⟨rfl, rfl, rfl, rfl, _⟩ := hp
          intro _ _; decide
        · obtain ⟨_, _, _, _, h⟩ := hp
          cases pre <;> simp at h)).1,
    by decide⟩



/-! ## The refresh delay -/

theorem tsip_dialog_newdelay_notify_none (response : tsip_message_t)
    (hnotify : ¬ ∃ cseq e, response.CSeq = some cseq ∧
      tsk_striequals cseq.method (some (cstr "NOTIFY")) = true ∧
      tsip_message_get_subscription_state response = some e ∧ 0 < e) :
    tsip_dialog_newdelay_notify response = none := by
  unfold tsip_dialog_newdelay_notify
  cases hc : response.CSeq with
  | none => rfl
  | some cseq =>
    dsimp only
    cases hm : tsk_striequals cseq.method (some (cstr "NOTIFY")) with
    | false => rfl
    | true =>
      rw [if_pos rfl]
      cases hs : tsip_message_get_subscription_state response with
      | none => rfl
      | some e =>
        dsimp only
        by_cases hpos : e > 0
        · exact absurd ⟨cseq, e, hc, hm, hs, hpos⟩ hnotify
        · rw [if_neg hpos]

/-- The loop over the Contact headers returns the expiry of the first Contact that
`tsip_contact_is_local` accepts. -/
theorem tsip_dialog_newdelay_contacts_find (stack : tsip_stack_t)
    (contacts : List tsip_header_Contact_t) :
    tsip_dialog_newdelay_contacts stack contacts =
      (contacts.find? (tsip_contact_is_local stack)).map
        (fun c => TSK_TIME_S_2_MS c.expires) := by
  induction contacts with
  | nil => rfl
  | cons c cs ih =>
    unfold tsip_dialog_newdelay_contacts
    rw [List.find?_cons]
    unfold tsip_contact_is_local
    cases c.uri with
    | none => exact ih
    | some uri =>
      dsimp only
      cases stack.contacturi (tsk_params_get_param_value uri.params (cstr "transport")) with
      | none => exact ih
      | some contactUri =>
        dsimp only
        by_cases hq : (tsk_strequals uri.user_name contactUri.user_name
            && tsk_strequals uri.host contactUri.host
            && decide (uri.port = contactUri.port)
            && decide (0 ≤ c.expires)) = true
        · have hq2 : (tsk_strequals uri.user_name contactUri.user_name
              && tsk_strequals uri.host contactUri.host
              && decide (uri.port = contactUri.port)
              && decide (c.expires ≥ 0)) = true := hq
          rw [if_pos hq2, hq]
          rfl
        · have hq2 : ¬ (tsk_strequals uri.user_name contactUri.user_name
              && tsk_strequals uri.host contactUri.host
              && decide (uri.port = contactUri.port)
              && decide (c.expires ≥ 0)) = true := hq
          rw [if_neg hq2, Bool.eq_false_iff.mpr hq]
          exact ih

/-- The code after `compute:` on an expiry of `x >= 0` milliseconds. -/
theorem tsip_dialog_newdelay_compute_eq (x : Int) (hx : 0 ≤ x) :
    tsip_dialog_newdelay_compute x = tsip_refresh_delay (x / 1000) := by
  have h1 : 0 ≤ x / 1000 := by omega
  unfold tsip_dialog_newdelay_compute tsip_refresh_delay TSK_TIME_S_2_MS TSK_TIME_MS_2_S
  dsimp only
  rw [Int.tdiv_eq_ediv hx (by decide), Int.tdiv_eq_ediv h1 (by decide)]
  split <;> ring

/-- C30: the code after `compute:` in `tsip_dialog_get_newdelay`, on a selected expiry
of `x >= 0` milliseconds, returns a whole multiple of 1000 between 0 and `x`, strictly
below `x` when `x >= 1000`, and it is monotone: for `x <= y` the delay for `x` is at
most the delay for `y`; 1200 seconds give 600 seconds and 1201 seconds give 601
seconds. -/
theorem tsip_dialog_newdelay_compute_bounds (x y : Int) (hx : 0 ≤ x) (hxy : x ≤ y) :
    (∃ k, tsip_dialog_newdelay_compute x = 1000 * k) ∧
    0 ≤ tsip_dialog_newdelay_compute x ∧
    tsip_dialog_newdelay_compute x ≤ x ∧
    (1000 ≤ x → tsip_dialog_newdelay_compute x < x) ∧
    tsip_dialog_newdelay_compute x ≤ tsip_dialog_newdelay_compute y ∧
    tsip_dialog_newdelay_compute (TSK_TIME_S_2_MS 1200) = TSK_TIME_S_2_MS 600 ∧
    tsip_dialog_newdelay_compute (TSK_TIME_S_2_MS 1201) = TSK_TIME_S_2_MS 601 := by
  rw [tsip_dialog_newdelay_compute_eq x hx, tsip_dialog_newdelay_compute_eq y (by omega)]
  unfold tsip_refresh_delay
  refine ⟨?_, ?_, ?_, ?_, ?_, by decide, by decide⟩
  · split
    · exact ⟨_, rfl⟩
    · exact ⟨_, rfl⟩
  · split <;> omega
  · split <;> omega
  · intro h
    split <;> omega
  · split <;> split <;> omega

theorem tsip_dialog_newdelay_compute_bounds_witness :
    tsip_dialog_newdelay_compute 1200999 = 600000 ∧
    tsip_dialog_newdelay_compute 1200999 < 1200999 ∧
    tsip_dialog_newdelay_compute 1200999 ≤ tsip_dialog_newdelay_compute 1201000 ∧
    tsip_dialog_newdelay_compute 1201000 = 601000 :=
  ⟨by decide,
    (tsip_dialog_newdelay_compute_bounds 1200999 1201000 (by decide) (by decide)).2.2.2.1
      (by decide),
    (tsip_dialog_newdelay_compute_bounds 1200999 1201000 (by decide) (by decide)).2.2.2.2.1,
    by decide⟩



/-! ## The accepted lines and the header read from them -/

/-- In the states 2 and 3 the machine stays where it is, with the same variables, as
long as it reads spaces. -/
theorem tsdp_machine_run_spaces (data : List Int) (s : Int) (hs : s = 2 ∨ s = 3)
    (seg rest : List Int) (p : Nat) (ts : Option Nat) (hdr : tsdp_header_C_t)
    (hseg : ∀ b ∈ seg, b = 32) :
    tsdp_machine_run data (seg ++ rest) p ⟨s, ts, hdr⟩ =
      tsdp_machine_run data rest (p + seg.length) ⟨s, ts, hdr⟩ := by
  induction seg generalizing p with
  | nil => rfl
  | cons b seg ih =>
    have hb : b = 32 := hseg b (List.mem_cons_self b seg)
    subst hb
    have hstep : tsdp_machine_step data p 32 ⟨s, ts, hdr⟩ = ⟨s, ts, hdr⟩ := by
      obtain ⟨_, h2, _, h3, _⟩ := tsdp_machine_step_eq data p 0 ts hdr
      rcases hs with rfl | rfl
      · exact h2
      · exact h3
    have hs0 : s ≠ 0 := by
      rcases hs with rfl | rfl <;> decide
    rw [List.cons_append, tsdp_machine_run, if_neg hs0, hstep,
      ih (p + 1) (fun x hx => hseg x (List.mem_cons_of_mem _ hx)), List.length_cons]
    congr 1
    omega

/-- From the state 3, a non-empty token without space followed by a space: the
nettype. -/
theorem tsdp_machine_run_nettype (data : List Int) (n rest : List Int) (p : Nat)
    (ts : Option Nat) (hdr : tsdp_header_C_t) (hn : n ≠ []) (hns : ∀ b ∈ n, b ≠ 32) :
    tsdp_machine_run data (n ++ 32 :: rest) p ⟨3, ts, hdr⟩ =
      tsdp_machine_run data rest (p + n.length + 1)
        ⟨5, some p,
          { hdr with nettype := TSK_PARSER_SET_STRING data (some p) (p + n.length) }⟩ := by
  obtain ⟨n0, n1, rfl⟩ := List.exists_cons_of_ne_nil hn
  rw [List.cons_append, tsdp_machine_run, if_neg (show ¬ ((3 : Int) = 0) by decide),
    tsdp_machine_step_3_other data p n0 ts hdr (hns n0 (List.mem_cons_self _ _)),
    tsdp_machine_run_token data 4 32 (Or.inl ⟨rfl, rfl⟩) n1 _ _ _ _
      (fun b hb => hns b (List.mem_cons_of_mem _ hb)),
    tsdp_machine_run, if_neg (show ¬ ((4 : Int) = 0) by decide), tsdp_machine_step_4_sp, List.length_cons]
  have e1 : p + 1 + n1.length = p + (n1.length + 1) := by omega
  rw [e1]

/-- From the state 5, a token without space (possibly empty) followed by a space: the
addrtype. -/
theorem tsdp_machine_run_addrtype (data : List Int) (t rest : List Int) (p : Nat)
    (ts : Option Nat) (hdr : tsdp_header_C_t) (hts : ∀ b ∈ t, b ≠ 32) :
    tsdp_machine_run data (t ++ 32 :: rest) p ⟨5, ts, hdr⟩ =
      tsdp_machine_run data rest (p + t.length + 1)
        ⟨7, some p,
          { hdr with addrtype := TSK_PARSER_SET_STRING data (some p) (p + t.length) }⟩ := by
  cases t with
  | nil =>
    rw [List.nil_append, tsdp_machine_run, if_neg (show ¬ ((5 : Int) = 0) by decide),
      (tsdp_machine_step_eq data p 0 ts hdr).2.2.2.2.2.2.2.2.1]
    rfl
  | cons t0 t1 =>
    rw [List.cons_append, tsdp_machine_run, if_neg (show ¬ ((5 : Int) = 0) by decide),
      tsdp_machine_step_5_other data p t0 ts hdr (hts t0 (List.mem_cons_self _ _)),
      tsdp_machine_run_token data 6 32 (Or.inr (Or.inl ⟨rfl, rfl⟩)) t1 _ _ _ _
        (fun b hb => hts b (List.mem_cons_of_mem _ hb)),
      tsdp_machine_run, if_neg (show ¬ ((6 : Int) = 0) by decide), tsdp_machine_step_6_sp, List.length_cons]
    have e1 : p + 1 + t1.length = p + (t1.length + 1) := by omega
    rw [e1]

/-- From the state 7, bytes other than CR (possibly none) followed by CR: the addr. -/
theorem tsdp_machine_run_addr (data : List Int) (a rest : List Int) (p : Nat)
    (ts : Option Nat) (hdr : tsdp_header_C_t) (has : ∀ b ∈ a, b ≠ 13) :
    tsdp_machine_run data (a ++ 13 :: rest) p ⟨7, ts, hdr⟩ =
      tsdp_machine_run data rest (p + a.length + 1)
        ⟨9, some p,
          { hdr with addr := TSK_PARSER_SET_STRING data (some p) (p + a.length) }⟩ := by
  cases a with
  | nil =>
    rw [List.nil_append, tsdp_machine_run, if_neg (show ¬ ((7 : Int) = 0) by decide),
      (tsdp_machine_step_eq data p 0 ts hdr).2.2.2.2.2.2.2.2.2.2.2.2.1]
    rfl
  | cons a0 a1 =>
    rw [List.cons_append, tsdp_machine_run, if_neg (show ¬ ((7 : Int) = 0) by decide),
      tsdp_machine_step_7_other data p a0 ts hdr (has a0 (List.mem_cons_self _ _)),
      tsdp_machine_run_token data 8 13 (Or.inr (Or.inr ⟨rfl, rfl⟩)) a1 _ _ _ _
        (fun b hb => has b (List.mem_cons_of_mem _ hb)),
      tsdp_machine_run, if_neg (show ¬ ((8 : Int) = 0) by decide), tsdp_machine_step_8_cr, List.length_cons]
    have e1 : p + 1 + a1.length = p + (a1.length + 1) := by omega
    rw [e1]

theorem TSK_PARSER_SET_STRING_at (data pre seg post : List Int) (ts q : Nat)
    (hdata : data = pre ++ seg ++ post)
    (hts : ts = pre.length) (hq : q = pre.length + seg.length) :
    TSK_PARSER_SET_STRING data (some ts) q = some seg := by
  subst hdata
  exact TSK_PARSER_SET_STRING_eq pre seg post ts q hts hq

/-- The run of the machine over a line of the grammar, from the start state: it ends
in the state 10 with the three tokens of the line in the header, whatever follows the
line in the buffer. -/
theorem tsdp_machine_run_grammar (sp1 sp2 n t a extra : List Int) (hdr : tsdp_header_C_t)
    (h1 : ∀ b ∈ sp1, b = 32) (h2 : ∀ b ∈ sp2, b = 32)
    (hn : n ≠ []) (hns : ∀ b ∈ n, b ≠ 32) (hts : ∀ b ∈ t, b ≠ 32) (has : ∀ b ∈ a, b ≠ 13) :
    (tsdp_machine_run
      ([99] ++ sp1 ++ [61] ++ sp2 ++ n ++ [32] ++ t ++ [32] ++ a ++ [13, 10] ++ extra)
      ([99] ++ sp1 ++ [61] ++ sp2 ++ n ++ [32] ++ t ++ [32] ++ a ++ [13, 10])
      0 ⟨1, none, hdr⟩).cs = 10 ∧
    (tsdp_machine_run
      ([99] ++ sp1 ++ [61] ++ sp2 ++ n ++ [32] ++ t ++ [32] ++ a ++ [13, 10] ++ extra)
      ([99] ++ sp1 ++ [61] ++ sp2 ++ n ++ [32] ++ t ++ [32] ++ a ++ [13, 10])
      0 ⟨1, none, hdr⟩).hdr_C =
        { nettype := some n, addrtype := some t, addr := some a } := by
  have hshape : [99] ++ sp1 ++ [61] ++ sp2 ++ n ++ [32] ++ t ++ [32] ++ a ++ [13, 10] =
      99 :: (sp1 ++ 61 :: (sp2 ++ (n ++ 32 :: (t ++ 32 :: (a ++ 13 :: [10]))))) := by
    simp
  generalize hdata :
    [99] ++ sp1 ++ [61] ++ sp2 ++ n ++ [32] ++ t ++ [32] ++ a ++ [13, 10] ++ extra = data
  rw [hshape, tsdp_machine_run, if_neg (show ¬ ((1 : Int) = 0) by decide), tsdp_machine_step_1_c,
    tsdp_machine_run_spaces data 2 (Or.inl rfl) sp1 _ _ _ _ h1,
    tsdp_machine_run, if_neg (show ¬ ((2 : Int) = 0) by decide), tsdp_machine_step_2_eq,
    tsdp_machine_run_spaces data 3 (Or.inr rfl) sp2 _ _ _ _ h2,
    tsdp_machine_run_nettype data n _ _ _ _ hn hns,
    tsdp_machine_run_addrtype data t _ _ _ _ hts,
    tsdp_machine_run_addr data a _ _ _ _ has,
    tsdp_machine_run, if_neg (show ¬ ((9 : Int) = 0) by decide), tsdp_machine_step_9_lf]
  refine ⟨rfl, ?_⟩
  show tsdp_header_C_t.mk _ _ _ = _
  refine congr (congr (congrArg tsdp_header_C_t.mk ?_) ?_) ?_
  · exact TSK_PARSER_SET_STRING_at data ([99] ++ sp1 ++ [61] ++ sp2) n
      ([32] ++ t ++ [32] ++ a ++ [13, 10] ++ extra) _ _
      (by rw [← hdata]; simp)
      (by simp only [List.length_append, List.length_cons, List.length_nil])
      (by simp only [List.length_append, List.length_cons, List.length_nil])
  · exact TSK_PARSER_SET_STRING_at data ([99] ++ sp1 ++ [61] ++ sp2 ++ n ++ [32]) t
      ([32] ++ a ++ [13, 10] ++ extra) _ _
      (by rw [← hdata]; simp)
      (by simp only [List.length_append, List.length_cons, List.length_nil])
      (by simp only [List.length_append, List.length_cons, List.length_nil])
  · exact TSK_PARSER_SET_STRING_at data ([99] ++ sp1 ++ [61] ++ sp2 ++ n ++ [32] ++ t ++ [32])
      a ([13, 10] ++ extra) _ _
      (by rw [← hdata]; simp)
      (by simp only [List.length_append, List.length_cons, List.length_nil])
      (by simp only [List.length_append, List.length_cons, List.length_nil])

/-- The header that `tsdp_header_C_parse` returns when the first `size` bytes are a
line of the grammar. -/
theorem tsdp_header_C_parse_grammar (data : List Int) (size : Nat)
    (sp1 sp2 n t a : List Int)
    (hline : data.take size =
      [99] ++ sp1 ++ [61] ++ sp2 ++ n ++ [32] ++ t ++ [32] ++ a ++ [13, 10])
    (h1 : ∀ b ∈ sp1, b = 32) (h2 : ∀ b ∈ sp2, b = 32)
    (hn : n ≠ []) (hns : ∀ b ∈ n, b ≠ 32) (hts : ∀ b ∈ t, b ≠ 32) (has : ∀ b ∈ a, b ≠ 13) :
    tsdp_header_C_parse data size =
      some { nettype := some n, addrtype := some t, addr := some a } := by
  have hd : data =
      [99] ++ sp1 ++ [61] ++ sp2 ++ n ++ [32] ++ t ++ [32] ++ a ++ [13, 10] ++
        data.drop size := by
    rw [← hline]
    exact (List.take_append_drop size data).symm
  obtain ⟨hcs, hh⟩ := tsdp_machine_run_grammar sp1 sp2 n t a (data.drop size)
    TSDP_HEADER_C_CREATE_NULL h1 h2 hn hns hts has
  rw [← hd] at hcs hh
  unfold tsdp_header_C_parse
  dsimp only
  rw [hline]
  have hstart : tsdp_machine_parser_header_C_start = 1 := rfl
  rw [hstart, hcs, hh, if_neg (by decide)]

/-- C28: `tsdp_header_C_parse` returns a header exactly when the machine ends in the
state 10, which happens exactly when the first `size` bytes of the input are a line of
the grammar: `c`, spaces, `=`, spaces, a non-empty nettype without space, one space,
an addrtype without space, one space, an addr without CR, CR, LF and nothing more; in
every other case it returns `NULL`.  The empty input, a line without `c=`, a line
without CR LF and a line with a byte after CR LF are rejected, and a NUL byte in the
address is read as any other byte. -/
theorem tsdp_header_C_parse_accepts (data : List Int) (size : Nat) :
    ((tsdp_header_C_parse data size).isSome = true ↔
      (tsdp_machine_run data (data.take size) 0
        { cs := tsdp_machine_parser_header_C_start, tag_start := none,
          hdr_C := TSDP_HEADER_C_CREATE_NULL }).cs =
        tsdp_machine_parser_header_C_first_final) ∧
    ((tsdp_header_C_parse data size).isSome = true ↔ tsdp_header_C_line (data.take size)) ∧
    (¬ tsdp_header_C_line (data.take size) → tsdp_header_C_parse data size = none) ∧
    tsdp_header_C_parse [] 0 = none ∧
    tsdp_header_C_parse (cstr "IN IP4 10.0.0.1\r\n") (cstr "IN IP4 10.0.0.1\r\n").length =
      none ∧
    tsdp_header_C_parse (cstr "c=IN IP4 10.0.0.1") (cstr "c=IN IP4 10.0.0.1").length = none ∧
    tsdp_header_C_parse (cstr "c=IN IP4 10.0.0.1\r\nx") (cstr "c=IN IP4 10.0.0.1\r\nx").length =
      none ∧
    tsdp_header_C_parse (cstr "c=IN IP4 10.0.0.1\r\nx") (cstr "c=IN IP4 10.0.0.1\r\n").length =
      some { nettype := some (cstr "IN"), addrtype := some (cstr "IP4"),
             addr := some (cstr "10.0.0.1") } ∧
    tsdp_header_C_parse (cstr "c=IN IP4 10" ++ [0] ++ cstr ".1\r\n")
        (cstr "c=IN IP4 10" ++ [0] ++ cstr ".1\r\n").length =
      some { nettype := some (cstr "IN"), addrtype := some (cstr "IP4"),
             addr := some (cstr "10" ++ [0] ++ cstr ".1") } := by
  have hiff : (tsdp_header_C_parse data size).isSome = true ↔
      tsdp_header_C_line (data.take size) := by
    constructor
    · intro h
      exact tsdp_machine_accept_1 _ ((tsdp_header_C_parse_isSome data size).1.mp h)
    · rintro ⟨sp1, sp2, n, t, a, hline, h1, h2, hn, hns, hts, has⟩
      rw [tsdp_header_C_parse_grammar data size sp1 sp2 n t a hline h1 h2 hn hns hts has]
      rfl
  refine ⟨?_, hiff, ?_, by decide, by decide, by decide, by decide, by decide, by decide⟩
  · rw [(tsdp_header_C_parse_isSome data size).1, tsdp_machine_run_cs]
    have hr := tsdp_machine_cs_run_range (data.take size) 1 (by decide)
    simp only [tsdp_machine_parser_header_C_start, tsdp_machine_parser_header_C_first_final]
    omega
  · intro hnot
    cases hp : tsdp_header_C_parse data size with
    | none => rfl
    | some h =>
      exfalso
      apply hnot
      apply hiff.mp
      rw [hp]
      rfl

/-! ## Table bounds of the "c=" machine -/

theorem tsdp_table_read_eq (table : List Int) (i : Int) (h0 : 0 ≤ i)
    (h1 : i < table.length) :
    tsdp_table_read table i = some (tsdp_table_at table i) := by
  unfold tsdp_table_read tsdp_table_at
  have hlt : i.toNat < table.length := by omega
  rw [if_pos h0, List.get?_eq_get hlt, List.getD_eq_getElem _ _ hlt]
  rfl

/-- Inside the table of keys and with fuel above the length of the interval, the
checked binary search ends and finds what the binary search finds. -/
theorem tsdp_machine_single_search_checked_eq (c : Int) (fuel : Nat) (lower upper : Int)
    (hl : 0 ≤ lower) (hu : upper < 11) (hf : (upper - lower + 1).toNat < fuel) :
    tsdp_machine_single_search_checked c fuel lower upper =
      some (tsdp_machine_single_search c fuel lower upper) := by
  induction fuel generalizing lower upper with
  | zero => omega
  | succ k ih =>
    unfold tsdp_machine_single_search_checked tsdp_machine_single_search
    by_cases hul : upper < lower
    · rw [if_pos hul, if_pos hul]
    · rw [if_neg hul, if_neg hul]
      dsimp only
      rw [tsdp_table_read_eq _ _ (by omega)
        (by have : (_tsdp_machine_parser_header_C_trans_keys.length : Int) = 11 := rfl
            omega)]
      dsimp only
      split
      · exact ih _ _ hl (by omega) (by omega)
      · split
        · exact ih _ _ (by omega) hu (by omega)
        · rfl

/-- The look-up of the transition in the states 1 to 10: every read is inside its
table, the search ends, and the index found is that of `tsdp_machine_trans`. -/
theorem tsdp_machine_trans_checked_eq (cs c : Int) (h : 1 ≤ cs ∧ cs ≤ 10) :
    tsdp_machine_trans_checked cs c = some (tsdp_machine_trans cs c) := by
  have hk : (_tsdp_machine_parser_header_C_key_offsets.length : Int) = 11 := rfl
  have hi : (_tsdp_machine_parser_header_C_index_offsets.length : Int) = 11 := rfl
  have hs : (_tsdp_machine_parser_header_C_single_lengths.length : Int) = 11 := rfl
  have hr : (_tsdp_machine_parser_header_C_range_lengths.length : Int) = 11 := rfl
  have hbound : 0 ≤ tsdp_table_at _tsdp_machine_parser_header_C_key_offsets cs ∧
      tsdp_table_at _tsdp_machine_parser_header_C_key_offsets cs +
        tsdp_table_at _tsdp_machine_parser_header_C_single_lengths cs - 1 < 11 ∧
      0 ≤ tsdp_table_at _tsdp_machine_parser_header_C_single_lengths cs ∧
      tsdp_table_at _tsdp_machine_parser_header_C_range_lengths cs = 0 := by
    obtain ⟨h1, h2⟩ := h
    interval_cases cs <;> decide
  obtain ⟨hb1, hb2, hb3, hb4⟩ := hbound
  unfold tsdp_machine_trans_checked tsdp_machine_trans
  rw [tsdp_table_read_eq _ cs (by omega) (by omega),
    tsdp_table_read_eq _ cs (by omega) (by omega),
    tsdp_table_read_eq _ cs (by omega) (by omega),
    tsdp_table_read_eq _ cs (by omega) (by omega)]
  dsimp only
  rw [hb4]
  by_cases hklen : tsdp_table_at _tsdp_machine_parser_header_C_single_lengths cs > 0
  · have hss := tsdp_machine_single_search_checked_eq c
      ((tsdp_table_at _tsdp_machine_parser_header_C_single_lengths cs).toNat + 1)
      (tsdp_table_at _tsdp_machine_parser_header_C_key_offsets cs)
      (tsdp_table_at _tsdp_machine_parser_header_C_key_offsets cs +
        tsdp_table_at _tsdp_machine_parser_header_C_single_lengths cs - 1)
      hb1 hb2 (by omega)
    simp only [if_pos hklen, hss]
    cases tsdp_machine_single_search c
        ((tsdp_table_at _tsdp_machine_parser_header_C_single_lengths cs).toNat + 1)
        (tsdp_table_at _tsdp_machine_parser_header_C_key_offsets cs)
        (tsdp_table_at _tsdp_machine_parser_header_C_key_offsets cs +
          tsdp_table_at _tsdp_machine_parser_header_C_single_lengths cs - 1) with
    | none => simp
    | some mid => rfl
  · simp only [if_neg hklen]
    simp

/-- Every entry of the 21-entry tables of targets and of action offsets: the target is
a state from 0 to 10, and the action list at the offset (its length, then its action
numbers) is inside the 17-entry table of actions. -/
theorem tsdp_machine_trans_tables (t : Int) (h : 0 ≤ t ∧ t < 21) :
    0 ≤ tsdp_table_at _tsdp_machine_parser_header_C_trans_targs t ∧
    tsdp_table_at _tsdp_machine_parser_header_C_trans_targs t ≤ 10 ∧
    0 ≤ tsdp_table_at _tsdp_machine_parser_header_C_trans_actions t ∧
    0 ≤ tsdp_table_at _tsdp_machine_parser_header_C_actions
      (tsdp_table_at _tsdp_machine_parser_header_C_trans_actions t) ∧
    tsdp_table_at _tsdp_machine_parser_header_C_trans_actions t +
      tsdp_table_at _tsdp_machine_parser_header_C_actions
        (tsdp_table_at _tsdp_machine_parser_header_C_trans_actions t) < 17 := by
  obtain ⟨h1, h2⟩ := h
  interval_cases t <;> decide

/-- Every entry of the table of actions is a number from 0 to 4. -/
theorem tsdp_machine_action_ids (j : Int) (h : 0 ≤ j ∧ j < 17) :
    0 ≤ tsdp_table_at _tsdp_machine_parser_header_C_actions j ∧
    tsdp_table_at _tsdp_machine_parser_header_C_actions j ≤ 4 := by
  obtain ⟨h1, h2⟩ := h
  interval_cases j <;> decide

/-- The index of the transition taken in a state from 1 to 10 is below 20. -/
theorem tsdp_machine_trans_range (cs c : Int) (h : 1 ≤ cs ∧ cs ≤ 10) :
    0 ≤ tsdp_machine_trans cs c ∧ tsdp_machine_trans cs c < 20 := by
  obtain ⟨e1, e2, e3, e4, e5, e6, e7, e8, e9, e10⟩ := tsdp_machine_trans_eq c
  obtain ⟨h1, h2⟩ := h
  interval_cases cs
  · rw [e1]; split_ifs <;> decide
  · rw [e2]; split_ifs <;> decide
  · rw [e3]; split_ifs <;> decide
  · rw [e4]; split_ifs <;> decide
  · rw [e5]; split_ifs <;> decide
  · rw [e6]; split_ifs <;> decide
  · rw [e7]; split_ifs <;> decide
  · rw [e8]; split_ifs <;> decide
  · rw [e9]; split_ifs <;> decide
  · rw [e10]; decide

theorem tsdp_machine_exec_checked_eq (data : List Int) (p : Nat) (nacts : Nat) (acts : Int)
    (st : tsdp_machine_state) (h0 : 0 ≤ acts) (h1 : acts + nacts ≤ 17) :
    tsdp_machine_exec_checked data p nacts acts st =
      some (tsdp_machine_exec data p nacts acts st) := by
  induction nacts generalizing acts st with
  | zero => rfl
  | succ k ih =>
    unfold tsdp_machine_exec_checked tsdp_machine_exec
    rw [tsdp_table_read_eq _ acts h0
      (by have : (_tsdp_machine_parser_header_C_actions.length : Int) = 17 := rfl
          push_cast at h1
          omega)]
    dsimp only
    exact ih _ _ (by omega) (by push_cast at h1 ⊢; omega)

/-- In a state from 1 to 10 the checked step reads inside every table and is the step
of the machine. -/
theorem tsdp_machine_step_checked_eq (data : List Int) (p : Nat) (c : Int)
    (st : tsdp_machine_state) (h : 1 ≤ st.cs ∧ st.cs ≤ 10) :
    tsdp_machine_step_checked data p c st = some (tsdp_machine_step data p c st) := by
  have hT := tsdp_machine_trans_range st.cs c h
  obtain ⟨_, _, ha0, hn0, hlist⟩ := tsdp_machine_trans_tables (tsdp_machine_trans st.cs c)
    ⟨hT.1, by omega⟩
  have htl : (_tsdp_machine_parser_header_C_trans_targs.length : Int) = 21 := rfl
  have hal : (_tsdp_machine_parser_header_C_trans_actions.length : Int) = 21 := rfl
  have hcl : (_tsdp_machine_parser_header_C_actions.length : Int) = 17 := rfl
  unfold tsdp_machine_step_checked tsdp_machine_step
  rw [tsdp_machine_trans_checked_eq st.cs c h]
  dsimp only
  rw [tsdp_table_read_eq _ _ hT.1 (by omega), tsdp_table_read_eq _ _ hT.1 (by omega)]
  dsimp only
  split
  · rfl
  · rw [tsdp_table_read_eq _ _ ha0 (by omega)]
    dsimp only
    exact tsdp_machine_exec_checked_eq data p _ _ _ (by omega)
      (by rw [Int.toNat_of_nonneg hn0]; omega)

/-- From a state between 0 and 10 the checked run reads inside every table on every
input, ends in the state in which the machine ends, and takes at most one transition
for each byte. -/
theorem tsdp_machine_run_checked_eq (data : List Int) (xs : List Int) (p : Nat)
    (st : tsdp_machine_state) (h : 0 ≤ st.cs ∧ st.cs ≤ 10) :
    ∃ k, k ≤ xs.length ∧
      tsdp_machine_run_checked data xs p st = some (tsdp_machine_run data xs p st, k) := by
  induction xs generalizing p st with
  | nil => exact ⟨0, Nat.le_refl _, rfl⟩
  | cons c rest ih =>
    unfold tsdp_machine_run_checked tsdp_machine_run
    by_cases h0 : st.cs = 0
    · rw [if_pos h0, if_pos h0]
      exact ⟨0, Nat.zero_le _, rfl⟩
    · rw [if_neg h0, if_neg h0, tsdp_machine_step_checked_eq data p c st (by omega)]
      dsimp only
      have hnext : 0 ≤ (tsdp_machine_step data p c st).cs ∧
          (tsdp_machine_step data p c st).cs ≤ 10 := by
        rw [tsdp_machine_step_cs]
        have hT := tsdp_machine_trans_range st.cs c (by omega)
        obtain ⟨t1, t2, _⟩ := tsdp_machine_trans_tables (tsdp_machine_trans st.cs c)
          ⟨hT.1, by omega⟩
        exact ⟨t1, t2⟩
      obtain ⟨k, hk, hrun⟩ := ih (p + 1) (tsdp_machine_step data p c st) hnext
      rw [hrun]
      exact ⟨k + 1, by rw [List.length_cons]; omega, rfl⟩

/-- C31: in every state from 1 to 10 and on every input byte, the look-up of the
transition (`key_offsets`, the binary search over the `single_lengths` keys,
`index_offsets`, `range_lengths`) reads inside its tables, ends, and gives an index
inside the 21-entry tables `trans_targs` and `trans_actions`; the target is a state
from 0 to 10; the action list at the action offset lies inside the 17-entry table of
actions and its action numbers are from 0 to 4; the whole step reads inside every
table; and on every input `tsdp_header_C_parse` returns its result without a read
outside a table, after at most one transition for each of the `size` bytes. -/
theorem tsdp_machine_lookup_in_bounds (cs c : Int) (h : 1 ≤ cs ∧ cs ≤ 10) :
    tsdp_machine_trans_checked cs c = some (tsdp_machine_trans cs c) ∧
    _tsdp_machine_parser_header_C_trans_targs.length = 21 ∧
    _tsdp_machine_parser_header_C_trans_actions.length = 21 ∧
    _tsdp_machine_parser_header_C_actions.length = 17 ∧
    0 ≤ tsdp_machine_trans cs c ∧ tsdp_machine_trans cs c < 21 ∧
    0 ≤ tsdp_machine_next cs c ∧ tsdp_machine_next cs c ≤ 10 ∧
    0 ≤ tsdp_table_at _tsdp_machine_parser_header_C_trans_actions (tsdp_machine_trans cs c) ∧
    0 ≤ tsdp_table_at _tsdp_machine_parser_header_C_actions
      (tsdp_table_at _tsdp_machine_parser_header_C_trans_actions (tsdp_machine_trans cs c)) ∧
    tsdp_table_at _tsdp_machine_parser_header_C_trans_actions (tsdp_machine_trans cs c) +
      tsdp_table_at _tsdp_machine_parser_header_C_actions
        (tsdp_table_at _tsdp_machine_parser_header_C_trans_actions
          (tsdp_machine_trans cs c)) < 17 ∧
    (∀ j : Int,
      tsdp_table_at _tsdp_machine_parser_header_C_trans_actions (tsdp_machine_trans cs c) < j →
      j ≤ tsdp_table_at _tsdp_machine_parser_header_C_trans_actions (tsdp_machine_trans cs c) +
        tsdp_table_at _tsdp_machine_parser_header_C_actions
          (tsdp_table_at _tsdp_machine_parser_header_C_trans_actions
            (tsdp_machine_trans cs c)) →
      0 ≤ tsdp_table_at _tsdp_machine_parser_header_C_actions j ∧
        tsdp_table_at _tsdp_machine_parser_header_C_actions j ≤ 4) ∧
    (∀ (data : List Int) (p : Nat) (st : tsdp_machine_state), st.cs = cs →
      tsdp_machine_step_checked data p c st = some (tsdp_machine_step data p c st)) ∧
    (∀ (data : List Int) (size : Nat), ∃ k, k ≤ size ∧ k ≤ data.length ∧
      tsdp_header_C_parse_checked data size = some (tsdp_header_C_parse data size, k)) := by
  have hT := tsdp_machine_trans_range cs c h
  obtain ⟨t1, t2, t3, t4, t5⟩ := tsdp_machine_trans_tables (tsdp_machine_trans cs c)
    ⟨hT.1, by omega⟩
  refine ⟨tsdp_machine_trans_checked_eq cs c h, rfl, rfl, rfl, hT.1, by omega, t1, t2, t3, t4,
    t5, ?_, ?_, ?_⟩
  · intro j hj1 hj2
    exact tsdp_machine_action_ids j ⟨by omega, by omega⟩
  · intro data p st hst
    exact tsdp_machine_step_checked_eq data p c st (by rw [hst]; exact h)
  · intro data size
    obtain ⟨k, hk, hrun⟩ := tsdp_machine_run_checked_eq data (data.take size) 0
      { cs := tsdp_machine_parser_header_C_start, tag_start := none,
        hdr_C := TSDP_HEADER_C_CREATE_NULL } (by decide)
    refine ⟨k, ?_, ?_, ?_⟩
    · exact Nat.le_trans hk (List.length_take_le size data)
    · exact Nat.le_trans hk (by rw [List.length_take]; exact Nat.min_le_right _ _)
    · unfold tsdp_header_C_parse_checked tsdp_header_C_parse
      rw [hrun]

theorem tsdp_machine_lookup_in_bounds_witness :
    ((1 : Int) ≤ 5 ∧ (5 : Int) ≤ 10) ∧
    tsdp_machine_trans_checked 5 32 = some 9 ∧
    tsdp_machine_next 5 32 = 7 ∧
    tsdp_table_at _tsdp_machine_parser_header_C_trans_actions 9 = 11 ∧
    tsdp_table_at _tsdp_machine_parser_header_C_actions 11 = 2 ∧
    tsdp_header_C_parse_checked (cstr "c=IN IP4 10.0.0.1\r\n")
        (cstr "c=IN IP4 10.0.0.1\r\n").length =
      some (some { nettype := some (cstr "IN"), addrtype := some (cstr "IP4"),
                   addr := some (cstr "10.0.0.1") }, 19) ∧
    tsdp_header_C_parse_checked (cstr "m=audio") (cstr "m=audio").length = some (none, 1) ∧
    tsdp_machine_trans_checked 11 32 = none ∧
    tsdp_table_read _tsdp_machine_parser_header_C_actions 17 = none :=
  ⟨by decide,
    (tsdp_machine_lookup_in_bounds 5 32 (by decide)).1.trans (by decide),
    by decide, by decide, by decide, by decide, by decide, by decide, by decide⟩



/-! ## The text written by `tsdp_header_C_tostring` -/

theorem tsk_format_s_length (s : List Int) :
    (tsk_format_s (some s)).length ≤ s.length :=
  (List.takeWhile_prefix _).length_le

theorem tsk_format_s_eq (s : List Int) (h : ∀ b ∈ s, b ≠ 0) :
    tsk_format_s (some s) = s := by
  unfold tsk_format_s
  rw [List.takeWhile_eq_self_iff]
  intro b hb
  simpa using h b hb

/-- C11 (counterexample): for the header `IN IP4 10.0.0.1`, `tsdp_header_C_tostring`
writes `IN IP4 10.0.0.1`, without `c=` and without CR LF, and `tsdp_header_C_parse`
rejects these bytes; and between `c=` and CR LF the header whose nettype is `I N`
(with a space) is read back with the nettype `I`. -/
theorem tsdp_header_C_tostring_not_parsed :
    tsdp_header_C_tostring
        { nettype := some (cstr "IN"), addrtype := some (cstr "IP4"),
          addr := some (cstr "10.0.0.1") } [] = cstr "IN IP4 10.0.0.1" ∧
    tsdp_header_C_parse
        (tsdp_header_C_tostring
          { nettype := some (cstr "IN"), addrtype := some (cstr "IP4"),
            addr := some (cstr "10.0.0.1") } [])
        (tsdp_header_C_tostring
          { nettype := some (cstr "IN"), addrtype := some (cstr "IP4"),
            addr := some (cstr "10.0.0.1") } []).length = none ∧
    tsdp_header_C_parse
        (cstr "c=" ++ tsdp_header_C_tostring
          { nettype := some (cstr "I N"), addrtype := some (cstr "IP4"),
            addr := some (cstr "10.0.0.1") } [] ++ cstr "\r\n")
        (cstr "c=" ++ tsdp_header_C_tostring
          { nettype := some (cstr "I N"), addrtype := some (cstr "IP4"),
            addr := some (cstr "10.0.0.1") } [] ++ cstr "\r\n").length =
      some { nettype := some (cstr "I"), addrtype := some (cstr "N"),
             addr := some (cstr "IP4 10.0.0.1") } := by
  decide

/-- C11 (amended): for every "c=" header `h`, `tsdp_header_C_parse` run over the bytes
that `tsdp_header_C_tostring` writes for `h`, whatever the size given, does not return
a header equal to `h` (the text has neither `c=` nor CR LF: it is rejected or read as
another header); and when the nettype of `h` is non-empty, its nettype and addrtype
contain no space and no NUL and its addr contains no carriage return and no NUL,
`tsdp_header_C_parse` run over `c=`, the bytes written for `h`, CR, LF returns a
header equal to `h`. -/
theorem tsdp_header_C_parse_tostring (h : tsdp_header_C_t) :
    (∀ size : Nat, tsdp_header_C_parse (tsdp_header_C_tostring h []) size ≠ some h) ∧
    (∀ n t a : List Int,
      h = { nettype := some n, addrtype := some t, addr := some a } →
      n ≠ [] → (∀ b ∈ n, b ≠ 32 ∧ b ≠ 0) → (∀ b ∈ t, b ≠ 32 ∧ b ≠ 0) →
      (∀ b ∈ a, b ≠ 13 ∧ b ≠ 0) →
      tsdp_header_C_parse (cstr "c=" ++ tsdp_header_C_tostring h [] ++ cstr "\r\n")
        (cstr "c=" ++ tsdp_header_C_tostring h [] ++ cstr "\r\n").length = some h) := by
  constructor
  · intro size hacc
    have hsome : (tsdp_header_C_parse (tsdp_header_C_tostring h []) size).isSome = true := by
      rw [hacc]; rfl
    obtain ⟨sp1, sp2, n, t, a, hline, h1, h2, hn, hns, hts, has⟩ :=
      tsdp_machine_accept_1 _ ((tsdp_header_C_parse_isSome _ size).1.mp hsome)
    have hh := tsdp_header_C_parse_grammar _ size sp1 sp2 n t a hline h1 h2 hn hns hts has
    rw [hacc] at hh
    have hh2 : h = { nettype := some n, addrtype := some t, addr := some a } :=
      Option.some.inj hh
    have hlen := congrArg List.length hline
    have htake : ((tsdp_header_C_tostring h []).take size).length ≤
        (tsdp_header_C_tostring h []).length := (List.take_prefix _ _).length_le
    have hto : (tsdp_header_C_tostring h []).length ≤ n.length + t.length + a.length + 2 := by
      rw [hh2]
      unfold tsdp_header_C_tostring
      simp only [List.length_append, List.length_cons, List.length_nil]
      have := tsk_format_s_length n
      have := tsk_format_s_length t
      have := tsk_format_s_length a
      omega
    simp only [List.length_append, List.length_cons, List.length_nil] at hlen
    omega
  · intro n t a hh hn hns hts has
    have hc : cstr "c=" = [99] ++ [] ++ [61] ++ [] := by decide
    have hnl : cstr "\r\n" = [13, 10] := by decide
    have hto : tsdp_header_C_tostring h [] = n ++ [32] ++ t ++ [32] ++ a := by
      rw [hh]
      unfold tsdp_header_C_tostring
      rw [tsk_format_s_eq n (fun b hb => (hns b hb).2),
        tsk_format_s_eq t (fun b hb => (hts b hb).2),
        tsk_format_s_eq a (fun b hb => (has b hb).2)]
      rfl
    rw [hto, hh]
    apply tsdp_header_C_parse_grammar _ _ [] [] n t a _ (by simp) (by simp) hn
      (fun b hb => (hns b hb).1) (fun b hb => (hts b hb).1) (fun b hb => (has b hb).1)
    rw [List.take_length, hc, hnl]
    simp

/-- C11 (witness): the header `IN IP4 10.0.0.1` is read back between `c=` and CR LF;
and the text written for the header with the nettype `c=IN` and the addr `10.0.0.1`,
CR, LF is accepted, as the header `IN IP4 10.0.0.1`, which is another header. -/
theorem tsdp_header_C_parse_tostring_witness :
    tsdp_header_C_parse
        (cstr "c=" ++
          tsdp_header_C_tostring
            { nettype := some (cstr "IN"), addrtype := some (cstr "IP4"),
              addr := some (cstr "10.0.0.1") } []
          ++ cstr "\r\n")
        (cstr "c=" ++
          tsdp_header_C_tostring
            { nettype := some (cstr "IN"), addrtype := some (cstr "IP4"),
              addr := some (cstr "10.0.0.1") } []
          ++ cstr "\r\n").length =
      some { nettype := some (cstr "IN"), addrtype := some (cstr "IP4"),
             addr := some (cstr "10.0.0.1") } ∧
    tsdp_header_C_parse
        (tsdp_header_C_tostring
          { nettype := some (cstr "c=IN"), addrtype := some (cstr "IP4"),
            addr := some (cstr "10.0.0.1\r\n") } []) 19 =
      some { nettype := some (cstr "IN"), addrtype := some (cstr "IP4"),
             addr := some (cstr "10.0.0.1") } ∧
    tsdp_header_C_parse
        (tsdp_header_C_tostring
          { nettype := some (cstr "c=IN"), addrtype := some (cstr "IP4"),
            addr := some (cstr "10.0.0.1\r\n") } []) 19 ≠
      some { nettype := some (cstr "c=IN"), addrtype := some (cstr "IP4"),
             addr := some (cstr "10.0.0.1\r\n") } :=
  ⟨(tsdp_header_C_parse_tostring
      { nettype := some (cstr "IN"), addrtype := some (cstr "IP4"),
        addr := some (cstr "10.0.0.1") }).2
      (cstr "IN") (cstr "IP4") (cstr "10.0.0.1") rfl
      (by decide) (by decide) (by decide) (by decide),
    by decide,
    (tsdp_header_C_parse_tostring
      { nettype := some (cstr "c=IN"), addrtype := some (cstr "IP4"),
        addr := some (cstr "10.0.0.1\r\n") }).1 19⟩

/-- C29 (counterexample): the input `c=IN IP4 10`, NUL, `.1`, CR, LF is accepted with
an addr that holds the NUL byte; `tsdp_header_C_tostring` prints the addr as a C
string and writes `IN IP4 10`, which is not the accepted line without `c=` and CR LF,
and parsing `c=`, that text, CR, LF gives the addr `10`, another header. -/
theorem tsdp_header_C_tostring_stops_at_nul :
    tsdp_header_C_parse (cstr "c=IN IP4 10" ++ [0] ++ cstr ".1\r\n")
        (cstr "c=IN IP4 10" ++ [0] ++ cstr ".1\r\n").length = some sample_header_C_nul ∧
    tsdp_header_C_tostring sample_header_C_nul [] = cstr "IN IP4 10" ∧
    cstr "c=IN IP4 10" ++ [0] ++ cstr ".1\r\n" ≠
      cstr "c=" ++ tsdp_header_C_tostring sample_header_C_nul [] ++ cstr "\r\n" ∧
    tsdp_header_C_parse
        (cstr "c=" ++ tsdp_header_C_tostring sample_header_C_nul [] ++ cstr "\r\n")
        (cstr "c=" ++ tsdp_header_C_tostring sample_header_C_nul [] ++ cstr "\r\n").length =
      some { nettype := some (cstr "IN"), addrtype := some (cstr "IP4"),
             addr := some (cstr "10") } ∧
    tsdp_header_C_parse
        (cstr "c=" ++ tsdp_header_C_tostring sample_header_C_nul [] ++ cstr "\r\n")
        (cstr "c=" ++ tsdp_header_C_tostring sample_header_C_nul [] ++ cstr "\r\n").length ≠
      some sample_header_C_nul := by
  decide

/-- C29 (amended): for every input without a NUL byte that `tsdp_header_C_parse`
accepts with the header `h`, the text that `tsdp_header_C_tostring` writes for `h`
(into an empty buffer) is the accepted line without its leading `c`, spaces, `=`,
spaces and without its final CR LF, and it does not start with a space; and parsing
`c=` followed by that text followed by CR LF returns `h` again, also when the addrtype
or the addr is empty or the addr contains spaces. -/
theorem tsdp_header_C_tostring_parse (data : List Int) (size : Nat) (h : tsdp_header_C_t)
    (hacc : tsdp_header_C_parse data size = some h)
    (hnul : ∀ b ∈ data.take size, b ≠ 0) :
    (∃ sp1 sp2 : List Int, (∀ b ∈ sp1, b = 32) ∧ (∀ b ∈ sp2, b = 32) ∧
      data.take size =
        [99] ++ sp1 ++ [61] ++ sp2 ++ tsdp_header_C_tostring h [] ++ [13, 10] ∧
      (tsdp_header_C_tostring h []).head? ≠ some 32) ∧
    tsdp_header_C_parse (cstr "c=" ++ tsdp_header_C_tostring h [] ++ cstr "\r\n")
        (cstr "c=" ++ tsdp_header_C_tostring h [] ++ cstr "\r\n").length = some h := by
  have hsome : (tsdp_header_C_parse data size).isSome = true := by rw [hacc]; rfl
  obtain ⟨sp1, sp2, n, t, a, hline, h1, h2, hn, hns, hts, has⟩ :=
    tsdp_machine_accept_1 _ ((tsdp_header_C_parse_isSome data size).1.mp hsome)
  have hh := tsdp_header_C_parse_grammar data size sp1 sp2 n t a hline h1 h2 hn hns hts has
  rw [hacc] at hh
  have hh2 : h = { nettype := some n, addrtype := some t, addr := some a } :=
    Option.some.inj hh
  rw [hline] at hnul
  have hn0 : ∀ b ∈ n, b ≠ 0 := fun b hb => hnul b (by simp [hb])
  have ht0 : ∀ b ∈ t, b ≠ 0 := fun b hb => hnul b (by simp [hb])
  have ha0 : ∀ b ∈ a, b ≠ 0 := fun b hb => hnul b (by simp [hb])
  have hto : tsdp_header_C_tostring h [] = n ++ [32] ++ t ++ [32] ++ a := by
    rw [hh2]
    unfold tsdp_header_C_tostring
    rw [tsk_format_s_eq n hn0, tsk_format_s_eq t ht0, tsk_format_s_eq a ha0]
    rfl
  refine ⟨⟨sp1, sp2, h1, h2, ?_, ?_⟩, ?_⟩
  · rw [hline, hto]
    simp
  · rw [hto]
    obtain ⟨n0, n1, rfl⟩ := List.exists_cons_of_ne_nil hn
    intro hhead
    have : n0 = 32 := by simpa using hhead
    exact hns n0 (List.mem_cons_self _ _) this
  · have hc : cstr "c=" = [99] ++ [] ++ [61] ++ [] := by decide
    have hnl : cstr "\r\n" = [13, 10] := by decide
    rw [hto, hh2]
    apply tsdp_header_C_parse_grammar _ _ [] [] n t a _ (by simp) (by simp) hn hns hts has
    rw [List.take_length, hc, hnl]
    simp

theorem tsdp_header_C_tostring_parse_witness :
    tsdp_header_C_parse (cstr "c =  IN  10.0.0.1 127\r\n")
        (cstr "c =  IN  10.0.0.1 127\r\n").length = some sample_header_C ∧
    tsdp_header_C_tostring sample_header_C [] = cstr "IN  10.0.0.1 127" ∧
    tsdp_header_C_parse (cstr "c=" ++ tsdp_header_C_tostring sample_header_C [] ++ cstr "\r\n")
        (cstr "c=" ++ tsdp_header_C_tostring sample_header_C [] ++ cstr "\r\n").length =
      some sample_header_C :=
  ⟨by decide, by decide,
    (tsdp_header_C_tostring_parse (cstr "c =  IN  10.0.0.1 127\r\n")
      (cstr "c =  IN  10.0.0.1 127\r\n").length sample_header_C (by decide) (by decide)).2⟩

/-! ## The refresh delay taken from a Contact or from the dialog -/

/-- The code after `compute:` on any expiry in milliseconds. -/
theorem tsip_dialog_newdelay_compute_truncated (x : Int) :
    tsip_dialog_newdelay_compute x = tsip_refresh_delay_truncated (TSK_TIME_MS_2_S x) := by
  unfold tsip_dialog_newdelay_compute tsip_refresh_delay_truncated TSK_TIME_S_2_MS
  dsimp only
  split <;> ring

theorem tsip_refresh_delay_truncated_eq (e : Int) (h : 0 ≤ e) :
    tsip_refresh_delay_truncated e = tsip_refresh_delay e := by
  unfold tsip_refresh_delay_truncated tsip_refresh_delay
  rw [Int.tdiv_eq_ediv h (by decide)]

/-- C27 (counterexample): a dialog whose expires value is -3000 ms and a response
without Expires header, Subscription-State header and Contact header: the selected
value is `e = -3` seconds and `1000 * floor(e / 2)` is -2000, but
`tsip_dialog_get_newdelay` returns -1000, the C division truncating towards zero. -/
theorem tsip_dialog_get_newdelay_negative_expires :
    tsip_message_get_expires (sample_response 200 (some (cstr "remote")) none []) = none ∧
    tsip_message_contacts (sample_response 200 (some (cstr "remote")) none []) = [] ∧
    (sample_response 200 (some (cstr "remote")) none []).CSeq = none ∧
    TSK_TIME_MS_2_S (sample_dialog_expires (-3000)).expires = -3 ∧
    tsip_refresh_delay (-3) = -2000 ∧
    tsip_dialog_get_newdelay (sample_dialog_expires (-3000))
      (sample_response 200 (some (cstr "remote")) none []) = -1000 ∧
    tsip_dialog_get_newdelay (sample_dialog_expires (-3000))
      (sample_response 200 (some (cstr "remote")) none []) ≠
      tsip_refresh_delay (TSK_TIME_MS_2_S (sample_dialog_expires (-3000)).expires) := by
  decide

/-- C27 (amended): for every dialog and every response that has no Expires header and
is not a NOTIFY with a positive Subscription-State expires, `tsip_dialog_get_newdelay`
takes the expiry `e` from the first Contact header, in header order, whose URI has the
user name, host and port of the contact URI of the stack and whose expires is at least
0, and from the expires value of the dialog (milliseconds truncated to seconds) when
there is no such Contact; it returns `1000 * (e - 600)` when `e > 1200` and 1000 times
`e / 2` truncated towards zero otherwise, which is `1000 * floor(e / 2)` whenever
`e >= 0`: for every expiry taken from a Contact, and for the expires value of the
dialog when it is not negative. -/
theorem tsip_dialog_get_newdelay_contact (self : tsip_dialog_t) (response : tsip_message_t)
    (hE : tsip_message_get_expires response = none)
    (hnotify : ¬ ∃ cseq e, response.CSeq = some cseq ∧
      tsk_striequals cseq.method (some (cstr "NOTIFY")) = true ∧
      tsip_message_get_subscription_state response = some e ∧ 0 < e) :
    tsip_dialog_get_newdelay self response =
      tsip_refresh_delay_truncated
        (match (tsip_message_contacts response).find? (tsip_contact_is_local self.stack) with
          | some contact => contact.expires
          | none => TSK_TIME_MS_2_S self.expires) ∧
    (∀ contact,
      (tsip_message_contacts response).find? (tsip_contact_is_local self.stack) =
        some contact →
      0 ≤ contact.expires ∧
        tsip_dialog_get_newdelay self response = tsip_refresh_delay contact.expires) ∧
    ((tsip_message_contacts response).find? (tsip_contact_is_local self.stack) = none →
      0 ≤ self.expires →
      tsip_dialog_get_newdelay self response =
        tsip_refresh_delay (TSK_TIME_MS_2_S self.expires)) ∧
    (∀ e, tsip_refresh_delay_truncated e =
      if e > 1200 then 1000 * (e - 600) else 1000 * Int.tdiv e 2) ∧
    (∀ e, tsip_refresh_delay e = if e > 1200 then 1000 * (e - 600) else 1000 * (e / 2)) := by
  have hmain : tsip_dialog_get_newdelay self response =
      tsip_refresh_delay_truncated
        (match (tsip_message_contacts response).find? (tsip_contact_is_local self.stack) with
          | some contact => contact.expires
          | none => TSK_TIME_MS_2_S self.expires) := by
    unfold tsip_dialog_get_newdelay
    simp only [tsip_dialog_newdelay_notify_none response hnotify, hE,
      tsip_dialog_newdelay_contacts_find]
    rw [tsip_dialog_newdelay_compute_truncated]
    cases (tsip_message_contacts response).find? (tsip_contact_is_local self.stack) with
    | none => rfl
    | some c =>
      dsimp only [Option.map]
      unfold TSK_TIME_S_2_MS TSK_TIME_MS_2_S
      rw [Int.mul_tdiv_cancel c.expires (by decide)]
  refine ⟨hmain, ?_, ?_, fun e => rfl, fun e => rfl⟩
  · intro c hf
    have hc : 0 ≤ c.expires := by
      have := List.find?_some hf
      unfold tsip_contact_is_local at this
      split at this
      · split at this
        · simp only [Bool.and_eq_true, decide_eq_true_eq] at this
          exact this.2
        · cases this
      · cases this
    refine ⟨hc, ?_⟩
    rw [hmain, hf]
    exact tsip_refresh_delay_truncated_eq _ hc
  · intro hf h0
    rw [hmain, hf]
    apply tsip_refresh_delay_truncated_eq
    show 0 ≤ TSK_TIME_MS_2_S self.expires
    unfold TSK_TIME_MS_2_S
    rw [Int.tdiv_eq_ediv h0 (by decide)]
    omega

theorem tsip_dialog_get_newdelay_contact_witness :
    tsip_dialog_get_newdelay (sample_dialog tsip_established 1 [])
      { sample_response 200 (some (cstr "remote"))
          (some { seq := 2, method := some (cstr "REGISTER") })
          [tsip_header_t.Contact
            { uri := some { sample_contact_uri with user_name := some (cstr "bob") },
              expires := 7200, params := [] },
           tsip_header_t.Contact (sample_contact 3600),
           tsip_header_t.Contact (sample_contact 60)] with
        Contact := some (sample_contact (-1)) } = 3000000 ∧
    tsip_dialog_get_newdelay (sample_dialog_expires (-3000))
      (sample_response 200 (some (cstr "remote")) none []) =
      tsip_refresh_delay_truncated (-3) :=
  ⟨(tsip_dialog_get_newdelay_contact (sample_dialog tsip_established 1 [])
      { sample_response 200 (some (cstr "remote"))
          (some { seq := 2, method := some (cstr "REGISTER") })
          [tsip_header_t.Contact
            { uri := some { sample_contact_uri with user_name := some (cstr "bob") },
              expires := 7200, params := [] },
           tsip_header_t.Contact (sample_contact 3600),
           tsip_header_t.Contact (sample_contact 60)] with
        Contact := some (sample_contact (-1)) }
      (by decide)
      (by
        rintro ⟨cseq, e, hc, hm, _⟩
        cases hc
        revert hm
        decide)).1.trans (by decide),
    (tsip_dialog_get_newdelay_contact (sample_dialog_expires (-3000))
      (sample_response 200 (some (cstr "remote")) none []) (by decide)
      (by
        rintro ⟨cseq, e, hc, _⟩
        cases hc)).1⟩

end Doubango
